import Mathlib

/-!
Verification development for the `dctdnoiz` video filter
(`libavfilter/vf_dctdnoiz.c`): a DCT-based image denoiser that slides
`bsize × bsize` blocks over the processable region of a frame, filters the
transform coefficients of each block, and reconstructs the plane by
overlap-add followed by a per-pixel weight normalization.

The C code is shallowly embedded as follows.

* C `int` arithmetic is modelled by `ℤ`; the C `%` operator (truncated
  remainder, sign of the dividend) is `Int.tmod`.
* C `float`/`double` arithmetic is idealized as exact arithmetic over `ℚ`;
  float literals become the exact rationals they are written as.  The
  implicit C conversion from a floating value to `int` truncates toward
  zero and is modelled by `cTruncToInt`.
* Pixel planes are total functions `ℕ → ℕ → ℚ` (row index first), packed
  8-bit frames are `ℕ → ℕ → Fin 3 → ℕ` (row, pixel column, byte within the
  pixel).  Loops become folds / finite sums over the exact iteration
  spaces of the source loops.
* The loop `for (p = 0; p < limit; p += step)` (with `step ≥ 1`) visits
  exactly the multiples of `step` below `limit`; `sweepF` / `sweepList`
  are that iteration space (empty when `limit ≤ 0`, as in C where the
  bound is a possibly negative `int`).
* `av_expr_parse` / `av_expr_eval` live outside this file's sources; per
  the specification the engine only needs a total callable `ℚ → ℚ`,
  modelled as an `Option (ℚ → ℚ)` argument (`some none` standing for a
  supplied expression string that fails to parse).
-/

namespace Dctdnoiz

/-- Processable dimension, `config_input` line 433/434:
`s->pr_width = inlink->w - (inlink->w - bsize) % s->step;`
with C's truncated remainder. -/
def processableDim (dim : ℤ) (bsize step : ℕ) : ℤ :=
  dim - (dim - (bsize : ℤ)).tmod (step : ℤ)

/-- The geometry fields of the filter context set by `config_input`. -/
structure InputConfig where
  prWidth : ℤ
  prHeight : ℤ

/-- Geometry computation of `config_input` (lines 433-434). -/
def configInput (w h : ℤ) (bsize step : ℕ) : InputConfig :=
  { prWidth := processableDim w bsize step,
    prHeight := processableDim h bsize step }

/-- Iteration space of `for (p = 0; p < limit; p += step)` with `step ≥ 1`:
the multiples of `step` below `limit` (none when `limit ≤ 0`). -/
def sweepF (limit : ℤ) (step : ℕ) : Finset ℕ :=
  (Finset.range limit.toNat).filter (fun p => p % step = 0)

/-- List form of the same iteration space, in loop order. -/
def sweepList (limit : ℤ) (step : ℕ) : List ℕ :=
  (List.range limit.toNat).filter (fun p => p % step == 0)

/-- The integer coverage counter of `config_input` (lines 457-461): the
number of times the four nested loops
`for (y = 0; y < pr_h - bsize + 1; y += step) for (x = ...) for (by) for (bx)`
increment `iweights[(y+by)*linesize + x + bx]` at pixel `(x, y)`. -/
def iweights (prw prh : ℤ) (bsize step : ℕ) (x y : ℕ) : ℕ :=
  ∑ y0 ∈ sweepF (prh - (bsize : ℤ) + 1) step,
    ∑ x0 ∈ sweepF (prw - (bsize : ℤ) + 1) step,
      ∑ dy ∈ Finset.range bsize, ∑ dx ∈ Finset.range bsize,
        if x0 + dx = x ∧ y0 + dy = y then 1 else 0

/-- The stored weight map, `config_input` line 464:
`s->weights[y*linesize + x] = 1. / iweights[y*linesize + x];`. -/
def weights (prw prh : ℤ) (bsize step : ℕ) (x y : ℕ) : ℚ :=
  1 / (iweights prw prh bsize step x y : ℚ)

/-- Number of block positions visited by the sweep of `filter_plane`
(lines 611-617) whose `bsize × bsize` footprint covers pixel `(x, y)`. -/
def filterPlaneCount (w h : ℤ) (bsize step : ℕ) (x y : ℕ) : ℕ :=
  ∑ y0 ∈ sweepF (h - (bsize : ℤ) + 1) step,
    ∑ x0 ∈ sweepF (w - (bsize : ℤ) + 1) step,
      if y0 ≤ y ∧ y < y0 + bsize ∧ x0 ≤ x ∧ x < x0 + bsize then 1 else 0

/-- C conversion of a floating value to `int`: truncation toward zero. -/
def cTruncToInt (q : ℚ) : ℤ := if 0 ≤ q then ⌊q⌋ else ⌈q⌉

/-- Modelled from the spec: `av_clip_uint8` (libavutil, not among the
sources here) clamps an `int` to the valid 8-bit range `[0, 255]`. -/
def avClipUint8 (a : ℤ) : ℕ := if a < 0 then 0 else if 255 < a then 255 else a.toNat

/-- The filter context fields relevant to the numeric engine
(`DCTdnoizContext`): block size, overlap, step, threshold `th`, and the
parsed coefficient-factor expression (if any). -/
structure DnoizCtx where
  bsize : ℕ
  overlap : ℤ
  step : ℤ
  th : ℚ
  expr : Option (ℚ → ℚ)

/-- Setup failures of `init`. -/
inductive InitError where
  | invalidOverlap
  | exprParseError
deriving DecidableEq

/-- `init` (lines 470-506): computes `bsize = 1 << n`, replaces the
sentinel `overlap == -1` by `bsize - 1`, rejects `overlap > bsize - 1`
with `AVERROR(EINVAL)`, parses the expression if one is supplied
(failure modelled from the spec as the distinct error
`exprParseError`), and finally sets `th = sigma * 3` and
`step = bsize - overlap`. -/
def init (n : ℕ) (overlap : ℤ) (sigma : ℚ) (exprStr : Option (Option (ℚ → ℚ))) :
    Except InitError DnoizCtx :=
  let bsize : ℕ := 2 ^ n
  let overlap2 : ℤ := if overlap = -1 then (bsize : ℤ) - 1 else overlap
  if (bsize : ℤ) - 1 < overlap2 then .error .invalidOverlap
  else
    match exprStr with
    | some none => .error .exprParseError
    | some (some f) =>
        .ok { bsize := bsize, overlap := overlap2, step := (bsize : ℤ) - overlap2,
              th := sigma * 3, expr := some f }
    | none =>
        .ok { bsize := bsize, overlap := overlap2, step := (bsize : ℤ) - overlap2,
              th := sigma * 3, expr := none }

/-- Per-coefficient action of the frequency filter installed by `init`
(the body of the loop in `filter_freq_##bsize`, lines 365-375): with an
expression, `var_values[VAR_C] = FFABS(*b); *b *= av_expr_eval(...)`;
otherwise `if (FFABS(*b) < sigma_th) *b = 0;`, where the `sigma_th`
argument is the `float` field `s->th` passed through an `int` parameter
(truncating toward zero). -/
def filterFreqCoeff (ctx : DnoizCtx) (b : ℚ) : ℚ :=
  match ctx.expr with
  | some f => b * f |b|
  | none => if |b| < ((cTruncToInt ctx.th : ℤ) : ℚ) then 0 else b

/-- One line of the forward 8-point DCT butterfly `fdct8_1d`
(lines 86-122): `s k` is `src[k*src_stridea]`, the result at `i` is
`dst[i*dst_stridea]`, with the literal constants of the source. -/
def fdct8v (s : ℕ → ℚ) (i : ℕ) : ℚ :=
  let x00 := s 0 + s 7
  let x01 := s 1 + s 6
  let x02 := s 2 + s 5
  let x03 := s 3 + s 4
  let x04 := s 0 - s 7
  let x05 := s 1 - s 6
  let x06 := s 2 - s 5
  let x07 := s 3 - s 4
  let x08 := x00 + x03
  let x09 := x01 + x02
  let x0a := x00 - x03
  let x0b := x01 - x02
  let x0c := 1.38703984532215*x04 + 0.275899379282943*x07
  let x0d := 1.17587560241936*x05 + 0.785694958387102*x06
  let x0e := -0.785694958387102*x05 + 1.17587560241936*x06
  let x0f := 0.275899379282943*x04 - 1.38703984532215*x07
  let x10 := 0.353553390593274 * (x0c - x0d)
  let x11 := 0.353553390593274 * (x0e - x0f)
  if i = 0 then 0.353553390593274 * (x08 + x09)
  else if i = 1 then 0.353553390593274 * (x0c + x0d)
  else if i = 2 then 0.461939766255643*x0a + 0.191341716182545*x0b
  else if i = 3 then 0.707106781186547 * (x10 - x11)
  else if i = 4 then 0.353553390593274 * (x08 - x09)
  else if i = 5 then 0.707106781186547 * (x10 + x11)
  else if i = 6 then 0.191341716182545*x0a - 0.461939766255643*x0b
  else if i = 7 then 0.353553390593274 * (x0e + x0f)
  else 0

/-- One line of the inverse 8-point DCT butterfly `idct8_1d`
(lines 124-166), with `add = 0`. -/
def idct8v (s : ℕ → ℚ) (i : ℕ) : ℚ :=
  let x00 := 1.4142135623731*s 0
  let x01 := 1.38703984532215*s 1 + 0.275899379282943*s 7
  let x02 := 1.30656296487638*s 2 + 0.541196100146197*s 6
  let x03 := 1.17587560241936*s 3 + 0.785694958387102*s 5
  let x04 := 1.4142135623731*s 4
  let x05 := -0.785694958387102*s 3 + 1.17587560241936*s 5
  let x06 := 0.541196100146197*s 2 - 1.30656296487638*s 6
  let x07 := -0.275899379282943*s 1 + 1.38703984532215*s 7
  let x09 := x00 + x04
  let x0a := x01 + x03
  let x0b := 1.4142135623731*x02
  let x0c := x00 - x04
  let x0d := x01 - x03
  let x0e := 0.353553390593274 * (x09 - x0b)
  let x0f := 0.353553390593274 * (x0c + x0d)
  let x10 := 0.353553390593274 * (x0c - x0d)
  let x11 := 1.4142135623731*x06
  let x12 := x05 + x07
  let x13 := x05 - x07
  let x14 := 0.353553390593274 * (x11 + x12)
  let x15 := 0.353553390593274 * (x11 - x12)
  let x16 := 0.5*x13
  let x08 := -x15
  if i = 0 then 0.25 * (x09 + x0b) + 0.353553390593274*x0a
  else if i = 1 then 0.707106781186547 * (x0f - x08)
  else if i = 2 then 0.707106781186547 * (x0f + x08)
  else if i = 3 then 0.707106781186547 * (x0e + x16)
  else if i = 4 then 0.707106781186547 * (x0e - x16)
  else if i = 5 then 0.707106781186547 * (x10 - x14)
  else if i = 6 then 0.707106781186547 * (x10 + x14)
  else if i = 7 then 0.25 * (x09 + x0b) - 0.353553390593274*x0a
  else 0

/-- One line of the forward 16-point DCT butterfly `fdct16_1d`
(lines 169-251). -/
def fdct16v (s : ℕ → ℚ) (i : ℕ) : ℚ :=
  let x00 := s 0 + s 15
  let x01 := s 1 + s 14
  let x02 := s 2 + s 13
  let x03 := s 3 + s 12
  let x04 := s 4 + s 11
  let x05 := s 5 + s 10
  let x06 := s 6 + s 9
  let x07 := s 7 + s 8
  let x08 := s 0 - s 15
  let x09 := s 1 - s 14
  let x0a := s 2 - s 13
  let x0b := s 3 - s 12
  let x0c := s 4 - s 11
  let x0d := s 5 - s 10
  let x0e := s 6 - s 9
  let x0f := s 7 - s 8
  let x10 := x00 + x07
  let x11 := x01 + x06
  let x12 := x02 + x05
  let x13 := x03 + x04
  let x14 := x00 - x07
  let x15 := x01 - x06
  let x16 := x02 - x05
  let x17 := x03 - x04
  let x18 := x10 + x13
  let x19 := x11 + x12
  let x1a := x10 - x13
  let x1b := x11 - x12
  let x1c := 1.38703984532215*x14 + 0.275899379282943*x17
  let x1d := 1.17587560241936*x15 + 0.785694958387102*x16
  let x1e := -0.785694958387102*x15 + 1.17587560241936*x16
  let x1f := 0.275899379282943*x14 - 1.38703984532215*x17
  let x20 := 0.25 * (x1c - x1d)
  let x21 := 0.25 * (x1e - x1f)
  let x22 := 1.40740373752638*x08 + 0.138617169199091*x0f
  let x23 := 1.35331800117435*x09 + 0.410524527522357*x0e
  let x24 := 1.24722501298667*x0a + 0.666655658477747*x0d
  let x25 := 1.09320186700176*x0b + 0.897167586342636*x0c
  let x26 := -0.897167586342636*x0b + 1.09320186700176*x0c
  let x27 := 0.666655658477747*x0a - 1.24722501298667*x0d
  let x28 := -0.410524527522357*x09 + 1.35331800117435*x0e
  let x29 := 0.138617169199091*x08 - 1.40740373752638*x0f
  let x2a := x22 + x25
  let x2b := x23 + x24
  let x2c := x22 - x25
  let x2d := x23 - x24
  let x2e := 0.25 * (x2a - x2b)
  let x2f := 0.326640741219094*x2c + 0.135299025036549*x2d
  let x30 := 0.135299025036549*x2c - 0.326640741219094*x2d
  let x31 := x26 + x29
  let x32 := x27 + x28
  let x33 := x26 - x29
  let x34 := x27 - x28
  let x35 := 0.25 * (x31 - x32)
  let x36 := 0.326640741219094*x33 + 0.135299025036549*x34
  let x37 := 0.135299025036549*x33 - 0.326640741219094*x34
  if i = 0 then 0.25 * (x18 + x19)
  else if i = 1 then 0.25 * (x2a + x2b)
  else if i = 2 then 0.25 * (x1c + x1d)
  else if i = 3 then 0.707106781186547 * (x2f - x37)
  else if i = 4 then 0.326640741219094*x1a + 0.135299025036549*x1b
  else if i = 5 then 0.707106781186547 * (x2f + x37)
  else if i = 6 then 0.707106781186547 * (x20 - x21)
  else if i = 7 then 0.707106781186547 * (x2e + x35)
  else if i = 8 then 0.25 * (x18 - x19)
  else if i = 9 then 0.707106781186547 * (x2e - x35)
  else if i = 10 then 0.707106781186547 * (x20 + x21)
  else if i = 11 then 0.707106781186547 * (x30 - x36)
  else if i = 12 then 0.135299025036549*x1a - 0.326640741219094*x1b
  else if i = 13 then 0.707106781186547 * (x30 + x36)
  else if i = 14 then 0.25 * (x1e + x1f)
  else if i = 15 then 0.25 * (x31 + x32)
  else 0

/-- One line of the inverse 16-point DCT butterfly `idct16_1d`
(lines 253-349), with `add = 0`. -/
def idct16v (s : ℕ → ℚ) (i : ℕ) : ℚ :=
  let x00 :=  1.4142135623731  *s 0
  let x01 :=  1.40740373752638 *s 1 + 0.138617169199091*s 15
  let x02 :=  1.38703984532215 *s 2 + 0.275899379282943*s 14
  let x03 :=  1.35331800117435 *s 3 + 0.410524527522357*s 13
  let x04 :=  1.30656296487638 *s 4 + 0.541196100146197*s 12
  let x05 :=  1.24722501298667 *s 5 + 0.666655658477747*s 11
  let x06 :=  1.17587560241936 *s 6 + 0.785694958387102*s 10
  let x07 :=  1.09320186700176 *s 7 + 0.897167586342636*s 9
  let x08 :=  1.4142135623731  *s 8
  let x09 := -0.897167586342636*s 7 + 1.09320186700176*s 9
  let x0a :=  0.785694958387102*s 6 - 1.17587560241936*s 10
  let x0b := -0.666655658477747*s 5 + 1.24722501298667*s 11
  let x0c :=  0.541196100146197*s 4 - 1.30656296487638*s 12
  let x0d := -0.410524527522357*s 3 + 1.35331800117435*s 13
  let x0e :=  0.275899379282943*s 2 - 1.38703984532215*s 14
  let x0f := -0.138617169199091*s 1 + 1.40740373752638*s 15
  let x12 := x00 + x08
  let x13 := x01 + x07
  let x14 := x02 + x06
  let x15 := x03 + x05
  let x16 := 1.4142135623731*x04
  let x17 := x00 - x08
  let x18 := x01 - x07
  let x19 := x02 - x06
  let x1a := x03 - x05
  let x1d := x12 + x16
  let x1e := x13 + x15
  let x1f := 1.4142135623731*x14
  let x20 := x12 - x16
  let x21 := x13 - x15
  let x22 := 0.25 * (x1d - x1f)
  let x23 := 0.25 * (x20 + x21)
  let x24 := 0.25 * (x20 - x21)
  let x25 := 1.4142135623731*x17
  let x26 := 1.30656296487638*x18 + 0.541196100146197*x1a
  let x27 := 1.4142135623731*x19
  let x28 := -0.541196100146197*x18 + 1.30656296487638*x1a
  let x29 := 0.176776695296637 * (x25 + x27) + 0.25*x26
  let x2a := 0.25 * (x25 - x27)
  let x2b := 0.176776695296637 * (x25 + x27) - 0.25*x26
  let x2c := 0.353553390593274*x28
  let x1b := 0.707106781186547 * (x2a - x2c)
  let x1c := 0.707106781186547 * (x2a + x2c)
  let x2d := 1.4142135623731*x0c
  let x2e := x0b + x0d
  let x2f := x0a + x0e
  let x30 := x09 + x0f
  let x31 := x09 - x0f
  let x32 := x0a - x0e
  let x33 := x0b - x0d
  let x37 := 1.4142135623731*x2d
  let x38 := 1.30656296487638*x2e + 0.541196100146197*x30
  let x39 := 1.4142135623731*x2f
  let x3a := -0.541196100146197*x2e + 1.30656296487638*x30
  let x3b := 0.176776695296637 * (x37 + x39) + 0.25*x38
  let x3c := 0.25 * (x37 - x39)
  let x3d := 0.176776695296637 * (x37 + x39) - 0.25*x38
  let x3e := 0.353553390593274*x3a
  let x34 := 0.707106781186547 * (x3c - x3e)
  let x35 := 0.707106781186547 * (x3c + x3e)
  let x3f := 1.4142135623731*x32
  let x40 := x31 + x33
  let x41 := x31 - x33
  let x42 := 0.25 * (x3f + x40)
  let x43 := 0.25 * (x3f - x40)
  let x44 := 0.353553390593274*x41
  let x36 := -x43
  let x10 := -x34
  let x11 := -x3d
  if i = 0 then 0.176776695296637 * (x1d + x1f) + 0.25*x1e
  else if i = 1 then 0.707106781186547 * (x29 - x11)
  else if i = 2 then 0.707106781186547 * (x29 + x11)
  else if i = 3 then 0.707106781186547 * (x23 + x36)
  else if i = 4 then 0.707106781186547 * (x23 - x36)
  else if i = 5 then 0.707106781186547 * (x1b - x35)
  else if i = 6 then 0.707106781186547 * (x1b + x35)
  else if i = 7 then 0.707106781186547 * (x22 + x44)
  else if i = 8 then 0.707106781186547 * (x22 - x44)
  else if i = 9 then 0.707106781186547 * (x1c - x10)
  else if i = 10 then 0.707106781186547 * (x1c + x10)
  else if i = 11 then 0.707106781186547 * (x24 + x42)
  else if i = 12 then 0.707106781186547 * (x24 - x42)
  else if i = 13 then 0.707106781186547 * (x2b - x3b)
  else if i = 14 then 0.707106781186547 * (x2b + x3b)
  else if i = 15 then 0.176776695296637 * (x1d + x1f) - 0.25*x1e
  else 0

/-- Exact matrix coefficients of `fdct8v`: entry `(i, l)` is the value of
output `i` on the `l`-th standard basis vector. -/
def fdctM8 (i l : ℕ) : ℚ :=
  if i = 0 then
    (if l = 0 then ((176776695296637 : ℚ) / 500000000000000)
        else if l = 1 then ((176776695296637 : ℚ) / 500000000000000)
        else if l = 2 then ((176776695296637 : ℚ) / 500000000000000)
        else if l = 3 then ((176776695296637 : ℚ) / 500000000000000)
        else if l = 4 then ((176776695296637 : ℚ) / 500000000000000)
        else if l = 5 then ((176776695296637 : ℚ) / 500000000000000)
        else if l = 6 then ((176776695296637 : ℚ) / 500000000000000)
        else if l = 7 then ((176776695296637 : ℚ) / 500000000000000)
        else 0)
  else if i = 1 then
    (if l = 0 then ((4903926402016164517821532191 : ℚ) / 10000000000000000000000000000)
        else if l = 1 then ((1299171269222729224312948077 : ℚ) / 3125000000000000000000000000)
        else if l = 2 then ((69446279127450308779482387987 : ℚ) / 250000000000000000000000000000)
        else if l = 3 then ((48772580504032097585739362691 : ℚ) / 500000000000000000000000000000)
        else if l = 4 then ((-48772580504032097585739362691 : ℚ) / 500000000000000000000000000000)
        else if l = 5 then ((-69446279127450308779482387987 : ℚ) / 250000000000000000000000000000)
        else if l = 6 then ((-1299171269222729224312948077 : ℚ) / 3125000000000000000000000000)
        else if l = 7 then ((-4903926402016164517821532191 : ℚ) / 10000000000000000000000000000)
        else 0)
  else if i = 2 then
    (if l = 0 then ((461939766255643 : ℚ) / 1000000000000000)
        else if l = 1 then ((38268343236509 : ℚ) / 200000000000000)
        else if l = 2 then ((-38268343236509 : ℚ) / 200000000000000)
        else if l = 3 then ((-461939766255643 : ℚ) / 1000000000000000)
        else if l = 4 then ((-461939766255643 : ℚ) / 1000000000000000)
        else if l = 5 then ((-38268343236509 : ℚ) / 200000000000000)
        else if l = 6 then ((38268343236509 : ℚ) / 200000000000000)
        else if l = 7 then ((461939766255643 : ℚ) / 1000000000000000)
        else 0)
  else if i = 3 then
    (if l = 0 then ((207867403075636610653821218084348455394641827 : ℚ) / 500000000000000000000000000000000000000000000)
        else if l = 1 then ((-24386290252016123316955546628874672074798631 : ℚ) / 250000000000000000000000000000000000000000000)
        else if l = 2 then ((-122598160050403866538764152564008153832420409 : ℚ) / 250000000000000000000000000000000000000000000)
        else if l = 3 then ((-138892558254900865414189802152845598268805873 : ℚ) / 500000000000000000000000000000000000000000000)
        else if l = 4 then ((138892558254900865414189802152845598268805873 : ℚ) / 500000000000000000000000000000000000000000000)
        else if l = 5 then ((122598160050403866538764152564008153832420409 : ℚ) / 250000000000000000000000000000000000000000000)
        else if l = 6 then ((24386290252016123316955546628874672074798631 : ℚ) / 250000000000000000000000000000000000000000000)
        else if l = 7 then ((-207867403075636610653821218084348455394641827 : ℚ) / 500000000000000000000000000000000000000000000)
        else 0)
  else if i = 4 then
    (if l = 0 then ((176776695296637 : ℚ) / 500000000000000)
        else if l = 1 then ((-176776695296637 : ℚ) / 500000000000000)
        else if l = 2 then ((-176776695296637 : ℚ) / 500000000000000)
        else if l = 3 then ((176776695296637 : ℚ) / 500000000000000)
        else if l = 4 then ((176776695296637 : ℚ) / 500000000000000)
        else if l = 5 then ((-176776695296637 : ℚ) / 500000000000000)
        else if l = 6 then ((-176776695296637 : ℚ) / 500000000000000)
        else if l = 7 then ((176776695296637 : ℚ) / 500000000000000)
        else 0)
  else if i = 5 then
    (if l = 0 then ((138892558254900865414189802152845598268805873 : ℚ) / 500000000000000000000000000000000000000000000)
        else if l = 1 then ((-122598160050403866538764152564008153832420409 : ℚ) / 250000000000000000000000000000000000000000000)
        else if l = 2 then ((24386290252016123316955546628874672074798631 : ℚ) / 250000000000000000000000000000000000000000000)
        else if l = 3 then ((207867403075636610653821218084348455394641827 : ℚ) / 500000000000000000000000000000000000000000000)
        else if l = 4 then ((-207867403075636610653821218084348455394641827 : ℚ) / 500000000000000000000000000000000000000000000)
        else if l = 5 then ((-24386290252016123316955546628874672074798631 : ℚ) / 250000000000000000000000000000000000000000000)
        else if l = 6 then ((122598160050403866538764152564008153832420409 : ℚ) / 250000000000000000000000000000000000000000000)
        else if l = 7 then ((-138892558254900865414189802152845598268805873 : ℚ) / 500000000000000000000000000000000000000000000)
        else 0)
  else if i = 6 then
    (if l = 0 then ((38268343236509 : ℚ) / 200000000000000)
        else if l = 1 then ((-461939766255643 : ℚ) / 1000000000000000)
        else if l = 2 then ((461939766255643 : ℚ) / 1000000000000000)
        else if l = 3 then ((-38268343236509 : ℚ) / 200000000000000)
        else if l = 4 then ((-38268343236509 : ℚ) / 200000000000000)
        else if l = 5 then ((461939766255643 : ℚ) / 1000000000000000)
        else if l = 6 then ((-461939766255643 : ℚ) / 1000000000000000)
        else if l = 7 then ((38268343236509 : ℚ) / 200000000000000)
        else 0)
  else if i = 7 then
    (if l = 0 then ((48772580504032097585739362691 : ℚ) / 500000000000000000000000000000)
        else if l = 1 then ((-69446279127450308779482387987 : ℚ) / 250000000000000000000000000000)
        else if l = 2 then ((1299171269222729224312948077 : ℚ) / 3125000000000000000000000000)
        else if l = 3 then ((-4903926402016164517821532191 : ℚ) / 10000000000000000000000000000)
        else if l = 4 then ((4903926402016164517821532191 : ℚ) / 10000000000000000000000000000)
        else if l = 5 then ((-1299171269222729224312948077 : ℚ) / 3125000000000000000000000000)
        else if l = 6 then ((69446279127450308779482387987 : ℚ) / 250000000000000000000000000000)
        else if l = 7 then ((-48772580504032097585739362691 : ℚ) / 500000000000000000000000000000)
        else 0)
  else 0

/-- Exact matrix coefficients of `idct8v`. -/
def idctM8 (i l : ℕ) : ℚ :=
  if i = 0 then
    (if l = 0 then ((14142135623731 : ℚ) / 40000000000000)
        else if l = 1 then ((4903926402016164517821532191 : ℚ) / 10000000000000000000000000000)
        else if l = 2 then ((923879532511292445830468689 : ℚ) / 2000000000000000000000000000)
        else if l = 3 then ((1299171269222729224312948077 : ℚ) / 3125000000000000000000000000)
        else if l = 4 then ((14142135623731 : ℚ) / 40000000000000)
        else if l = 5 then ((69446279127450308779482387987 : ℚ) / 250000000000000000000000000000)
        else if l = 6 then ((7653668647301822450882601007 : ℚ) / 40000000000000000000000000000)
        else if l = 7 then ((48772580504032097585739362691 : ℚ) / 500000000000000000000000000000)
        else 0)
  else if i = 1 then
    (if l = 0 then ((1767766952966374877995778189474445885219909 : ℚ) / 5000000000000000000000000000000000000000000)
        else if l = 1 then ((207867403075636610653821218084348455394641827 : ℚ) / 500000000000000000000000000000000000000000000)
        else if l = 2 then ((956708580912727740332116080646979946708657958236395036073 : ℚ) / 5000000000000000000000000000000000000000000000000000000000)
        else if l = 3 then ((-24386290252016123316955546628874672074798631 : ℚ) / 250000000000000000000000000000000000000000000)
        else if l = 4 then ((-1767766952966374877995778189474445885219909 : ℚ) / 5000000000000000000000000000000000000000000)
        else if l = 5 then ((-122598160050403866538764152564008153832420409 : ℚ) / 250000000000000000000000000000000000000000000)
        else if l = 6 then ((-115484941563911547758498697315211285387107148986964992471 : ℚ) / 250000000000000000000000000000000000000000000000000000000)
        else if l = 7 then ((-138892558254900865414189802152845598268805873 : ℚ) / 500000000000000000000000000000000000000000000)
        else 0)
  else if i = 2 then
    (if l = 0 then ((1767766952966374877995778189474445885219909 : ℚ) / 5000000000000000000000000000000000000000000)
        else if l = 1 then ((138892558254900865414189802152845598268805873 : ℚ) / 500000000000000000000000000000000000000000000)
        else if l = 2 then ((-956708580912727740332116080646979946708657958236395036073 : ℚ) / 5000000000000000000000000000000000000000000000000000000000)
        else if l = 3 then ((-122598160050403866538764152564008153832420409 : ℚ) / 250000000000000000000000000000000000000000000)
        else if l = 4 then ((-1767766952966374877995778189474445885219909 : ℚ) / 5000000000000000000000000000000000000000000)
        else if l = 5 then ((24386290252016123316955546628874672074798631 : ℚ) / 250000000000000000000000000000000000000000000)
        else if l = 6 then ((115484941563911547758498697315211285387107148986964992471 : ℚ) / 250000000000000000000000000000000000000000000000000000000)
        else if l = 7 then ((207867403075636610653821218084348455394641827 : ℚ) / 500000000000000000000000000000000000000000000)
        else 0)
  else if i = 3 then
    (if l = 0 then ((1767766952966374877995778189474445885219909 : ℚ) / 5000000000000000000000000000000000000000000)
        else if l = 1 then ((195090322016128114443578167821 : ℚ) / 2000000000000000000000000000000)
        else if l = 2 then ((-115484941563911547758498697315211285387107148986964992471 : ℚ) / 250000000000000000000000000000000000000000000000000000000)
        else if l = 3 then ((-277785116509800842270450358397 : ℚ) / 1000000000000000000000000000000)
        else if l = 4 then ((1767766952966374877995778189474445885219909 : ℚ) / 5000000000000000000000000000000000000000000)
        else if l = 5 then ((5196685076890909548029277187 : ℚ) / 12500000000000000000000000000)
        else if l = 6 then ((-956708580912727740332116080646979946708657958236395036073 : ℚ) / 5000000000000000000000000000000000000000000000000000000000)
        else if l = 7 then ((-19615705608064630330489222321 : ℚ) / 40000000000000000000000000000)
        else 0)
  else if i = 4 then
    (if l = 0 then ((1767766952966374877995778189474445885219909 : ℚ) / 5000000000000000000000000000000000000000000)
        else if l = 1 then ((-195090322016128114443578167821 : ℚ) / 2000000000000000000000000000000)
        else if l = 2 then ((-115484941563911547758498697315211285387107148986964992471 : ℚ) / 250000000000000000000000000000000000000000000000000000000)
        else if l = 3 then ((277785116509800842270450358397 : ℚ) / 1000000000000000000000000000000)
        else if l = 4 then ((1767766952966374877995778189474445885219909 : ℚ) / 5000000000000000000000000000000000000000000)
        else if l = 5 then ((-5196685076890909548029277187 : ℚ) / 12500000000000000000000000000)
        else if l = 6 then ((-956708580912727740332116080646979946708657958236395036073 : ℚ) / 5000000000000000000000000000000000000000000000000000000000)
        else if l = 7 then ((19615705608064630330489222321 : ℚ) / 40000000000000000000000000000)
        else 0)
  else if i = 5 then
    (if l = 0 then ((1767766952966374877995778189474445885219909 : ℚ) / 5000000000000000000000000000000000000000000)
        else if l = 1 then ((-138892558254900865414189802152845598268805873 : ℚ) / 500000000000000000000000000000000000000000000)
        else if l = 2 then ((-956708580912727740332116080646979946708657958236395036073 : ℚ) / 5000000000000000000000000000000000000000000000000000000000)
        else if l = 3 then ((122598160050403866538764152564008153832420409 : ℚ) / 250000000000000000000000000000000000000000000)
        else if l = 4 then ((-1767766952966374877995778189474445885219909 : ℚ) / 5000000000000000000000000000000000000000000)
        else if l = 5 then ((-24386290252016123316955546628874672074798631 : ℚ) / 250000000000000000000000000000000000000000000)
        else if l = 6 then ((115484941563911547758498697315211285387107148986964992471 : ℚ) / 250000000000000000000000000000000000000000000000000000000)
        else if l = 7 then ((-207867403075636610653821218084348455394641827 : ℚ) / 500000000000000000000000000000000000000000000)
        else 0)
  else if i = 6 then
    (if l = 0 then ((1767766952966374877995778189474445885219909 : ℚ) / 5000000000000000000000000000000000000000000)
        else if l = 1 then ((-207867403075636610653821218084348455394641827 : ℚ) / 500000000000000000000000000000000000000000000)
        else if l = 2 then ((956708580912727740332116080646979946708657958236395036073 : ℚ) / 5000000000000000000000000000000000000000000000000000000000)
        else if l = 3 then ((24386290252016123316955546628874672074798631 : ℚ) / 250000000000000000000000000000000000000000000)
        else if l = 4 then ((-1767766952966374877995778189474445885219909 : ℚ) / 5000000000000000000000000000000000000000000)
        else if l = 5 then ((122598160050403866538764152564008153832420409 : ℚ) / 250000000000000000000000000000000000000000000)
        else if l = 6 then ((-115484941563911547758498697315211285387107148986964992471 : ℚ) / 250000000000000000000000000000000000000000000000000000000)
        else if l = 7 then ((138892558254900865414189802152845598268805873 : ℚ) / 500000000000000000000000000000000000000000000)
        else 0)
  else if i = 7 then
    (if l = 0 then ((14142135623731 : ℚ) / 40000000000000)
        else if l = 1 then ((-4903926402016164517821532191 : ℚ) / 10000000000000000000000000000)
        else if l = 2 then ((923879532511292445830468689 : ℚ) / 2000000000000000000000000000)
        else if l = 3 then ((-1299171269222729224312948077 : ℚ) / 3125000000000000000000000000)
        else if l = 4 then ((14142135623731 : ℚ) / 40000000000000)
        else if l = 5 then ((-69446279127450308779482387987 : ℚ) / 250000000000000000000000000000)
        else if l = 6 then ((7653668647301822450882601007 : ℚ) / 40000000000000000000000000000)
        else if l = 7 then ((-48772580504032097585739362691 : ℚ) / 500000000000000000000000000000)
        else 0)
  else 0

/-- Exact matrix coefficients of `fdct16v`. -/
def fdctM16 (i l : ℕ) : ℚ :=
  if i = 0 then
    (if l = 0 then ((1 : ℚ) / 4)
        else if l = 1 then ((1 : ℚ) / 4)
        else if l = 2 then ((1 : ℚ) / 4)
        else if l = 3 then ((1 : ℚ) / 4)
        else if l = 4 then ((1 : ℚ) / 4)
        else if l = 5 then ((1 : ℚ) / 4)
        else if l = 6 then ((1 : ℚ) / 4)
        else if l = 7 then ((1 : ℚ) / 4)
        else if l = 8 then ((1 : ℚ) / 4)
        else if l = 9 then ((1 : ℚ) / 4)
        else if l = 10 then ((1 : ℚ) / 4)
        else if l = 11 then ((1 : ℚ) / 4)
        else if l = 12 then ((1 : ℚ) / 4)
        else if l = 13 then ((1 : ℚ) / 4)
        else if l = 14 then ((1 : ℚ) / 4)
        else if l = 15 then ((1 : ℚ) / 4)
        else 0)
  else if i = 1 then
    (if l = 0 then ((70370186876319 : ℚ) / 200000000000000)
        else if l = 1 then ((27066360023487 : ℚ) / 80000000000000)
        else if l = 2 then ((124722501298667 : ℚ) / 400000000000000)
        else if l = 3 then ((6832511668761 : ℚ) / 25000000000000)
        else if l = 4 then ((224291896585659 : ℚ) / 1000000000000000)
        else if l = 5 then ((666655658477747 : ℚ) / 4000000000000000)
        else if l = 6 then ((410524527522357 : ℚ) / 4000000000000000)
        else if l = 7 then ((138617169199091 : ℚ) / 4000000000000000)
        else if l = 8 then ((-138617169199091 : ℚ) / 4000000000000000)
        else if l = 9 then ((-410524527522357 : ℚ) / 4000000000000000)
        else if l = 10 then ((-666655658477747 : ℚ) / 4000000000000000)
        else if l = 11 then ((-224291896585659 : ℚ) / 1000000000000000)
        else if l = 12 then ((-6832511668761 : ℚ) / 25000000000000)
        else if l = 13 then ((-124722501298667 : ℚ) / 400000000000000)
        else if l = 14 then ((-27066360023487 : ℚ) / 80000000000000)
        else if l = 15 then ((-70370186876319 : ℚ) / 200000000000000)
        else 0)
  else if i = 2 then
    (if l = 0 then ((27740796906443 : ℚ) / 80000000000000)
        else if l = 1 then ((7349222515121 : ℚ) / 25000000000000)
        else if l = 2 then ((392847479193551 : ℚ) / 2000000000000000)
        else if l = 3 then ((275899379282943 : ℚ) / 4000000000000000)
        else if l = 4 then ((-275899379282943 : ℚ) / 4000000000000000)
        else if l = 5 then ((-392847479193551 : ℚ) / 2000000000000000)
        else if l = 6 then ((-7349222515121 : ℚ) / 25000000000000)
        else if l = 7 then ((-27740796906443 : ℚ) / 80000000000000)
        else if l = 8 then ((-27740796906443 : ℚ) / 80000000000000)
        else if l = 9 then ((-7349222515121 : ℚ) / 25000000000000)
        else if l = 10 then ((-392847479193551 : ℚ) / 2000000000000000)
        else if l = 11 then ((-275899379282943 : ℚ) / 4000000000000000)
        else if l = 12 then ((275899379282943 : ℚ) / 4000000000000000)
        else if l = 13 then ((392847479193551 : ℚ) / 2000000000000000)
        else if l = 14 then ((7349222515121 : ℚ) / 25000000000000)
        else if l = 15 then ((27740796906443 : ℚ) / 80000000000000)
        else 0)
  else if i = 3 then
    (if l = 0 then ((338329500293587150988500537306701096711637413 : ℚ) / 1000000000000000000000000000000000000000000000)
        else if l = 1 then ((56072974146414571661599968011292654214592319 : ℚ) / 250000000000000000000000000000000000000000000)
        else if l = 2 then ((8663573074943307202989214310145135011683309 : ℚ) / 250000000000000000000000000000000000000000000)
        else if l = 3 then ((-41665978654859290543646354380158395122695243 : ℚ) / 250000000000000000000000000000000000000000000)
        else if l = 4 then ((-38975781655833434699607867852417990214490391 : ℚ) / 125000000000000000000000000000000000000000000)
        else if l = 5 then ((-351850934381594884832729791701236163970127401 : ℚ) / 1000000000000000000000000000000000000000000000)
        else if l = 6 then ((-273300466750438532399347182296695671134562129 : ℚ) / 1000000000000000000000000000000000000000000000)
        else if l = 7 then ((-51315565940294454392366277086495358053852551 : ℚ) / 500000000000000000000000000000000000000000000)
        else if l = 8 then ((51315565940294454392366277086495358053852551 : ℚ) / 500000000000000000000000000000000000000000000)
        else if l = 9 then ((273300466750438532399347182296695671134562129 : ℚ) / 1000000000000000000000000000000000000000000000)
        else if l = 10 then ((351850934381594884832729791701236163970127401 : ℚ) / 1000000000000000000000000000000000000000000000)
        else if l = 11 then ((38975781655833434699607867852417990214490391 : ℚ) / 125000000000000000000000000000000000000000000)
        else if l = 12 then ((41665978654859290543646354380158395122695243 : ℚ) / 250000000000000000000000000000000000000000000)
        else if l = 13 then ((-8663573074943307202989214310145135011683309 : ℚ) / 250000000000000000000000000000000000000000000)
        else if l = 14 then ((-56072974146414571661599968011292654214592319 : ℚ) / 250000000000000000000000000000000000000000000)
        else if l = 15 then ((-338329500293587150988500537306701096711637413 : ℚ) / 1000000000000000000000000000000000000000000000)
        else 0)
  else if i = 4 then
    (if l = 0 then ((163320370609547 : ℚ) / 500000000000000)
        else if l = 1 then ((135299025036549 : ℚ) / 1000000000000000)
        else if l = 2 then ((-135299025036549 : ℚ) / 1000000000000000)
        else if l = 3 then ((-163320370609547 : ℚ) / 500000000000000)
        else if l = 4 then ((-163320370609547 : ℚ) / 500000000000000)
        else if l = 5 then ((-135299025036549 : ℚ) / 1000000000000000)
        else if l = 6 then ((135299025036549 : ℚ) / 1000000000000000)
        else if l = 7 then ((163320370609547 : ℚ) / 500000000000000)
        else if l = 8 then ((163320370609547 : ℚ) / 500000000000000)
        else if l = 9 then ((135299025036549 : ℚ) / 1000000000000000)
        else if l = 10 then ((-135299025036549 : ℚ) / 1000000000000000)
        else if l = 11 then ((-163320370609547 : ℚ) / 500000000000000)
        else if l = 12 then ((-163320370609547 : ℚ) / 500000000000000)
        else if l = 13 then ((-135299025036549 : ℚ) / 1000000000000000)
        else if l = 14 then ((135299025036549 : ℚ) / 1000000000000000)
        else if l = 15 then ((163320370609547 : ℚ) / 500000000000000)
        else 0)
  else if i = 5 then
    (if l = 0 then ((311806253246666945992128906954293814285696267 : ℚ) / 1000000000000000000000000000000000000000000000)
        else if l = 1 then ((4331786537471559319544549708040137526935853 : ℚ) / 125000000000000000000000000000000000000000000)
        else if l = 2 then ((-34162558343804861039410674816154968271336907 : ℚ) / 125000000000000000000000000000000000000000000)
        else if l = 3 then ((-84582375073397053367485331296226161929312597 : ℚ) / 250000000000000000000000000000000000000000000)
        else if l = 4 then ((-12828891485073633717663075546866577962467071 : ℚ) / 125000000000000000000000000000000000000000000)
        else if l = 5 then ((224291896585658571572391546889697670222248719 : ℚ) / 1000000000000000000000000000000000000000000000)
        else if l = 6 then ((351850934381594501032728555398767952620794471 : ℚ) / 1000000000000000000000000000000000000000000000)
        else if l = 7 then ((83331957309717950386009055861213623772920589 : ℚ) / 500000000000000000000000000000000000000000000)
        else if l = 8 then ((-83331957309717950386009055861213623772920589 : ℚ) / 500000000000000000000000000000000000000000000)
        else if l = 9 then ((-351850934381594501032728555398767952620794471 : ℚ) / 1000000000000000000000000000000000000000000000)
        else if l = 10 then ((-224291896585658571572391546889697670222248719 : ℚ) / 1000000000000000000000000000000000000000000000)
        else if l = 11 then ((12828891485073633717663075546866577962467071 : ℚ) / 125000000000000000000000000000000000000000000)
        else if l = 12 then ((84582375073397053367485331296226161929312597 : ℚ) / 250000000000000000000000000000000000000000000)
        else if l = 13 then ((34162558343804861039410674816154968271336907 : ℚ) / 125000000000000000000000000000000000000000000)
        else if l = 14 then ((-4331786537471559319544549708040137526935853 : ℚ) / 125000000000000000000000000000000000000000000)
        else if l = 15 then ((-311806253246666945992128906954293814285696267 : ℚ) / 1000000000000000000000000000000000000000000000)
        else 0)
  else if i = 6 then
    (if l = 0 then ((1175875602419359630968039283871 : ℚ) / 4000000000000000000000000000000)
        else if l = 1 then ((-137949689641471921571891816563 : ℚ) / 2000000000000000000000000000000)
        else if l = 2 then ((-693519922661073606112792533357 : ℚ) / 2000000000000000000000000000000)
        else if l = 3 then ((-785694958387103402080882948229 : ℚ) / 4000000000000000000000000000000)
        else if l = 4 then ((785694958387103402080882948229 : ℚ) / 4000000000000000000000000000000)
        else if l = 5 then ((693519922661073606112792533357 : ℚ) / 2000000000000000000000000000000)
        else if l = 6 then ((137949689641471921571891816563 : ℚ) / 2000000000000000000000000000000)
        else if l = 7 then ((-1175875602419359630968039283871 : ℚ) / 4000000000000000000000000000000)
        else if l = 8 then ((-1175875602419359630968039283871 : ℚ) / 4000000000000000000000000000000)
        else if l = 9 then ((137949689641471921571891816563 : ℚ) / 2000000000000000000000000000000)
        else if l = 10 then ((693519922661073606112792533357 : ℚ) / 2000000000000000000000000000000)
        else if l = 11 then ((785694958387103402080882948229 : ℚ) / 4000000000000000000000000000000)
        else if l = 12 then ((-785694958387103402080882948229 : ℚ) / 4000000000000000000000000000000)
        else if l = 13 then ((-693519922661073606112792533357 : ℚ) / 2000000000000000000000000000000)
        else if l = 14 then ((-137949689641471921571891816563 : ℚ) / 2000000000000000000000000000000)
        else if l = 15 then ((1175875602419359630968039283871 : ℚ) / 4000000000000000000000000000000)
        else 0)
  else if i = 7 then
    (if l = 0 then ((1093201867001754611605767438637 : ℚ) / 4000000000000000000000000000000)
        else if l = 1 then ((-666655658477744378593891338171 : ℚ) / 4000000000000000000000000000000)
        else if l = 2 then ((-1353318001174351158531349598099 : ℚ) / 4000000000000000000000000000000)
        else if l = 3 then ((34654292299773334218490401207 : ℚ) / 1000000000000000000000000000000)
        else if l = 4 then ((351850934381595747590578260153 : ℚ) / 1000000000000000000000000000000)
        else if l = 5 then ((410524527522355849682439058881 : ℚ) / 4000000000000000000000000000000)
        else if l = 6 then ((-1247225012986668144270951600729 : ℚ) / 4000000000000000000000000000000)
        else if l = 7 then ((-897167586342634207208459781083 : ℚ) / 4000000000000000000000000000000)
        else if l = 8 then ((897167586342634207208459781083 : ℚ) / 4000000000000000000000000000000)
        else if l = 9 then ((1247225012986668144270951600729 : ℚ) / 4000000000000000000000000000000)
        else if l = 10 then ((-410524527522355849682439058881 : ℚ) / 4000000000000000000000000000000)
        else if l = 11 then ((-351850934381595747590578260153 : ℚ) / 1000000000000000000000000000000)
        else if l = 12 then ((-34654292299773334218490401207 : ℚ) / 1000000000000000000000000000000)
        else if l = 13 then ((1353318001174351158531349598099 : ℚ) / 4000000000000000000000000000000)
        else if l = 14 then ((666655658477744378593891338171 : ℚ) / 4000000000000000000000000000000)
        else if l = 15 then ((-1093201867001754611605767438637 : ℚ) / 4000000000000000000000000000000)
        else 0)
  else if i = 8 then
    (if l = 0 then ((1 : ℚ) / 4)
        else if l = 1 then ((-1 : ℚ) / 4)
        else if l = 2 then ((-1 : ℚ) / 4)
        else if l = 3 then ((1 : ℚ) / 4)
        else if l = 4 then ((1 : ℚ) / 4)
        else if l = 5 then ((-1 : ℚ) / 4)
        else if l = 6 then ((-1 : ℚ) / 4)
        else if l = 7 then ((1 : ℚ) / 4)
        else if l = 8 then ((1 : ℚ) / 4)
        else if l = 9 then ((-1 : ℚ) / 4)
        else if l = 10 then ((-1 : ℚ) / 4)
        else if l = 11 then ((1 : ℚ) / 4)
        else if l = 12 then ((1 : ℚ) / 4)
        else if l = 13 then ((-1 : ℚ) / 4)
        else if l = 14 then ((-1 : ℚ) / 4)
        else if l = 15 then ((1 : ℚ) / 4)
        else 0)
  else if i = 9 then
    (if l = 0 then ((897167586342634207208459781083 : ℚ) / 4000000000000000000000000000000)
        else if l = 1 then ((-1247225012986668144270951600729 : ℚ) / 4000000000000000000000000000000)
        else if l = 2 then ((-410524527522355849682439058881 : ℚ) / 4000000000000000000000000000000)
        else if l = 3 then ((351850934381595747590578260153 : ℚ) / 1000000000000000000000000000000)
        else if l = 4 then ((-34654292299773334218490401207 : ℚ) / 1000000000000000000000000000000)
        else if l = 5 then ((-1353318001174351158531349598099 : ℚ) / 4000000000000000000000000000000)
        else if l = 6 then ((666655658477744378593891338171 : ℚ) / 4000000000000000000000000000000)
        else if l = 7 then ((1093201867001754611605767438637 : ℚ) / 4000000000000000000000000000000)
        else if l = 8 then ((-1093201867001754611605767438637 : ℚ) / 4000000000000000000000000000000)
        else if l = 9 then ((-666655658477744378593891338171 : ℚ) / 4000000000000000000000000000000)
        else if l = 10 then ((1353318001174351158531349598099 : ℚ) / 4000000000000000000000000000000)
        else if l = 11 then ((34654292299773334218490401207 : ℚ) / 1000000000000000000000000000000)
        else if l = 12 then ((-351850934381595747590578260153 : ℚ) / 1000000000000000000000000000000)
        else if l = 13 then ((410524527522355849682439058881 : ℚ) / 4000000000000000000000000000000)
        else if l = 14 then ((1247225012986668144270951600729 : ℚ) / 4000000000000000000000000000000)
        else if l = 15 then ((-897167586342634207208459781083 : ℚ) / 4000000000000000000000000000000)
        else 0)
  else if i = 10 then
    (if l = 0 then ((785694958387103402080882948229 : ℚ) / 4000000000000000000000000000000)
        else if l = 1 then ((-693519922661073606112792533357 : ℚ) / 2000000000000000000000000000000)
        else if l = 2 then ((137949689641471921571891816563 : ℚ) / 2000000000000000000000000000000)
        else if l = 3 then ((1175875602419359630968039283871 : ℚ) / 4000000000000000000000000000000)
        else if l = 4 then ((-1175875602419359630968039283871 : ℚ) / 4000000000000000000000000000000)
        else if l = 5 then ((-137949689641471921571891816563 : ℚ) / 2000000000000000000000000000000)
        else if l = 6 then ((693519922661073606112792533357 : ℚ) / 2000000000000000000000000000000)
        else if l = 7 then ((-785694958387103402080882948229 : ℚ) / 4000000000000000000000000000000)
        else if l = 8 then ((-785694958387103402080882948229 : ℚ) / 4000000000000000000000000000000)
        else if l = 9 then ((693519922661073606112792533357 : ℚ) / 2000000000000000000000000000000)
        else if l = 10 then ((-137949689641471921571891816563 : ℚ) / 2000000000000000000000000000000)
        else if l = 11 then ((-1175875602419359630968039283871 : ℚ) / 4000000000000000000000000000000)
        else if l = 12 then ((1175875602419359630968039283871 : ℚ) / 4000000000000000000000000000000)
        else if l = 13 then ((137949689641471921571891816563 : ℚ) / 2000000000000000000000000000000)
        else if l = 14 then ((-693519922661073606112792533357 : ℚ) / 2000000000000000000000000000000)
        else if l = 15 then ((785694958387103402080882948229 : ℚ) / 4000000000000000000000000000000)
        else 0)
  else if i = 11 then
    (if l = 0 then ((83331957309717950386009055861213623772920589 : ℚ) / 500000000000000000000000000000000000000000000)
        else if l = 1 then ((-351850934381594501032728555398767952620794471 : ℚ) / 1000000000000000000000000000000000000000000000)
        else if l = 2 then ((224291896585658571572391546889697670222248719 : ℚ) / 1000000000000000000000000000000000000000000000)
        else if l = 3 then ((12828891485073633717663075546866577962467071 : ℚ) / 125000000000000000000000000000000000000000000)
        else if l = 4 then ((-84582375073397053367485331296226161929312597 : ℚ) / 250000000000000000000000000000000000000000000)
        else if l = 5 then ((34162558343804861039410674816154968271336907 : ℚ) / 125000000000000000000000000000000000000000000)
        else if l = 6 then ((4331786537471559319544549708040137526935853 : ℚ) / 125000000000000000000000000000000000000000000)
        else if l = 7 then ((-311806253246666945992128906954293814285696267 : ℚ) / 1000000000000000000000000000000000000000000000)
        else if l = 8 then ((311806253246666945992128906954293814285696267 : ℚ) / 1000000000000000000000000000000000000000000000)
        else if l = 9 then ((-4331786537471559319544549708040137526935853 : ℚ) / 125000000000000000000000000000000000000000000)
        else if l = 10 then ((-34162558343804861039410674816154968271336907 : ℚ) / 125000000000000000000000000000000000000000000)
        else if l = 11 then ((84582375073397053367485331296226161929312597 : ℚ) / 250000000000000000000000000000000000000000000)
        else if l = 12 then ((-12828891485073633717663075546866577962467071 : ℚ) / 125000000000000000000000000000000000000000000)
        else if l = 13 then ((-224291896585658571572391546889697670222248719 : ℚ) / 1000000000000000000000000000000000000000000000)
        else if l = 14 then ((351850934381594501032728555398767952620794471 : ℚ) / 1000000000000000000000000000000000000000000000)
        else if l = 15 then ((-83331957309717950386009055861213623772920589 : ℚ) / 500000000000000000000000000000000000000000000)
        else 0)
  else if i = 12 then
    (if l = 0 then ((135299025036549 : ℚ) / 1000000000000000)
        else if l = 1 then ((-163320370609547 : ℚ) / 500000000000000)
        else if l = 2 then ((163320370609547 : ℚ) / 500000000000000)
        else if l = 3 then ((-135299025036549 : ℚ) / 1000000000000000)
        else if l = 4 then ((-135299025036549 : ℚ) / 1000000000000000)
        else if l = 5 then ((163320370609547 : ℚ) / 500000000000000)
        else if l = 6 then ((-163320370609547 : ℚ) / 500000000000000)
        else if l = 7 then ((135299025036549 : ℚ) / 1000000000000000)
        else if l = 8 then ((135299025036549 : ℚ) / 1000000000000000)
        else if l = 9 then ((-163320370609547 : ℚ) / 500000000000000)
        else if l = 10 then ((163320370609547 : ℚ) / 500000000000000)
        else if l = 11 then ((-135299025036549 : ℚ) / 1000000000000000)
        else if l = 12 then ((-135299025036549 : ℚ) / 1000000000000000)
        else if l = 13 then ((163320370609547 : ℚ) / 500000000000000)
        else if l = 14 then ((-163320370609547 : ℚ) / 500000000000000)
        else if l = 15 then ((135299025036549 : ℚ) / 1000000000000000)
        else 0)
  else if i = 13 then
    (if l = 0 then ((51315565940294454392366277086495358053852551 : ℚ) / 500000000000000000000000000000000000000000000)
        else if l = 1 then ((-273300466750438532399347182296695671134562129 : ℚ) / 1000000000000000000000000000000000000000000000)
        else if l = 2 then ((351850934381594884832729791701236163970127401 : ℚ) / 1000000000000000000000000000000000000000000000)
        else if l = 3 then ((-38975781655833434699607867852417990214490391 : ℚ) / 125000000000000000000000000000000000000000000)
        else if l = 4 then ((41665978654859290543646354380158395122695243 : ℚ) / 250000000000000000000000000000000000000000000)
        else if l = 5 then ((8663573074943307202989214310145135011683309 : ℚ) / 250000000000000000000000000000000000000000000)
        else if l = 6 then ((-56072974146414571661599968011292654214592319 : ℚ) / 250000000000000000000000000000000000000000000)
        else if l = 7 then ((338329500293587150988500537306701096711637413 : ℚ) / 1000000000000000000000000000000000000000000000)
        else if l = 8 then ((-338329500293587150988500537306701096711637413 : ℚ) / 1000000000000000000000000000000000000000000000)
        else if l = 9 then ((56072974146414571661599968011292654214592319 : ℚ) / 250000000000000000000000000000000000000000000)
        else if l = 10 then ((-8663573074943307202989214310145135011683309 : ℚ) / 250000000000000000000000000000000000000000000)
        else if l = 11 then ((-41665978654859290543646354380158395122695243 : ℚ) / 250000000000000000000000000000000000000000000)
        else if l = 12 then ((38975781655833434699607867852417990214490391 : ℚ) / 125000000000000000000000000000000000000000000)
        else if l = 13 then ((-351850934381594884832729791701236163970127401 : ℚ) / 1000000000000000000000000000000000000000000000)
        else if l = 14 then ((273300466750438532399347182296695671134562129 : ℚ) / 1000000000000000000000000000000000000000000000)
        else if l = 15 then ((-51315565940294454392366277086495358053852551 : ℚ) / 500000000000000000000000000000000000000000000)
        else 0)
  else if i = 14 then
    (if l = 0 then ((275899379282943 : ℚ) / 4000000000000000)
        else if l = 1 then ((-392847479193551 : ℚ) / 2000000000000000)
        else if l = 2 then ((7349222515121 : ℚ) / 25000000000000)
        else if l = 3 then ((-27740796906443 : ℚ) / 80000000000000)
        else if l = 4 then ((27740796906443 : ℚ) / 80000000000000)
        else if l = 5 then ((-7349222515121 : ℚ) / 25000000000000)
        else if l = 6 then ((392847479193551 : ℚ) / 2000000000000000)
        else if l = 7 then ((-275899379282943 : ℚ) / 4000000000000000)
        else if l = 8 then ((-275899379282943 : ℚ) / 4000000000000000)
        else if l = 9 then ((392847479193551 : ℚ) / 2000000000000000)
        else if l = 10 then ((-7349222515121 : ℚ) / 25000000000000)
        else if l = 11 then ((27740796906443 : ℚ) / 80000000000000)
        else if l = 12 then ((-27740796906443 : ℚ) / 80000000000000)
        else if l = 13 then ((7349222515121 : ℚ) / 25000000000000)
        else if l = 14 then ((-392847479193551 : ℚ) / 2000000000000000)
        else if l = 15 then ((275899379282943 : ℚ) / 4000000000000000)
        else 0)
  else if i = 15 then
    (if l = 0 then ((138617169199091 : ℚ) / 4000000000000000)
        else if l = 1 then ((-410524527522357 : ℚ) / 4000000000000000)
        else if l = 2 then ((666655658477747 : ℚ) / 4000000000000000)
        else if l = 3 then ((-224291896585659 : ℚ) / 1000000000000000)
        else if l = 4 then ((6832511668761 : ℚ) / 25000000000000)
        else if l = 5 then ((-124722501298667 : ℚ) / 400000000000000)
        else if l = 6 then ((27066360023487 : ℚ) / 80000000000000)
        else if l = 7 then ((-70370186876319 : ℚ) / 200000000000000)
        else if l = 8 then ((70370186876319 : ℚ) / 200000000000000)
        else if l = 9 then ((-27066360023487 : ℚ) / 80000000000000)
        else if l = 10 then ((124722501298667 : ℚ) / 400000000000000)
        else if l = 11 then ((-6832511668761 : ℚ) / 25000000000000)
        else if l = 12 then ((224291896585659 : ℚ) / 1000000000000000)
        else if l = 13 then ((-666655658477747 : ℚ) / 4000000000000000)
        else if l = 14 then ((410524527522357 : ℚ) / 4000000000000000)
        else if l = 15 then ((-138617169199091 : ℚ) / 4000000000000000)
        else 0)
  else 0

/-- Exact matrix coefficients of `idct16v`. -/
def idctM16 (i l : ℕ) : ℚ :=
  if i = 0 then
    (if l = 0 then ((2500000000000010434061692647 : ℚ) / 10000000000000000000000000000)
        else if l = 1 then ((70370186876319 : ℚ) / 200000000000000)
        else if l = 2 then ((69351992266107789449186325017309880024621 : ℚ) / 200000000000000000000000000000000000000000)
        else if l = 3 then ((27066360023487 : ℚ) / 80000000000000)
        else if l = 4 then ((163320370609548181637929042396215595498893 : ℚ) / 500000000000000000000000000000000000000000)
        else if l = 5 then ((124722501298667 : ℚ) / 400000000000000)
        else if l = 6 then ((18373056287802576682241115762863812015287 : ℚ) / 62500000000000000000000000000000000000000)
        else if l = 7 then ((6832511668761 : ℚ) / 25000000000000)
        else if l = 8 then ((2500000000000010434061692647 : ℚ) / 10000000000000000000000000000)
        else if l = 9 then ((224291896585659 : ℚ) / 1000000000000000)
        else if l = 10 then ((982118697983881598994833706369861586519497 : ℚ) / 5000000000000000000000000000000000000000000)
        else if l = 11 then ((666655658477747 : ℚ) / 4000000000000000)
        else if l = 12 then ((1352990250365498146873496745383593979913459 : ℚ) / 10000000000000000000000000000000000000000000)
        else if l = 13 then ((410524527522357 : ℚ) / 4000000000000000)
        else if l = 14 then ((689748448207360378751144401240883715620121 : ℚ) / 10000000000000000000000000000000000000000000)
        else if l = 15 then ((138617169199091 : ℚ) / 4000000000000000)
        else 0)
  else if i = 1 then
    (if l = 0 then ((25000000000000173325894793612787918658060064199814060479 : ℚ) / 100000000000000000000000000000000000000000000000000000000)
        else if l = 1 then ((1353318001174352682710049167564644213954817869 : ℚ) / 4000000000000000000000000000000000000000000000)
        else if l = 2 then ((2939689006048411346578676731731859420201249425835986396537 : ℚ) / 10000000000000000000000000000000000000000000000000000000000)
        else if l = 3 then ((89716758634263526466464423823447525397547167 : ℚ) / 400000000000000000000000000000000000000000000)
        else if l = 4 then ((13529902503655018803298316653271572846668095654741397462219148099848363 : ℚ) / 100000000000000000000000000000000000000000000000000000000000000000000000)
        else if l = 5 then ((13861716919909391891351038459943575111368289 : ℚ) / 400000000000000000000000000000000000000000000)
        else if l = 6 then ((-344874224103681243305301742032340564937160425303409912261 : ℚ) / 5000000000000000000000000000000000000000000000000000000000)
        else if l = 7 then ((-166663914619437776586717739347590512584174219 : ℚ) / 1000000000000000000000000000000000000000000000)
        else if l = 8 then ((-25000000000000173325894793612787918658060064199814060479 : ℚ) / 100000000000000000000000000000000000000000000000000000000)
        else if l = 9 then ((-3118062532466683052427604471487115704259717 : ℚ) / 10000000000000000000000000000000000000000000)
        else if l = 10 then ((-1733799806652691251511639458810703095500226598882629125979 : ℚ) / 5000000000000000000000000000000000000000000000000000000000)
        else if l = 11 then ((-1407403737526383538412713386216615507913093173 : ℚ) / 4000000000000000000000000000000000000000000000)
        else if l = 12 then ((-1633203706095486323059749569712006526582046806224501308587527303929301 : ℚ) / 5000000000000000000000000000000000000000000000000000000000000000000000)
        else if l = 13 then ((-1093201867001757667074054403549945575693995037 : ℚ) / 4000000000000000000000000000000000000000000000)
        else if l = 14 then ((-1964237395967766703191874783326852571469756798559410972163 : ℚ) / 10000000000000000000000000000000000000000000000000000000000)
        else if l = 15 then ((-10263113188058905956377389266139086923227879 : ℚ) / 100000000000000000000000000000000000000000000)
        else 0)
  else if i = 2 then
    (if l = 0 then ((25000000000000173325894793612787918658060064199814060479 : ℚ) / 100000000000000000000000000000000000000000000000000000000)
        else if l = 1 then ((1247225012986671666690281987034610686943395731 : ℚ) / 4000000000000000000000000000000000000000000000)
        else if l = 2 then ((1964237395967766703191874783326852571469756798559410972163 : ℚ) / 10000000000000000000000000000000000000000000000000000000000)
        else if l = 3 then ((13861716919908969402705230501601447916289163 : ℚ) / 400000000000000000000000000000000000000000000)
        else if l = 4 then ((-13529902503655018803298316653271572846668095654741397462219148099848363 : ℚ) / 100000000000000000000000000000000000000000000000000000000000000000000000)
        else if l = 5 then ((-21864037340035166415387064929221615787963759 : ℚ) / 80000000000000000000000000000000000000000000)
        else if l = 6 then ((-1733799806652691251511639458810703095500226598882629125979 : ℚ) / 5000000000000000000000000000000000000000000000000000000000)
        else if l = 7 then ((-338329500293589145078715728834274951898502581 : ℚ) / 1000000000000000000000000000000000000000000000)
        else if l = 8 then ((-25000000000000173325894793612787918658060064199814060479 : ℚ) / 100000000000000000000000000000000000000000000000000000000)
        else if l = 9 then ((-5131556594029475544098771366760923167056189 : ℚ) / 50000000000000000000000000000000000000000000)
        else if l = 10 then ((344874224103681243305301742032340564937160425303409912261 : ℚ) / 5000000000000000000000000000000000000000000000000000000000)
        else if l = 11 then ((897167586342637342577886754975152684011039227 : ℚ) / 4000000000000000000000000000000000000000000000)
        else if l = 12 then ((1633203706095486323059749569712006526582046806224501308587527303929301 : ℚ) / 5000000000000000000000000000000000000000000000000000000000000000000000)
        else if l = 13 then ((1407403737526382122176934404882000378699186963 : ℚ) / 4000000000000000000000000000000000000000000000)
        else if l = 14 then ((2939689006048411346578676731731859420201249425835986396537 : ℚ) / 10000000000000000000000000000000000000000000000000000000000)
        else if l = 15 then ((8333195730971812379267005466561589898903621 : ℚ) / 50000000000000000000000000000000000000000000)
        else 0)
  else if i = 3 then
    (if l = 0 then ((10000000000000027594111146857 : ℚ) / 40000000000000000000000000000)
        else if l = 1 then ((1093201867001754611605767438637 : ℚ) / 4000000000000000000000000000000)
        else if l = 2 then ((2758993792829437613198137282384692028160151 : ℚ) / 40000000000000000000000000000000000000000000)
        else if l = 3 then ((-666655658477744378593891338171 : ℚ) / 4000000000000000000000000000000)
        else if l = 4 then ((-653281482438191802672183658292416551526883 : ℚ) / 2000000000000000000000000000000000000000000)
        else if l = 5 then ((-1353318001174351158531349598099 : ℚ) / 4000000000000000000000000000000)
        else if l = 6 then ((-3928474791935520840277004629439030088319207 : ℚ) / 20000000000000000000000000000000000000000000)
        else if l = 7 then ((34654292299773334218490401207 : ℚ) / 1000000000000000000000000000000)
        else if l = 8 then ((10000000000000027594111146857 : ℚ) / 40000000000000000000000000000)
        else if l = 9 then ((351850934381595747590578260153 : ℚ) / 1000000000000000000000000000000)
        else if l = 10 then ((73492225151210202795262925232823334124697 : ℚ) / 250000000000000000000000000000000000000000)
        else if l = 11 then ((410524527522355849682439058881 : ℚ) / 4000000000000000000000000000000)
        else if l = 12 then ((-5411961001461984933825339679711925037052829 : ℚ) / 40000000000000000000000000000000000000000000)
        else if l = 13 then ((-1247225012986668144270951600729 : ℚ) / 4000000000000000000000000000000)
        else if l = 14 then ((-277407969064430765482633138774968462499651 : ℚ) / 800000000000000000000000000000000000000000)
        else if l = 15 then ((-897167586342634207208459781083 : ℚ) / 4000000000000000000000000000000)
        else 0)
  else if i = 4 then
    (if l = 0 then ((10000000000000027594111146857 : ℚ) / 40000000000000000000000000000)
        else if l = 1 then ((897167586342634207208459781083 : ℚ) / 4000000000000000000000000000000)
        else if l = 2 then ((-2758993792829437613198137282384692028160151 : ℚ) / 40000000000000000000000000000000000000000000)
        else if l = 3 then ((-1247225012986668144270951600729 : ℚ) / 4000000000000000000000000000000)
        else if l = 4 then ((-653281482438191802672183658292416551526883 : ℚ) / 2000000000000000000000000000000000000000000)
        else if l = 5 then ((-410524527522355849682439058881 : ℚ) / 4000000000000000000000000000000)
        else if l = 6 then ((3928474791935520840277004629439030088319207 : ℚ) / 20000000000000000000000000000000000000000000)
        else if l = 7 then ((351850934381595747590578260153 : ℚ) / 1000000000000000000000000000000)
        else if l = 8 then ((10000000000000027594111146857 : ℚ) / 40000000000000000000000000000)
        else if l = 9 then ((-34654292299773334218490401207 : ℚ) / 1000000000000000000000000000000)
        else if l = 10 then ((-73492225151210202795262925232823334124697 : ℚ) / 250000000000000000000000000000000000000000)
        else if l = 11 then ((-1353318001174351158531349598099 : ℚ) / 4000000000000000000000000000000)
        else if l = 12 then ((-5411961001461984933825339679711925037052829 : ℚ) / 40000000000000000000000000000000000000000000)
        else if l = 13 then ((666655658477744378593891338171 : ℚ) / 4000000000000000000000000000000)
        else if l = 14 then ((277407969064430765482633138774968462499651 : ℚ) / 800000000000000000000000000000000000000000)
        else if l = 15 then ((1093201867001754611605767438637 : ℚ) / 4000000000000000000000000000000)
        else 0)
  else if i = 5 then
    (if l = 0 then ((100000000000000551882222937140761434969985097739820978449 : ℚ) / 400000000000000000000000000000000000000000000000000000000)
        else if l = 1 then ((1041649466371476475517885632724416704783148981578502407498906777863471619 : ℚ) / 6250000000000000000000000000000000000000000000000000000000000000000000000)
        else if l = 2 then ((-7856949583871055701362838741206749352359370830506547066253 : ℚ) / 40000000000000000000000000000000000000000000000000000000000)
        else if l = 3 then ((-175925467190797753130442987074099911902357312510175595148835832870743622757 : ℚ) / 500000000000000000000000000000000000000000000000000000000000000000000000000)
        else if l = 4 then ((-54119610014619998676506793594650586377327451463216839569051456486308453 : ℚ) / 400000000000000000000000000000000000000000000000000000000000000000000000)
        else if l = 5 then ((112145948292829660082369948750994682448591698614512321728780131064498654653 : ℚ) / 500000000000000000000000000000000000000000000000000000000000000000000000000)
        else if l = 6 then ((6935199226610755198193753802905748483962258330633698208949 : ℚ) / 20000000000000000000000000000000000000000000000000000000000)
        else if l = 7 then ((641444574253684398742401230907387932640628331558497082572958610651904971 : ℚ) / 6250000000000000000000000000000000000000000000000000000000000000000000000)
        else if l = 8 then ((-100000000000000551882222937140761434969985097739820978449 : ℚ) / 400000000000000000000000000000000000000000000000000000000)
        else if l = 9 then ((-42291187536698640216070441601506095686973355636879321411975449280195735059 : ℚ) / 125000000000000000000000000000000000000000000000000000000000000000000000000)
        else if l = 10 then ((-1379496896414723022317986806833978915719252514376997992491 : ℚ) / 20000000000000000000000000000000000000000000000000000000000)
        else if l = 11 then ((2733004667504395613302305488308659935987348230032361140372279179507268201 : ℚ) / 10000000000000000000000000000000000000000000000000000000000000000000000000)
        else if l = 12 then ((6532814824381936053443673165898074167134874335888286919446493596456731 : ℚ) / 20000000000000000000000000000000000000000000000000000000000000000000000)
        else if l = 13 then ((1732714614988621055753104512690910434754650802291934001754947742483888557 : ℚ) / 50000000000000000000000000000000000000000000000000000000000000000000000000)
        else if l = 14 then ((-11758756024193628756922460875951550351010776570228792443447 : ℚ) / 40000000000000000000000000000000000000000000000000000000000)
        else if l = 15 then ((-155903126623333947576473492881775310799053929529707706507274945439321127909 : ℚ) / 500000000000000000000000000000000000000000000000000000000000000000000000000)
        else 0)
  else if i = 6 then
    (if l = 0 then ((100000000000000551882222937140761434969985097739820978449 : ℚ) / 400000000000000000000000000000000000000000000000000000000)
        else if l = 1 then ((1282889148507363156007283278392320291189914268112074198176797605625256881 : ℚ) / 12500000000000000000000000000000000000000000000000000000000000000000000000)
        else if l = 2 then ((-11758756024193628756922460875951550351010776570228792443447 : ℚ) / 40000000000000000000000000000000000000000000000000000000000)
        else if l = 3 then ((-136650233375219698953202919051546734516508476884689735814796700484907275243 : ℚ) / 500000000000000000000000000000000000000000000000000000000000000000000000000)
        else if l = 4 then ((54119610014619998676506793594650586377327451463216839569051456486308453 : ℚ) / 400000000000000000000000000000000000000000000000000000000000000000000000)
        else if l = 5 then ((175925467190797930159915359740914585186249313903999329280530449831636268947 : ℚ) / 500000000000000000000000000000000000000000000000000000000000000000000000000)
        else if l = 6 then ((1379496896414723022317986806833978915719252514376997992491 : ℚ) / 20000000000000000000000000000000000000000000000000000000000)
        else if l = 7 then ((-389757816558335354653921170191978378405114755569946051542709276446029763 : ℚ) / 1250000000000000000000000000000000000000000000000000000000000000000000000)
        else if l = 8 then ((-100000000000000551882222937140761434969985097739820978449 : ℚ) / 400000000000000000000000000000000000000000000000000000000)
        else if l = 9 then ((20832989327429720635529916406519982724618077853989636241056416820284980141 : ℚ) / 125000000000000000000000000000000000000000000000000000000000000000000000000)
        else if l = 10 then ((6935199226610755198193753802905748483962258330633698208949 : ℚ) / 20000000000000000000000000000000000000000000000000000000000)
        else if l = 11 then ((1732714614988673866833830507480031524060851051763500789123510169583116871 : ℚ) / 50000000000000000000000000000000000000000000000000000000000000000000000000)
        else if l = 12 then ((-6532814824381936053443673165898074167134874335888286919446493596456731 : ℚ) / 20000000000000000000000000000000000000000000000000000000000000000000000)
        else if l = 13 then ((-11214594829282940034321463415842792985430204856650910556867103826187120313 : ℚ) / 50000000000000000000000000000000000000000000000000000000000000000000000000)
        else if l = 14 then ((7856949583871055701362838741206749352359370830506547066253 : ℚ) / 40000000000000000000000000000000000000000000000000000000000)
        else if l = 15 then ((169164750146794073663680047934501058184624043512673154450243898902285842491 : ℚ) / 500000000000000000000000000000000000000000000000000000000000000000000000000)
        else 0)
  else if i = 7 then
    (if l = 0 then ((10000000000000027594111146857 : ℚ) / 40000000000000000000000000000)
        else if l = 1 then ((17327146149886373804149506999896027821922949 : ℚ) / 500000000000000000000000000000000000000000000)
        else if l = 2 then ((-277407969064430765482633138774968462499651 : ℚ) / 800000000000000000000000000000000000000000)
        else if l = 3 then ((-51315565940294621458404384804990805457208723 : ℚ) / 500000000000000000000000000000000000000000000)
        else if l = 4 then ((653281482438191802672183658292416551526883 : ℚ) / 2000000000000000000000000000000000000000000)
        else if l = 5 then ((83331957309718369248760795952320100066004933 : ℚ) / 500000000000000000000000000000000000000000000)
        else if l = 6 then ((-73492225151210202795262925232823334124697 : ℚ) / 250000000000000000000000000000000000000000)
        else if l = 7 then ((-28036487073207373065033526094778044842082301 : ℚ) / 125000000000000000000000000000000000000000000)
        else if l = 8 then ((10000000000000027594111146857 : ℚ) / 40000000000000000000000000000)
        else if l = 9 then ((854063958595124941055913241298646321248079 : ℚ) / 3125000000000000000000000000000000000000000)
        else if l = 10 then ((-3928474791935520840277004629439030088319207 : ℚ) / 20000000000000000000000000000000000000000000)
        else if l = 11 then ((-15590312662333373924018824450246335347028813 : ℚ) / 50000000000000000000000000000000000000000000)
        else if l = 12 then ((5411961001461984933825339679711925037052829 : ℚ) / 40000000000000000000000000000000000000000000)
        else if l = 13 then ((3383295002935874766498478039778873503664793 : ℚ) / 10000000000000000000000000000000000000000000)
        else if l = 14 then ((-2758993792829437613198137282384692028160151 : ℚ) / 40000000000000000000000000000000000000000000)
        else if l = 15 then ((-8796273359539874392916309323193408629402041 : ℚ) / 25000000000000000000000000000000000000000000)
        else 0)
  else if i = 8 then
    (if l = 0 then ((10000000000000027594111146857 : ℚ) / 40000000000000000000000000000)
        else if l = 1 then ((-17327146149886373804149506999896027821922949 : ℚ) / 500000000000000000000000000000000000000000000)
        else if l = 2 then ((-277407969064430765482633138774968462499651 : ℚ) / 800000000000000000000000000000000000000000)
        else if l = 3 then ((51315565940294621458404384804990805457208723 : ℚ) / 500000000000000000000000000000000000000000000)
        else if l = 4 then ((653281482438191802672183658292416551526883 : ℚ) / 2000000000000000000000000000000000000000000)
        else if l = 5 then ((-83331957309718369248760795952320100066004933 : ℚ) / 500000000000000000000000000000000000000000000)
        else if l = 6 then ((-73492225151210202795262925232823334124697 : ℚ) / 250000000000000000000000000000000000000000)
        else if l = 7 then ((28036487073207373065033526094778044842082301 : ℚ) / 125000000000000000000000000000000000000000000)
        else if l = 8 then ((10000000000000027594111146857 : ℚ) / 40000000000000000000000000000)
        else if l = 9 then ((-854063958595124941055913241298646321248079 : ℚ) / 3125000000000000000000000000000000000000000)
        else if l = 10 then ((-3928474791935520840277004629439030088319207 : ℚ) / 20000000000000000000000000000000000000000000)
        else if l = 11 then ((15590312662333373924018824450246335347028813 : ℚ) / 50000000000000000000000000000000000000000000)
        else if l = 12 then ((5411961001461984933825339679711925037052829 : ℚ) / 40000000000000000000000000000000000000000000)
        else if l = 13 then ((-3383295002935874766498478039778873503664793 : ℚ) / 10000000000000000000000000000000000000000000)
        else if l = 14 then ((-2758993792829437613198137282384692028160151 : ℚ) / 40000000000000000000000000000000000000000000)
        else if l = 15 then ((8796273359539874392916309323193408629402041 : ℚ) / 25000000000000000000000000000000000000000000)
        else 0)
  else if i = 9 then
    (if l = 0 then ((100000000000000551882222937140761434969985097739820978449 : ℚ) / 400000000000000000000000000000000000000000000000000000000)
        else if l = 1 then ((-1282889148507363156007283278392320291189914268112074198176797605625256881 : ℚ) / 12500000000000000000000000000000000000000000000000000000000000000000000000)
        else if l = 2 then ((-11758756024193628756922460875951550351010776570228792443447 : ℚ) / 40000000000000000000000000000000000000000000000000000000000)
        else if l = 3 then ((136650233375219698953202919051546734516508476884689735814796700484907275243 : ℚ) / 500000000000000000000000000000000000000000000000000000000000000000000000000)
        else if l = 4 then ((54119610014619998676506793594650586377327451463216839569051456486308453 : ℚ) / 400000000000000000000000000000000000000000000000000000000000000000000000)
        else if l = 5 then ((-175925467190797930159915359740914585186249313903999329280530449831636268947 : ℚ) / 500000000000000000000000000000000000000000000000000000000000000000000000000)
        else if l = 6 then ((1379496896414723022317986806833978915719252514376997992491 : ℚ) / 20000000000000000000000000000000000000000000000000000000000)
        else if l = 7 then ((389757816558335354653921170191978378405114755569946051542709276446029763 : ℚ) / 1250000000000000000000000000000000000000000000000000000000000000000000000)
        else if l = 8 then ((-100000000000000551882222937140761434969985097739820978449 : ℚ) / 400000000000000000000000000000000000000000000000000000000)
        else if l = 9 then ((-20832989327429720635529916406519982724618077853989636241056416820284980141 : ℚ) / 125000000000000000000000000000000000000000000000000000000000000000000000000)
        else if l = 10 then ((6935199226610755198193753802905748483962258330633698208949 : ℚ) / 20000000000000000000000000000000000000000000000000000000000)
        else if l = 11 then ((-1732714614988673866833830507480031524060851051763500789123510169583116871 : ℚ) / 50000000000000000000000000000000000000000000000000000000000000000000000000)
        else if l = 12 then ((-6532814824381936053443673165898074167134874335888286919446493596456731 : ℚ) / 20000000000000000000000000000000000000000000000000000000000000000000000)
        else if l = 13 then ((11214594829282940034321463415842792985430204856650910556867103826187120313 : ℚ) / 50000000000000000000000000000000000000000000000000000000000000000000000000)
        else if l = 14 then ((7856949583871055701362838741206749352359370830506547066253 : ℚ) / 40000000000000000000000000000000000000000000000000000000000)
        else if l = 15 then ((-169164750146794073663680047934501058184624043512673154450243898902285842491 : ℚ) / 500000000000000000000000000000000000000000000000000000000000000000000000000)
        else 0)
  else if i = 10 then
    (if l = 0 then ((100000000000000551882222937140761434969985097739820978449 : ℚ) / 400000000000000000000000000000000000000000000000000000000)
        else if l = 1 then ((-1041649466371476475517885632724416704783148981578502407498906777863471619 : ℚ) / 6250000000000000000000000000000000000000000000000000000000000000000000000)
        else if l = 2 then ((-7856949583871055701362838741206749352359370830506547066253 : ℚ) / 40000000000000000000000000000000000000000000000000000000000)
        else if l = 3 then ((175925467190797753130442987074099911902357312510175595148835832870743622757 : ℚ) / 500000000000000000000000000000000000000000000000000000000000000000000000000)
        else if l = 4 then ((-54119610014619998676506793594650586377327451463216839569051456486308453 : ℚ) / 400000000000000000000000000000000000000000000000000000000000000000000000)
        else if l = 5 then ((-112145948292829660082369948750994682448591698614512321728780131064498654653 : ℚ) / 500000000000000000000000000000000000000000000000000000000000000000000000000)
        else if l = 6 then ((6935199226610755198193753802905748483962258330633698208949 : ℚ) / 20000000000000000000000000000000000000000000000000000000000)
        else if l = 7 then ((-641444574253684398742401230907387932640628331558497082572958610651904971 : ℚ) / 6250000000000000000000000000000000000000000000000000000000000000000000000)
        else if l = 8 then ((-100000000000000551882222937140761434969985097739820978449 : ℚ) / 400000000000000000000000000000000000000000000000000000000)
        else if l = 9 then ((42291187536698640216070441601506095686973355636879321411975449280195735059 : ℚ) / 125000000000000000000000000000000000000000000000000000000000000000000000000)
        else if l = 10 then ((-1379496896414723022317986806833978915719252514376997992491 : ℚ) / 20000000000000000000000000000000000000000000000000000000000)
        else if l = 11 then ((-2733004667504395613302305488308659935987348230032361140372279179507268201 : ℚ) / 10000000000000000000000000000000000000000000000000000000000000000000000000)
        else if l = 12 then ((6532814824381936053443673165898074167134874335888286919446493596456731 : ℚ) / 20000000000000000000000000000000000000000000000000000000000000000000000)
        else if l = 13 then ((-1732714614988621055753104512690910434754650802291934001754947742483888557 : ℚ) / 50000000000000000000000000000000000000000000000000000000000000000000000000)
        else if l = 14 then ((-11758756024193628756922460875951550351010776570228792443447 : ℚ) / 40000000000000000000000000000000000000000000000000000000000)
        else if l = 15 then ((155903126623333947576473492881775310799053929529707706507274945439321127909 : ℚ) / 500000000000000000000000000000000000000000000000000000000000000000000000000)
        else 0)
  else if i = 11 then
    (if l = 0 then ((10000000000000027594111146857 : ℚ) / 40000000000000000000000000000)
        else if l = 1 then ((-897167586342634207208459781083 : ℚ) / 4000000000000000000000000000000)
        else if l = 2 then ((-2758993792829437613198137282384692028160151 : ℚ) / 40000000000000000000000000000000000000000000)
        else if l = 3 then ((1247225012986668144270951600729 : ℚ) / 4000000000000000000000000000000)
        else if l = 4 then ((-653281482438191802672183658292416551526883 : ℚ) / 2000000000000000000000000000000000000000000)
        else if l = 5 then ((410524527522355849682439058881 : ℚ) / 4000000000000000000000000000000)
        else if l = 6 then ((3928474791935520840277004629439030088319207 : ℚ) / 20000000000000000000000000000000000000000000)
        else if l = 7 then ((-351850934381595747590578260153 : ℚ) / 1000000000000000000000000000000)
        else if l = 8 then ((10000000000000027594111146857 : ℚ) / 40000000000000000000000000000)
        else if l = 9 then ((34654292299773334218490401207 : ℚ) / 1000000000000000000000000000000)
        else if l = 10 then ((-73492225151210202795262925232823334124697 : ℚ) / 250000000000000000000000000000000000000000)
        else if l = 11 then ((1353318001174351158531349598099 : ℚ) / 4000000000000000000000000000000)
        else if l = 12 then ((-5411961001461984933825339679711925037052829 : ℚ) / 40000000000000000000000000000000000000000000)
        else if l = 13 then ((-666655658477744378593891338171 : ℚ) / 4000000000000000000000000000000)
        else if l = 14 then ((277407969064430765482633138774968462499651 : ℚ) / 800000000000000000000000000000000000000000)
        else if l = 15 then ((-1093201867001754611605767438637 : ℚ) / 4000000000000000000000000000000)
        else 0)
  else if i = 12 then
    (if l = 0 then ((10000000000000027594111146857 : ℚ) / 40000000000000000000000000000)
        else if l = 1 then ((-1093201867001754611605767438637 : ℚ) / 4000000000000000000000000000000)
        else if l = 2 then ((2758993792829437613198137282384692028160151 : ℚ) / 40000000000000000000000000000000000000000000)
        else if l = 3 then ((666655658477744378593891338171 : ℚ) / 4000000000000000000000000000000)
        else if l = 4 then ((-653281482438191802672183658292416551526883 : ℚ) / 2000000000000000000000000000000000000000000)
        else if l = 5 then ((1353318001174351158531349598099 : ℚ) / 4000000000000000000000000000000)
        else if l = 6 then ((-3928474791935520840277004629439030088319207 : ℚ) / 20000000000000000000000000000000000000000000)
        else if l = 7 then ((-34654292299773334218490401207 : ℚ) / 1000000000000000000000000000000)
        else if l = 8 then ((10000000000000027594111146857 : ℚ) / 40000000000000000000000000000)
        else if l = 9 then ((-351850934381595747590578260153 : ℚ) / 1000000000000000000000000000000)
        else if l = 10 then ((73492225151210202795262925232823334124697 : ℚ) / 250000000000000000000000000000000000000000)
        else if l = 11 then ((-410524527522355849682439058881 : ℚ) / 4000000000000000000000000000000)
        else if l = 12 then ((-5411961001461984933825339679711925037052829 : ℚ) / 40000000000000000000000000000000000000000000)
        else if l = 13 then ((1247225012986668144270951600729 : ℚ) / 4000000000000000000000000000000)
        else if l = 14 then ((-277407969064430765482633138774968462499651 : ℚ) / 800000000000000000000000000000000000000000)
        else if l = 15 then ((897167586342634207208459781083 : ℚ) / 4000000000000000000000000000000)
        else 0)
  else if i = 13 then
    (if l = 0 then ((25000000000000173325894793612787918658060064199814060479 : ℚ) / 100000000000000000000000000000000000000000000000000000000)
        else if l = 1 then ((-1247225012986671666690281987034610686943395731 : ℚ) / 4000000000000000000000000000000000000000000000)
        else if l = 2 then ((1964237395967766703191874783326852571469756798559410972163 : ℚ) / 10000000000000000000000000000000000000000000000000000000000)
        else if l = 3 then ((-13861716919908969402705230501601447916289163 : ℚ) / 400000000000000000000000000000000000000000000)
        else if l = 4 then ((-13529902503655018803298316653271572846668095654741397462219148099848363 : ℚ) / 100000000000000000000000000000000000000000000000000000000000000000000000)
        else if l = 5 then ((21864037340035166415387064929221615787963759 : ℚ) / 80000000000000000000000000000000000000000000)
        else if l = 6 then ((-1733799806652691251511639458810703095500226598882629125979 : ℚ) / 5000000000000000000000000000000000000000000000000000000000)
        else if l = 7 then ((338329500293589145078715728834274951898502581 : ℚ) / 1000000000000000000000000000000000000000000000)
        else if l = 8 then ((-25000000000000173325894793612787918658060064199814060479 : ℚ) / 100000000000000000000000000000000000000000000000000000000)
        else if l = 9 then ((5131556594029475544098771366760923167056189 : ℚ) / 50000000000000000000000000000000000000000000)
        else if l = 10 then ((344874224103681243305301742032340564937160425303409912261 : ℚ) / 5000000000000000000000000000000000000000000000000000000000)
        else if l = 11 then ((-897167586342637342577886754975152684011039227 : ℚ) / 4000000000000000000000000000000000000000000000)
        else if l = 12 then ((1633203706095486323059749569712006526582046806224501308587527303929301 : ℚ) / 5000000000000000000000000000000000000000000000000000000000000000000000)
        else if l = 13 then ((-1407403737526382122176934404882000378699186963 : ℚ) / 4000000000000000000000000000000000000000000000)
        else if l = 14 then ((2939689006048411346578676731731859420201249425835986396537 : ℚ) / 10000000000000000000000000000000000000000000000000000000000)
        else if l = 15 then ((-8333195730971812379267005466561589898903621 : ℚ) / 50000000000000000000000000000000000000000000)
        else 0)
  else if i = 14 then
    (if l = 0 then ((25000000000000173325894793612787918658060064199814060479 : ℚ) / 100000000000000000000000000000000000000000000000000000000)
        else if l = 1 then ((-1353318001174352682710049167564644213954817869 : ℚ) / 4000000000000000000000000000000000000000000000)
        else if l = 2 then ((2939689006048411346578676731731859420201249425835986396537 : ℚ) / 10000000000000000000000000000000000000000000000000000000000)
        else if l = 3 then ((-89716758634263526466464423823447525397547167 : ℚ) / 400000000000000000000000000000000000000000000)
        else if l = 4 then ((13529902503655018803298316653271572846668095654741397462219148099848363 : ℚ) / 100000000000000000000000000000000000000000000000000000000000000000000000)
        else if l = 5 then ((-13861716919909391891351038459943575111368289 : ℚ) / 400000000000000000000000000000000000000000000)
        else if l = 6 then ((-344874224103681243305301742032340564937160425303409912261 : ℚ) / 5000000000000000000000000000000000000000000000000000000000)
        else if l = 7 then ((166663914619437776586717739347590512584174219 : ℚ) / 1000000000000000000000000000000000000000000000)
        else if l = 8 then ((-25000000000000173325894793612787918658060064199814060479 : ℚ) / 100000000000000000000000000000000000000000000000000000000)
        else if l = 9 then ((3118062532466683052427604471487115704259717 : ℚ) / 10000000000000000000000000000000000000000000)
        else if l = 10 then ((-1733799806652691251511639458810703095500226598882629125979 : ℚ) / 5000000000000000000000000000000000000000000000000000000000)
        else if l = 11 then ((1407403737526383538412713386216615507913093173 : ℚ) / 4000000000000000000000000000000000000000000000)
        else if l = 12 then ((-1633203706095486323059749569712006526582046806224501308587527303929301 : ℚ) / 5000000000000000000000000000000000000000000000000000000000000000000000)
        else if l = 13 then ((1093201867001757667074054403549945575693995037 : ℚ) / 4000000000000000000000000000000000000000000000)
        else if l = 14 then ((-1964237395967766703191874783326852571469756798559410972163 : ℚ) / 10000000000000000000000000000000000000000000000000000000000)
        else if l = 15 then ((10263113188058905956377389266139086923227879 : ℚ) / 100000000000000000000000000000000000000000000)
        else 0)
  else if i = 15 then
    (if l = 0 then ((2500000000000010434061692647 : ℚ) / 10000000000000000000000000000)
        else if l = 1 then ((-70370186876319 : ℚ) / 200000000000000)
        else if l = 2 then ((69351992266107789449186325017309880024621 : ℚ) / 200000000000000000000000000000000000000000)
        else if l = 3 then ((-27066360023487 : ℚ) / 80000000000000)
        else if l = 4 then ((163320370609548181637929042396215595498893 : ℚ) / 500000000000000000000000000000000000000000)
        else if l = 5 then ((-124722501298667 : ℚ) / 400000000000000)
        else if l = 6 then ((18373056287802576682241115762863812015287 : ℚ) / 62500000000000000000000000000000000000000)
        else if l = 7 then ((-6832511668761 : ℚ) / 25000000000000)
        else if l = 8 then ((2500000000000010434061692647 : ℚ) / 10000000000000000000000000000)
        else if l = 9 then ((-224291896585659 : ℚ) / 1000000000000000)
        else if l = 10 then ((982118697983881598994833706369861586519497 : ℚ) / 5000000000000000000000000000000000000000000)
        else if l = 11 then ((-666655658477747 : ℚ) / 4000000000000000)
        else if l = 12 then ((1352990250365498146873496745383593979913459 : ℚ) / 10000000000000000000000000000000000000000000)
        else if l = 13 then ((-410524527522357 : ℚ) / 4000000000000000)
        else if l = 14 then ((689748448207360378751144401240883715620121 : ℚ) / 10000000000000000000000000000000000000000000)
        else if l = 15 then ((-138617169199091 : ℚ) / 4000000000000000)
        else 0)
  else 0

/-- Separable forward 2D DCT of one 8x8 block as in `filter_freq_8`
(lines 362-363): the first pass transforms the rows, the second the
columns. -/
def fdct2D8 (blk : ℕ → ℕ → ℚ) (r c : ℕ) : ℚ :=
  fdct8v (fun k => fdct8v (blk k) c) r

/-- Separable inverse 2D DCT of one 8x8 block (lines 378-379); the final
accumulation (`add = 1`) into the destination happens in `accumBlock`. -/
def idct2D8 (blk : ℕ → ℕ → ℚ) (r c : ℕ) : ℚ :=
  idct8v (fun k => idct8v (blk k) c) r

/-- Separable forward 2D DCT of one 16x16 block as in `filter_freq_16`. -/
def fdct2D16 (blk : ℕ → ℕ → ℚ) (r c : ℕ) : ℚ :=
  fdct16v (fun k => fdct16v (blk k) c) r

/-- Separable inverse 2D DCT of one 16x16 block. -/
def idct2D16 (blk : ℕ → ℕ → ℚ) (r c : ℕ) : ℚ :=
  idct16v (fun k => idct16v (blk k) c) r

/-- `filter_freq_##bsize` on one 8x8 block: forward 2D DCT, the
per-coefficient map, inverse 2D DCT. -/
def filterBlock8 (coeff : ℚ → ℚ) (blk : ℕ → ℕ → ℚ) (r c : ℕ) : ℚ :=
  idct2D8 (fun u v => coeff (fdct2D8 blk u v)) r c

/-- `filter_freq_##bsize` on one 16x16 block. -/
def filterBlock16 (coeff : ℚ → ℚ) (blk : ℕ → ℕ → ℚ) (r c : ℕ) : ℚ :=
  idct2D16 (fun u v => coeff (fdct2D16 blk u v)) r c

/-- A float plane (row index first, then column). -/
abbrev Plane := ℕ → ℕ → ℚ

/-- A packed 3-channel 8-bit frame: row, pixel column, byte within the
pixel. -/
abbrev Frame := ℕ → ℕ → Fin 3 → ℕ

/-- Value contributed by the filtered block anchored at `(x0, y0)` at
relative offset `(dy, dx)`; the block transform is dispatched on the
block size installed by `init` (8 or 16, cf. the `filter_freq_func`
selection). -/
def blockResult (bsize : ℕ) (coeff : ℚ → ℚ) (src : Plane) (x0 y0 dy dx : ℕ) : ℚ :=
  match bsize with
  | 8 => filterBlock8 coeff (fun u v => src (y0 + u) (x0 + v)) dy dx
  | 16 => filterBlock16 coeff (fun u v => src (y0 + u) (x0 + v)) dy dx
  | _ => 0

/-- One call of `s->filter_freq_func` in `filter_plane` (lines 613-614):
the inverse transform accumulates (`add = 1`) the filtered block into the
destination plane over its footprint. -/
def accumBlock (bsize : ℕ) (coeff : ℚ → ℚ) (src : Plane) (x0 y0 : ℕ) (dst : Plane) : Plane :=
  fun y x =>
    if x0 ≤ x ∧ x < x0 + bsize ∧ y0 ≤ y ∧ y < y0 + bsize then
      dst y x + blockResult bsize coeff src x0 y0 (y - y0) (x - x0)
    else dst y x

/-- `filter_plane` (lines 597-627): zero the destination, accumulate every
block of the sweep, then multiply each pixel of the region by its weight. -/
def filterPlaneValues (bsize step : ℕ) (coeff : ℚ → ℚ) (w h : ℤ) (src : Plane) : Plane :=
  let acc := (sweepList (h - (bsize : ℤ) + 1) step).foldl
      (fun d y0 => (sweepList (w - (bsize : ℤ) + 1) step).foldl
        (fun d2 x0 => accumBlock bsize coeff src x0 y0 d2) d)
      (fun _ _ => 0)
  fun y x =>
    if (x : ℤ) < w ∧ (y : ℤ) < h then acc y x * weights w h bsize step x y else acc y x

/-- DCT3X3 matrix entries (lines 518-525), as the exact rationals of the
float literals. -/
def DCT3X3_0_0 : ℚ := 0.5773502691896258
def DCT3X3_0_1 : ℚ := 0.5773502691896258
def DCT3X3_0_2 : ℚ := 0.5773502691896258
def DCT3X3_1_0 : ℚ := 0.7071067811865475
def DCT3X3_1_2 : ℚ := -0.7071067811865475
def DCT3X3_2_0 : ℚ := 0.4082482904638631
def DCT3X3_2_1 : ℚ := -0.8164965809277261
def DCT3X3_2_2 : ℚ := 0.4082482904638631

/-- One pixel of `color_decorrelation` (lines 541-543), applied to the
`r`, `g`, `b` components of a pixel. -/
def decorrelatePixel (r g b : ℚ) : ℚ × ℚ × ℚ :=
  (r * DCT3X3_0_0 + g * DCT3X3_0_1 + b * DCT3X3_0_2,
   r * DCT3X3_1_0 + b * DCT3X3_1_2,
   r * DCT3X3_2_0 + g * DCT3X3_2_1 + b * DCT3X3_2_2)

/-- One pixel of `color_correlation` (lines 567-569): each float result
is implicitly converted to `int` (truncation toward zero) by
`av_clip_uint8`'s parameter and clamped to the 8-bit range. -/
def correlatePixel (p : ℚ × ℚ × ℚ) : ℕ × ℕ × ℕ :=
  (avClipUint8 (cTruncToInt (p.1 * DCT3X3_0_0 + p.2.1 * DCT3X3_1_0 + p.2.2 * DCT3X3_2_0)),
   avClipUint8 (cTruncToInt (p.1 * DCT3X3_0_1 + p.2.2 * DCT3X3_2_1)),
   avClipUint8 (cTruncToInt (p.1 * DCT3X3_0_2 + p.2.1 * DCT3X3_1_2 + p.2.2 * DCT3X3_2_2)))

/-- `color_decorrelation` (lines 527-551): the three decorrelated planes
of the packed frame; `r`, `g`, `b` are the byte offsets of the channels
within one pixel (0,1,2 for RGB24 and 2,1,0 for BGR24). -/
def colorDecorrelation (r g b : Fin 3) (src : Frame) : Fin 3 → Plane :=
  fun p y x =>
    let t := decorrelatePixel (src y x r) (src y x g) (src y x b)
    if p = 0 then t.1 else if p = 1 then t.2.1 else t.2.2

/-- `color_correlation` (lines 553-577): packs the three filtered planes
back into 8-bit bytes at the channel offsets `r`, `g`, `b`. -/
def colorCorrelation (r g b : Fin 3) (src : Fin 3 → Plane) : Frame :=
  fun y x ch =>
    let t := correlatePixel (src 0 y x, src 1 y x, src 2 y x)
    if ch = r then t.1 else if ch = g then t.2.1 else t.2.2

/-- `filter_frame` (lines 629-695), parameterized by the context fields
it reads (`bsize`, `step`, the installed per-coefficient filter): the
frame is decorrelated over the processable region, each plane is
filtered, the result is correlated back over the region; in the direct
path the output frame is the (writable) input frame itself, otherwise a
fresh frame receives the region and the right/bottom margins are copied
from the input (`hpad`/`vpad` loops, lines 661-689). -/
def filterFrameCore (bsize stepN : ℕ) (coeff : ℚ → ℚ) (r g b : Fin 3)
    (w h prw prh : ℤ) (direct : Bool) (fresh input : Frame) : Frame :=
  let planes := colorDecorrelation r g b input
  let filtered : Fin 3 → Plane := fun p => filterPlaneValues bsize stepN coeff prw prh (planes p)
  let corr := colorCorrelation r g b filtered
  let base : Frame := if direct then input else fresh
  let o1 : Frame := fun y x ch =>
    if (x : ℤ) < prw ∧ (y : ℤ) < prh then corr y x ch else base y x ch
  if direct then o1
  else
    let o2 : Frame := fun y x ch =>
      if (y : ℤ) < prh ∧ prw ≤ (x : ℤ) ∧ (x : ℤ) < w then input y x ch else o1 y x ch
    fun y x ch => if prh ≤ (y : ℤ) ∧ (y : ℤ) < h then input y x ch else o2 y x ch

/-- `filter_frame` reading its parameters from the context installed by
`init` (`s->bsize`, `s->step`, `s->filter_freq_func`). -/
def filterFrame (ctx : DnoizCtx) (r g b : Fin 3) (w h prw prh : ℤ)
    (direct : Bool) (fresh input : Frame) : Frame :=
  filterFrameCore ctx.bsize ctx.step.toNat (filterFreqCoeff ctx) r g b w h prw prh
    direct fresh input

end Dctdnoiz

namespace Dctdnoiz

/-- Claim C10 helper: `Int.tmod` agrees with `Int.emod` on nonnegative
dividends and divisors. -/
lemma tmod_eq_emod_of_nonneg (a b : ℤ) (ha : 0 ≤ a) (hb : 0 ≤ b) :
    a.tmod b = a % b :=
  Int.tmod_eq_emod ha hb

/-- For `step ≥ 1` and `dim ≥ bsize` the cropped dimension lies in
`[bsize, dim]` and differs from `bsize` by a multiple of `step`. -/
lemma processableDim_props (dim : ℤ) (bsize step : ℕ)
    (h1 : 1 ≤ step) (h3 : (bsize : ℤ) ≤ dim) :
    (bsize : ℤ) ≤ processableDim dim bsize step ∧
    processableDim dim bsize step ≤ dim ∧
    (step : ℤ) ∣ (processableDim dim bsize step - bsize) := by
  have hs0 : (0 : ℤ) < (step : ℤ) := by exact_mod_cast h1
  have ha : (0 : ℤ) ≤ dim - (bsize : ℤ) := by omega
  have htm : (dim - (bsize : ℤ)).tmod (step : ℤ) = (dim - (bsize : ℤ)) % (step : ℤ) :=
    tmod_eq_emod_of_nonneg _ _ ha (le_of_lt hs0)
  have hr0 : 0 ≤ (dim - (bsize : ℤ)) % (step : ℤ) :=
    Int.emod_nonneg _ (ne_of_gt hs0)
  have hde : (dim - (bsize : ℤ)) % (step : ℤ) +
      (step : ℤ) * ((dim - (bsize : ℤ)) / (step : ℤ)) = dim - (bsize : ℤ) :=
    Int.emod_add_ediv _ _
  have hq0 : 0 ≤ (dim - (bsize : ℤ)) / (step : ℤ) := Int.ediv_nonneg ha (le_of_lt hs0)
  have hprod : 0 ≤ (step : ℤ) * ((dim - (bsize : ℤ)) / (step : ℤ)) :=
    mul_nonneg (le_of_lt hs0) hq0
  refine ⟨?_, ?_, ?_⟩
  · unfold processableDim
    omega
  · unfold processableDim
    omega
  · refine ⟨(dim - (bsize : ℤ)) / (step : ℤ), ?_⟩
    unfold processableDim
    omega

/-- Claim C3: `config_input` computes the processable width and height
independently as `pr_dim = dim - ((dim - bsize) mod step)` with C's `%`,
and in particular a 20x20 input with `bsize = 16`, `step = 16` yields a
16x16 processable region. -/
theorem claim3_crop_formula :
    (∀ (w h : ℤ) (bsize step : ℕ),
      (configInput w h bsize step).prWidth = w - (w - (bsize : ℤ)).tmod (step : ℤ) ∧
      (configInput w h bsize step).prHeight = h - (h - (bsize : ℤ)).tmod (step : ℤ)) ∧
    (configInput 20 20 16 16).prWidth = 16 ∧ (configInput 20 20 16 16).prHeight = 16 := by
  refine ⟨fun w h bsize step => ⟨rfl, rfl⟩, by decide, by decide⟩

/-- Claim C10: for `dim ≥ bsize` and `1 ≤ step ≤ bsize` the cropping
formula yields `bsize ≤ pr_dim ≤ dim` with `step ∣ pr_dim - bsize`,
whereas for `dim = 5 < 8 = bsize` and `step = 2 > 1` the truncated
remainder of the negative dividend makes `pr_dim = 6 > 5 = dim`. -/
theorem claim10_crop_needs_dim_ge_bsize :
    (∀ (dim : ℤ) (bsize step : ℕ), 1 ≤ step → step ≤ bsize → (bsize : ℤ) ≤ dim →
      (bsize : ℤ) ≤ processableDim dim bsize step ∧
      processableDim dim bsize step ≤ dim ∧
      (step : ℤ) ∣ (processableDim dim bsize step - bsize)) ∧
    ((5 : ℤ) < (8 : ℕ) ∧ 1 < (2 : ℕ) ∧ processableDim 5 8 2 = 6 ∧ 5 < processableDim 5 8 2) := by
  constructor
  · intro dim bsize step h1 _h2 h3
    exact processableDim_props dim bsize step h1 h3
  · exact ⟨by norm_num, by norm_num, by decide, by decide⟩

/-- Witness for C10: concrete instantiation at `dim = 20`, `bsize = 8`,
`step = 4`. -/
theorem claim10_crop_needs_dim_ge_bsize_witness :
    (8 : ℤ) ≤ processableDim 20 8 4 ∧ processableDim 20 8 4 ≤ 20 ∧
    (4 : ℤ) ∣ (processableDim 20 8 4 - 8) :=
  claim10_crop_needs_dim_ge_bsize.1 20 8 4 (by norm_num) (by norm_num) (by norm_num)

/-- Summing the indicator of `c + d = v` over `d < b` yields the
indicator of `c ≤ v < c + b`. -/
lemma indicator_range_sum (c b v : ℕ) :
    (∑ d ∈ Finset.range b, if c + d = v then 1 else 0) =
      if c ≤ v ∧ v < c + b then 1 else 0 := by
  induction b with
  | zero => rw [Finset.sum_range_zero]; split_ifs with hcond <;> omega
  | succ m ih =>
      rw [Finset.sum_range_succ, ih]
      split_ifs <;> omega

/-- The two innermost loops of the weight computation contribute exactly
the footprint indicator of the block at `(x0, y0)`. -/
lemma block_footprint_count (bsize x0 y0 x y : ℕ) :
    (∑ dy ∈ Finset.range bsize, ∑ dx ∈ Finset.range bsize,
        if x0 + dx = x ∧ y0 + dy = y then 1 else 0) =
      if y0 ≤ y ∧ y < y0 + bsize ∧ x0 ≤ x ∧ x < x0 + bsize then 1 else 0 := by
  have hrow : ∀ dy, (∑ dx ∈ Finset.range bsize, if x0 + dx = x ∧ y0 + dy = y then 1 else 0)
      = (if y0 + dy = y then 1 else 0) * (if x0 ≤ x ∧ x < x0 + bsize then 1 else 0) := by
    intro dy
    by_cases hdy : y0 + dy = y
    · rw [if_pos hdy, one_mul, ← indicator_range_sum x0 bsize x]
      refine Finset.sum_congr rfl (fun dx _ => ?_)
      simp [hdy]
    · rw [if_neg hdy, zero_mul]
      refine Finset.sum_eq_zero (fun dx _ => ?_)
      rw [if_neg (fun hcont => hdy hcont.2)]
  rw [Finset.sum_congr rfl (fun dy _ => hrow dy), ← Finset.sum_mul, indicator_range_sum]
  split_ifs <;> omega

/-- Claim C2 helper: the sweep of `filter_plane` visits exactly as many
covering blocks at each pixel as `config_input` counted. -/
lemma filterPlaneCount_eq_iweights (w h : ℤ) (bsize step : ℕ) (x y : ℕ) :
    filterPlaneCount w h bsize step x y = iweights w h bsize step x y := by
  unfold filterPlaneCount iweights
  refine Finset.sum_congr rfl (fun y0 _ => Finset.sum_congr rfl (fun x0 _ => ?_))
  exact (block_footprint_count bsize x0 y0 x y).symm

/-- Every coordinate below a cropped dimension is covered by some block
start of the sweep. -/
lemma cover_exists (pr bsize step v : ℕ) (h1 : 1 ≤ step) (h2 : step ≤ bsize)
    (h3 : bsize ≤ pr) (h4 : step ∣ (pr - bsize)) (h5 : v < pr) :
    ∃ p, p % step = 0 ∧ p + bsize ≤ pr ∧ p ≤ v ∧ v < p + bsize := by
  obtain ⟨k, hk⟩ := h4
  have hdm := Nat.div_add_mod v step
  have hml : v % step < step := Nat.mod_lt v (by omega)
  by_cases hq : step * (v / step) ≤ pr - bsize
  · exact ⟨step * (v / step), Nat.mul_mod_right step _, by omega, by omega, by omega⟩
  · refine ⟨pr - bsize, ?_, by omega, ?_, by omega⟩
    · rw [hk]; exact Nat.mul_mod_right step k
    · have hgt : step * k < step * (v / step) := by omega
      have hqk : k < v / step := Nat.lt_of_mul_lt_mul_left hgt
      have hge : step * (k + 1) ≤ step * (v / step) :=
        Nat.mul_le_mul (Nat.le_refl step) hqk
      have hmul : step * (k + 1) = step * k + step := by ring
      omega

/-- Claim C1/C2 helper: positivity of the coverage counter for a
geometry satisfying the invariants produced by the cropping rule on
inputs at least `bsize` wide and tall. -/
lemma iweights_pos (prw prh : ℤ) (bsize step : ℕ) (x y : ℕ)
    (h1 : 1 ≤ step) (h2 : step ≤ bsize)
    (hbw : (bsize : ℤ) ≤ prw) (hbh : (bsize : ℤ) ≤ prh)
    (hdw : (step : ℤ) ∣ (prw - bsize)) (hdh : (step : ℤ) ∣ (prh - bsize))
    (hx : (x : ℤ) < prw) (hy : (y : ℤ) < prh) :
    1 ≤ iweights prw prh bsize step x y := by
  obtain ⟨kw, hkw⟩ := hdw
  obtain ⟨kh, hkh⟩ := hdh
  have hkw0 : 0 ≤ kw := by nlinarith [hkw]
  have hkh0 : 0 ≤ kh := by nlinarith [hkh]
  have hdwN : step ∣ (prw.toNat - bsize) := by
    refine ⟨kw.toNat, ?_⟩
    have hcast : ((step * kw.toNat : ℕ) : ℤ) = (step : ℤ) * kw := by
      push_cast [Int.toNat_of_nonneg hkw0]; ring
    omega
  have hdhN : step ∣ (prh.toNat - bsize) := by
    refine ⟨kh.toNat, ?_⟩
    have hcast : ((step * kh.toNat : ℕ) : ℤ) = (step : ℤ) * kh := by
      push_cast [Int.toNat_of_nonneg hkh0]; ring
    omega
  obtain ⟨x0, hx0m, hx0b, hx0l, hx0u⟩ :=
    cover_exists prw.toNat bsize step x h1 h2 (by omega) hdwN (by omega)
  obtain ⟨y0, hy0m, hy0b, hy0l, hy0u⟩ :=
    cover_exists prh.toNat bsize step y h1 h2 (by omega) hdhN (by omega)
  have hy0mem : y0 ∈ sweepF (prh - (bsize : ℤ) + 1) step :=
    Finset.mem_filter.mpr ⟨Finset.mem_range.mpr (by omega), hy0m⟩
  have hx0mem : x0 ∈ sweepF (prw - (bsize : ℤ) + 1) step :=
    Finset.mem_filter.mpr ⟨Finset.mem_range.mpr (by omega), hx0m⟩
  have hsum4 : 1 ≤ ∑ dx ∈ Finset.range bsize,
      (if x0 + dx = x ∧ y0 + (y - y0) = y then 1 else 0) := by
    have hterm : (if x0 + (x - x0) = x ∧ y0 + (y - y0) = y then 1 else 0) = 1 :=
      if_pos ⟨by omega, by omega⟩
    have := Finset.single_le_sum
      (f := fun dx => if x0 + dx = x ∧ y0 + (y - y0) = y then (1 : ℕ) else 0)
      (fun i _ => Nat.zero_le _) (Finset.mem_range.mpr (show x - x0 < bsize by omega))
    simp only at this
    omega
  have hsum3 : 1 ≤ ∑ dy ∈ Finset.range bsize, ∑ dx ∈ Finset.range bsize,
      (if x0 + dx = x ∧ y0 + dy = y then 1 else 0) := by
    have := Finset.single_le_sum
      (f := fun dy => ∑ dx ∈ Finset.range bsize, if x0 + dx = x ∧ y0 + dy = y then (1 : ℕ) else 0)
      (fun i _ => Nat.zero_le _) (Finset.mem_range.mpr (show y - y0 < bsize by omega))
    simp only at this
    omega
  have hsum2 : 1 ≤ ∑ x0' ∈ sweepF (prw - (bsize : ℤ) + 1) step,
      ∑ dy ∈ Finset.range bsize, ∑ dx ∈ Finset.range bsize,
        (if x0' + dx = x ∧ y0 + dy = y then 1 else 0) := by
    have := Finset.single_le_sum
      (f := fun x0' => ∑ dy ∈ Finset.range bsize, ∑ dx ∈ Finset.range bsize,
        if x0' + dx = x ∧ y0 + dy = y then (1 : ℕ) else 0)
      (fun i _ => Nat.zero_le _) hx0mem
    simp only at this
    omega
  have hsum1 : 1 ≤ iweights prw prh bsize step x y := by
    unfold iweights
    have := Finset.single_le_sum
      (f := fun y0' => ∑ x0' ∈ sweepF (prw - (bsize : ℤ) + 1) step,
        ∑ dy ∈ Finset.range bsize, ∑ dx ∈ Finset.range bsize,
          if x0' + dx = x ∧ y0' + dy = y then (1 : ℕ) else 0)
      (fun i _ => Nat.zero_le _) hy0mem
    simp only at this
    omega
  exact hsum1

/-- Claim C1 (amended with the precondition of C10): for geometries
produced by `config_input` from input dimensions at least `bsize` (and
`1 ≤ step ≤ bsize`, as guaranteed by `init`), the coverage counter is at
least 1 at every pixel of the processable region, so the reciprocal
`1. / iweights[..]` divides by a strictly positive integer. -/
theorem claim1_weights_positive (w h : ℤ) (bsize step : ℕ) (x y : ℕ)
    (h1 : 1 ≤ step) (h2 : step ≤ bsize)
    (hw : (bsize : ℤ) ≤ w) (hh : (bsize : ℤ) ≤ h)
    (hx : (x : ℤ) < (configInput w h bsize step).prWidth)
    (hy : (y : ℤ) < (configInput w h bsize step).prHeight) :
    1 ≤ iweights (configInput w h bsize step).prWidth
        (configInput w h bsize step).prHeight bsize step x y := by
  obtain ⟨hbw, hlw, hdw⟩ := processableDim_props w bsize step h1 hw
  obtain ⟨hbh, hlh, hdh⟩ := processableDim_props h bsize step h1 hh
  exact iweights_pos _ _ bsize step x y h1 h2 hbw hbh hdw hdh hx hy

/-- Witness for C1: a 20x20 input, `bsize = 8`, `step = 4`, pixel (3,5). -/
theorem claim1_weights_positive_witness :
    1 ≤ iweights (configInput 20 20 8 4).prWidth (configInput 20 20 8 4).prHeight 8 4 3 5 :=
  claim1_weights_positive 20 20 8 4 3 5 (by norm_num) (by norm_num) (by norm_num)
    (by norm_num) (by decide) (by decide)

/-- Counterexample to C1 as stated over every geometry `config_input`
produces: a 4x4 input with `bsize = 8`, `step = 2` (overlap 6) yields a
4x4 processable region, yet no whole block fits, so the coverage counter
at the in-range pixel (0,0) is 0 and `1. / iweights` divides by zero. -/
theorem claim1_counterexample :
    (0 : ℤ) < (configInput 4 4 8 2).prWidth ∧
    (0 : ℤ) < (configInput 4 4 8 2).prHeight ∧
    iweights (configInput 4 4 8 2).prWidth (configInput 4 4 8 2).prHeight 8 2 0 0 = 0 :=
  ⟨by decide, by decide, by decide⟩

/-- Claim C2 (amended with the precondition of C10): for geometries from
inputs at least `bsize` in both dimensions, the number of sweep positions
of `filter_plane` covering a pixel equals `config_input`'s counter, and
that count times the stored weight `1 / count` is exactly 1. -/
theorem claim2_weight_normalization (w h : ℤ) (bsize step : ℕ) (x y : ℕ)
    (h1 : 1 ≤ step) (h2 : step ≤ bsize)
    (hw : (bsize : ℤ) ≤ w) (hh : (bsize : ℤ) ≤ h)
    (hx : (x : ℤ) < (configInput w h bsize step).prWidth)
    (hy : (y : ℤ) < (configInput w h bsize step).prHeight) :
    filterPlaneCount (configInput w h bsize step).prWidth
        (configInput w h bsize step).prHeight bsize step x y
      = iweights (configInput w h bsize step).prWidth
          (configInput w h bsize step).prHeight bsize step x y ∧
    (filterPlaneCount (configInput w h bsize step).prWidth
        (configInput w h bsize step).prHeight bsize step x y : ℚ)
      * weights (configInput w h bsize step).prWidth
          (configInput w h bsize step).prHeight bsize step x y = 1 := by
  obtain ⟨hbw, hlw, hdw⟩ := processableDim_props w bsize step h1 hw
  obtain ⟨hbh, hlh, hdh⟩ := processableDim_props h bsize step h1 hh
  have hpos : 1 ≤ iweights (configInput w h bsize step).prWidth
      (configInput w h bsize step).prHeight bsize step x y :=
    iweights_pos _ _ bsize step x y h1 h2 hbw hbh hdw hdh hx hy
  refine ⟨filterPlaneCount_eq_iweights _ _ _ _ _ _, ?_⟩
  rw [filterPlaneCount_eq_iweights, weights]
  have hne : (iweights (configInput w h bsize step).prWidth
      (configInput w h bsize step).prHeight bsize step x y : ℚ) ≠ 0 :=
    Nat.cast_ne_zero.mpr (by omega)
  rw [mul_one_div, div_self hne]

/-- Witness for C2: a 24x16 input, `bsize = 8`, `step = 4`, pixel (6,2). -/
theorem claim2_weight_normalization_witness :
    filterPlaneCount (configInput 24 16 8 4).prWidth
        (configInput 24 16 8 4).prHeight 8 4 6 2
      = iweights (configInput 24 16 8 4).prWidth
          (configInput 24 16 8 4).prHeight 8 4 6 2 ∧
    (filterPlaneCount (configInput 24 16 8 4).prWidth
        (configInput 24 16 8 4).prHeight 8 4 6 2 : ℚ)
      * weights (configInput 24 16 8 4).prWidth
          (configInput 24 16 8 4).prHeight 8 4 6 2 = 1 :=
  claim2_weight_normalization 24 16 8 4 6 2 (by norm_num) (by norm_num) (by norm_num)
    (by norm_num) (by decide) (by decide)

/-- Counterexample to C2 as stated over every geometry: a 4x4 input with
`bsize = 16`, `step = 4` (overlap 12) has a 4x4 processable region with no
covering block, so count 0 times the stored weight is not 1. -/
theorem claim2_counterexample :
    (0 : ℤ) < (configInput 4 4 16 4).prWidth ∧
    (0 : ℤ) < (configInput 4 4 16 4).prHeight ∧
    ¬((filterPlaneCount (configInput 4 4 16 4).prWidth
        (configInput 4 4 16 4).prHeight 16 4 0 0 : ℚ)
      * weights (configInput 4 4 16 4).prWidth
          (configInput 4 4 16 4).prHeight 16 4 0 0 = 1) := by
  have hc : filterPlaneCount (configInput 4 4 16 4).prWidth
      (configInput 4 4 16 4).prHeight 16 4 0 0 = 0 := by decide
  refine ⟨by decide, by decide, ?_⟩
  rw [hc]
  norm_num

/-- Claim C9 helper: inversion of a successful `init` without an
expression. -/
lemma init_ok_sigma (n : ℕ) (ov : ℤ) (σ : ℚ) (ctx : DnoizCtx)
    (h : init n ov σ none = .ok ctx) :
    ctx.th = σ * 3 ∧ ctx.expr = none ∧ ctx.bsize = 2 ^ n ∧
    ctx.step = ((2 ^ n : ℕ) : ℤ) - (if ov = -1 then ((2 ^ n : ℕ) : ℤ) - 1 else ov) := by
  simp only [init] at h
  by_cases hc : ((2 ^ n : ℕ) : ℤ) - 1 < (if ov = -1 then ((2 ^ n : ℕ) : ℤ) - 1 else ov)
  · rw [if_pos hc] at h
    cases h
  · rw [if_neg hc] at h
    cases h
    exact ⟨rfl, rfl, rfl, rfl⟩

/-- Claim C8 helper: inversion of a successful `init` with a parsed
expression. -/
lemma init_ok_expr (n : ℕ) (ov : ℤ) (σ : ℚ) (f : ℚ → ℚ) (ctx : DnoizCtx)
    (h : init n ov σ (some (some f)) = .ok ctx) :
    ctx.th = σ * 3 ∧ ctx.expr = some f ∧ ctx.bsize = 2 ^ n ∧
    ctx.step = ((2 ^ n : ℕ) : ℤ) - (if ov = -1 then ((2 ^ n : ℕ) : ℤ) - 1 else ov) := by
  simp only [init] at h
  by_cases hc : ((2 ^ n : ℕ) : ℤ) - 1 < (if ov = -1 then ((2 ^ n : ℕ) : ℤ) - 1 else ov)
  · rw [if_pos hc] at h
    cases h
  · rw [if_neg hc] at h
    cases h
    exact ⟨rfl, rfl, rfl, rfl⟩

/-- Claim C9: after the sentinel `overlap = -1` is replaced by
`bsize - 1`, `init` rejects with `EINVAL` exactly when the (replaced)
overlap exceeds `bsize - 1`; rejection returns an error and no context;
on success the stored step `bsize - overlap` is at least 1.  (The
expression-parse failure path, external to this file's sources, is
modelled per the spec as a distinct setup error.) -/
theorem claim9_init_overlap_validation (n : ℕ) (ov : ℤ) (σ : ℚ)
    (e : Option (Option (ℚ → ℚ))) (hn : n = 3 ∨ n = 4) (hov : -1 ≤ ov) :
    (init n ov σ e = .error .invalidOverlap ↔
      ((2 ^ n : ℕ) : ℤ) - 1 < (if ov = -1 then ((2 ^ n : ℕ) : ℤ) - 1 else ov)) ∧
    (∀ ctx, init n ov σ e = .ok ctx → 1 ≤ ctx.step) := by
  simp only [init]
  by_cases hc : ((2 ^ n : ℕ) : ℤ) - 1 < (if ov = -1 then ((2 ^ n : ℕ) : ℤ) - 1 else ov)
  · rw [if_pos hc]
    exact ⟨⟨fun _ => hc, fun _ => rfl⟩, fun ctx hctx => by cases hctx⟩
  · rw [if_neg hc]
    constructor
    · constructor
      · intro hctr
        cases e with
        | none => cases hctr
        | some fo =>
            cases fo with
            | none => cases hctr
            | some f => cases hctr
      · intro hcond
        exact absurd hcond hc
    · intro ctx hctx
      have hstep : ctx.step =
          ((2 ^ n : ℕ) : ℤ) - (if ov = -1 then ((2 ^ n : ℕ) : ℤ) - 1 else ov) := by
        cases e with
        | none => cases hctx; rfl
        | some fo =>
            cases fo with
            | none => cases hctx
            | some f => cases hctx; rfl
      rw [hstep]
      by_cases hov1 : ov = -1
      · rw [if_pos hov1] at *
        have h2p : (1 : ℕ) ≤ 2 ^ n := Nat.one_le_two_pow
        omega
      · rw [if_neg hov1] at hc ⊢
        omega

/-- Witness for C9: `n = 3`, default overlap sentinel, `sigma = 0`, no
expression; the produced context has step 1. -/
theorem claim9_init_overlap_validation_witness :
    (init 3 (-1) 0 none = .error .invalidOverlap ↔
      ((2 ^ 3 : ℕ) : ℤ) - 1 < (if (-1 : ℤ) = -1 then ((2 ^ 3 : ℕ) : ℤ) - 1 else -1)) ∧
    1 ≤ (⟨2 ^ 3, ((2 ^ 3 : ℕ) : ℤ) - 1, ((2 ^ 3 : ℕ) : ℤ) - (((2 ^ 3 : ℕ) : ℤ) - 1),
        (0 : ℚ) * 3, none⟩ : DnoizCtx).step :=
  ⟨(claim9_init_overlap_validation 3 (-1) 0 none (Or.inl rfl) (by norm_num)).1,
   (claim9_init_overlap_validation 3 (-1) 0 none (Or.inl rfl) (by norm_num)).2
     ⟨2 ^ 3, ((2 ^ 3 : ℕ) : ℤ) - 1, ((2 ^ 3 : ℕ) : ℤ) - (((2 ^ 3 : ℕ) : ℤ) - 1),
      (0 : ℚ) * 3, none⟩ rfl⟩

/-- Claim C4 helper: the truncated threshold of `3/2` is 1. -/
lemma cTruncToInt_three_halves : cTruncToInt ((1 : ℚ) / 2 * 3) = 1 := by
  rw [cTruncToInt, if_pos (by norm_num)]
  rw [show ((1 : ℚ) / 2 * 3) = 3 / 2 by norm_num]
  rw [Int.floor_eq_iff]
  norm_num

/-- Claim C4 (amended): in sigma-threshold mode the threshold actually
compared against `|c|` is the `float` field `th = sigma * 3` truncated
toward zero by its passage through the `int sigma_th` parameter of
`filter_freq_##bsize`; coefficients with `|c|` below that truncated
threshold are zeroed, the rest pass unchanged. -/
theorem claim4_truncated_threshold (n : ℕ) (ov : ℤ) (σ : ℚ) (ctx : DnoizCtx) (c : ℚ)
    (hσ : 0 ≤ σ) (h : init n ov σ none = .ok ctx) :
    (|c| < ((cTruncToInt (σ * 3) : ℤ) : ℚ) → filterFreqCoeff ctx c = 0) ∧
    (((cTruncToInt (σ * 3) : ℤ) : ℚ) ≤ |c| → filterFreqCoeff ctx c = c) := by
  obtain ⟨hth, hexpr, _, _⟩ := init_ok_sigma n ov σ ctx h
  constructor
  · intro hlt
    simp only [filterFreqCoeff, hexpr, hth]
    rw [if_pos hlt]
  · intro hge
    simp only [filterFreqCoeff, hexpr, hth]
    rw [if_neg (not_lt.mpr hge)]

/-- Witness for C4's amended statement: `sigma = 1`, threshold 3, the
coefficient 2 is zeroed and the coefficient 4 passes. -/
theorem claim4_truncated_threshold_witness :
    filterFreqCoeff ⟨2 ^ 3, 7, ((2 ^ 3 : ℕ) : ℤ) - 7, (1 : ℚ) * 3, none⟩ 2 = 0 ∧
    filterFreqCoeff ⟨2 ^ 3, 7, ((2 ^ 3 : ℕ) : ℤ) - 7, (1 : ℚ) * 3, none⟩ 4 = 4 := by
  have htr : cTruncToInt ((1 : ℚ) * 3) = 3 := by
    rw [cTruncToInt, if_pos (by norm_num)]
    rw [Int.floor_eq_iff]
    norm_num
  refine ⟨(claim4_truncated_threshold 3 7 1 _ 2 (by norm_num) rfl).1 ?_,
          (claim4_truncated_threshold 3 7 1 _ 4 (by norm_num) rfl).2 ?_⟩
  · rw [htr]; norm_num
  · rw [htr]; norm_num

/-- Counterexample to C4 as stated: with `sigma = 1/2` the claimed
threshold is `3 * sigma = 3/2`, and the coefficient `5/4` has magnitude
below it, so the claim predicts it is zeroed; the code truncates the
threshold to the integer 1 and leaves `5/4` unchanged. -/
theorem claim4_counterexample :
    (init 3 7 (1 / 2) none).map (fun ctx => filterFreqCoeff ctx (5 / 4)) = .ok (5 / 4) ∧
    |(5 / 4 : ℚ)| < 3 * (1 / 2) ∧ (5 / 4 : ℚ) ≠ 0 := by
  refine ⟨?_, by rw [abs_of_pos (by norm_num)]; norm_num, by norm_num⟩
  have hinit : init 3 7 (1 / 2) none =
      .ok ⟨2 ^ 3, 7, ((2 ^ 3 : ℕ) : ℤ) - 7, (1 / 2 : ℚ) * 3, none⟩ := rfl
  rw [hinit]
  simp only [Except.map]
  congr 1
  simp only [filterFreqCoeff]
  rw [cTruncToInt_three_halves]
  rw [if_neg (by rw [abs_of_pos (by norm_num)]; norm_num)]

/-- Claim C7: every output pixel outside the processable region (but
inside the image) equals the corresponding input pixel, in both the
direct (in-place) and non-direct (fresh frame plus margin copies) paths
of `filter_frame`. -/
theorem claim7_outside_region_copied (ctx : DnoizCtx) (r g b : Fin 3)
    (w h prw prh : ℤ) (direct : Bool) (fresh input : Frame)
    (x y : ℕ) (ch : Fin 3)
    (hx : (x : ℤ) < w) (hy : (y : ℤ) < h)
    (hout : prw ≤ (x : ℤ) ∨ prh ≤ (y : ℤ)) :
    filterFrame ctx r g b w h prw prh direct fresh input y x ch = input y x ch := by
  have hnc : ¬((x : ℤ) < prw ∧ (y : ℤ) < prh) := by omega
  unfold filterFrame filterFrameCore
  cases direct
  · simp only [Bool.false_eq_true, if_false]
    split_ifs with hc1 hc2 hc3 <;> first | rfl | (exfalso; omega)
  · simp only [if_true]
    rw [if_neg hnc]

/-- Witness for C7: a concrete 3x3 frame with a 2x2 processable region,
direct path, pixel (2,1) right of the region. -/
theorem claim7_outside_region_copied_witness :
    filterFrame ⟨2 ^ 3, 7, 1, 0, none⟩ 0 1 2 3 3 2 2 true
        (fun _ _ _ => 0) (fun y x _ => y + x) 1 2 0
      = (fun (y x : ℕ) (_ : Fin 3) => y + x) 1 2 0 :=
  claim7_outside_region_copied ⟨2 ^ 3, 7, 1, 0, none⟩ 0 1 2 3 3 2 2 true
    (fun _ _ _ => 0) (fun y x _ => y + x) 2 1 0 (by norm_num) (by norm_num)
    (Or.inl (by norm_num))

/-- Claim C8: with an attenuation expression installed, the whole frame
transform is independent of sigma: two contexts produced by `init` from
the same options except their sigma values yield identical outputs on
every frame (the expression path never reads the threshold). -/
theorem claim8_expr_overrides_sigma (n : ℕ) (ov : ℤ) (sg1 sg2 : ℚ) (f : ℚ → ℚ)
    (ctx1 ctx2 : DnoizCtx)
    (h1 : init n ov sg1 (some (some f)) = .ok ctx1)
    (h2 : init n ov sg2 (some (some f)) = .ok ctx2)
    (r g b : Fin 3) (w h prw prh : ℤ) (direct : Bool) (fresh input : Frame) :
    filterFrame ctx1 r g b w h prw prh direct fresh input
      = filterFrame ctx2 r g b w h prw prh direct fresh input := by
  obtain ⟨ht1, he1, hb1, hs1⟩ := init_ok_expr n ov sg1 f ctx1 h1
  obtain ⟨ht2, he2, hb2, hs2⟩ := init_ok_expr n ov sg2 f ctx2 h2
  have hcoeff : filterFreqCoeff ctx1 = filterFreqCoeff ctx2 := by
    funext c
    simp only [filterFreqCoeff, he1, he2]
  unfold filterFrame
  rw [hcoeff, hb1, hb2, hs1, hs2]

/-- Witness for C8: sigma 0 versus sigma 1 under the identity
attenuation expression. -/
theorem claim8_expr_overrides_sigma_witness :
    filterFrame ⟨2 ^ 3, 7, ((2 ^ 3 : ℕ) : ℤ) - 7, (0 : ℚ) * 3, some (fun c => c)⟩
        0 1 2 3 3 2 2 true (fun _ _ _ => 0) (fun _ _ _ => 1)
      = filterFrame ⟨2 ^ 3, 7, ((2 ^ 3 : ℕ) : ℤ) - 7, (1 : ℚ) * 3, some (fun c => c)⟩
        0 1 2 3 3 2 2 true (fun _ _ _ => 0) (fun _ _ _ => 1) :=
  claim8_expr_overrides_sigma 3 7 0 1 (fun c => c) _ _ rfl rfl 0 1 2 3 3 2 2 true
    (fun _ _ _ => 0) (fun _ _ _ => 1)

/-- Truncation toward zero of a nonnegative value is the floor. -/
lemma cTruncToInt_nonneg_eq (q : ℚ) (z : ℤ) (h0 : 0 ≤ q)
    (h1 : (z : ℚ) ≤ q) (h2 : q < z + 1) : cTruncToInt q = z := by
  rw [cTruncToInt, if_pos h0, Int.floor_eq_iff]
  exact ⟨h1, h2⟩

/-- A channel whose pre-truncation value lies within one unit of the
original 8-bit value comes back within one step after the float-to-int
truncation and the 8-bit clamp. -/
lemma channel_roundtrip_bound (p : ℕ) (V : ℚ) (hp : p ≤ 255)
    (hlo : (p : ℚ) - 1 < V) (hhi : V < (p : ℚ) + 1) :
    (avClipUint8 (cTruncToInt V) : ℤ) ≤ p ∧
    (p : ℤ) - 1 ≤ (avClipUint8 (cTruncToInt V) : ℤ) := by
  by_cases h0 : 0 ≤ V
  · have hn : cTruncToInt V = ⌊V⌋ := if_pos h0
    have hfl : (p : ℤ) - 1 ≤ ⌊V⌋ := by
      refine Int.le_floor.mpr ?_
      push_cast
      linarith
    have hfu : ⌊V⌋ < (p : ℤ) + 1 := by
      refine Int.floor_lt.mpr ?_
      push_cast
      linarith
    rw [hn]
    unfold avClipUint8
    split_ifs <;> omega
  · have hneg : V < 0 := not_le.mp h0
    have hp0 : p = 0 := by
      by_contra hne
      have h1p : (1 : ℚ) ≤ (p : ℚ) := by exact_mod_cast Nat.one_le_iff_ne_zero.mpr hne
      linarith
    subst hp0
    have hn : cTruncToInt V = ⌈V⌉ := if_neg h0
    have hcu : ⌈V⌉ ≤ 0 := by
      refine Int.ceil_le.mpr ?_
      push_cast
      linarith
    have hcl : (-1 : ℤ) < ⌈V⌉ := by
      refine Int.lt_ceil.mpr ?_
      push_cast
      push_cast at hlo
      linarith
    have hc0 : ⌈V⌉ = 0 := by omega
    rw [hn, hc0]
    unfold avClipUint8
    split_ifs <;> omega

/-- Claim C5 (amended): the color round trip reproduces each channel to
within one 8-bit step after the clamp (the decorrelation constants and
their transpose are not an exact inverse pair in the stored precision,
and the float result is truncated toward zero, so a channel can come
back one below its original value).  The per-pixel arithmetic is the
same for the RGB and BGR orders, which only permute byte positions. -/
theorem claim5_color_roundtrip_within_one (r g b : ℕ)
    (hr : r ≤ 255) (hg : g ≤ 255) (hb : b ≤ 255) :
    ((correlatePixel (decorrelatePixel r g b)).1 : ℤ) ≤ r ∧
    (r : ℤ) - 1 ≤ ((correlatePixel (decorrelatePixel r g b)).1 : ℤ) ∧
    ((correlatePixel (decorrelatePixel r g b)).2.1 : ℤ) ≤ g ∧
    (g : ℤ) - 1 ≤ ((correlatePixel (decorrelatePixel r g b)).2.1 : ℤ) ∧
    ((correlatePixel (decorrelatePixel r g b)).2.2 : ℤ) ≤ b ∧
    (b : ℤ) - 1 ≤ ((correlatePixel (decorrelatePixel r g b)).2.2 : ℤ) := by
  have hr0 : (0 : ℚ) ≤ (r : ℚ) := Nat.cast_nonneg r
  have hg0 : (0 : ℚ) ≤ (g : ℚ) := Nat.cast_nonneg g
  have hb0 : (0 : ℚ) ≤ (b : ℚ) := Nat.cast_nonneg b
  have hr255 : (r : ℚ) ≤ 255 := by exact_mod_cast hr
  have hg255 : (g : ℚ) ≤ 255 := by exact_mod_cast hg
  have hb255 : (b : ℚ) ≤ 255 := by exact_mod_cast hb
  have h1 := channel_roundtrip_bound r
    ((decorrelatePixel r g b).1 * DCT3X3_0_0 + (decorrelatePixel r g b).2.1 * DCT3X3_1_0 +
      (decorrelatePixel r g b).2.2 * DCT3X3_2_0) hr
    (by simp only [decorrelatePixel, DCT3X3_0_0, DCT3X3_0_1, DCT3X3_0_2, DCT3X3_1_0,
          DCT3X3_1_2, DCT3X3_2_0, DCT3X3_2_1, DCT3X3_2_2]
        ring_nf
        linarith)
    (by simp only [decorrelatePixel, DCT3X3_0_0, DCT3X3_0_1, DCT3X3_0_2, DCT3X3_1_0,
          DCT3X3_1_2, DCT3X3_2_0, DCT3X3_2_1, DCT3X3_2_2]
        ring_nf
        linarith)
  have h2 := channel_roundtrip_bound g
    ((decorrelatePixel r g b).1 * DCT3X3_0_1 + (decorrelatePixel r g b).2.2 * DCT3X3_2_1) hg
    (by simp only [decorrelatePixel, DCT3X3_0_0, DCT3X3_0_1, DCT3X3_0_2, DCT3X3_1_0,
          DCT3X3_1_2, DCT3X3_2_0, DCT3X3_2_1, DCT3X3_2_2]
        ring_nf
        linarith)
    (by simp only [decorrelatePixel, DCT3X3_0_0, DCT3X3_0_1, DCT3X3_0_2, DCT3X3_1_0,
          DCT3X3_1_2, DCT3X3_2_0, DCT3X3_2_1, DCT3X3_2_2]
        ring_nf
        linarith)
  have h3 := channel_roundtrip_bound b
    ((decorrelatePixel r g b).1 * DCT3X3_0_2 + (decorrelatePixel r g b).2.1 * DCT3X3_1_2 +
      (decorrelatePixel r g b).2.2 * DCT3X3_2_2) hb
    (by simp only [decorrelatePixel, DCT3X3_0_0, DCT3X3_0_1, DCT3X3_0_2, DCT3X3_1_0,
          DCT3X3_1_2, DCT3X3_2_0, DCT3X3_2_1, DCT3X3_2_2]
        ring_nf
        linarith)
    (by simp only [decorrelatePixel, DCT3X3_0_0, DCT3X3_0_1, DCT3X3_0_2, DCT3X3_1_0,
          DCT3X3_1_2, DCT3X3_2_0, DCT3X3_2_1, DCT3X3_2_2]
        ring_nf
        linarith)
  exact ⟨h1.1, h1.2, h2.1, h2.2, h3.1, h3.2⟩

/-- Witness for the amended C5 at the pixel (10, 20, 30). -/
theorem claim5_color_roundtrip_within_one_witness :
    ((correlatePixel (decorrelatePixel 10 20 30)).1 : ℤ) ≤ 10 ∧
    (10 : ℤ) - 1 ≤ ((correlatePixel (decorrelatePixel 10 20 30)).1 : ℤ) ∧
    ((correlatePixel (decorrelatePixel 10 20 30)).2.1 : ℤ) ≤ 20 ∧
    (20 : ℤ) - 1 ≤ ((correlatePixel (decorrelatePixel 10 20 30)).2.1 : ℤ) ∧
    ((correlatePixel (decorrelatePixel 10 20 30)).2.2 : ℤ) ≤ 30 ∧
    (30 : ℤ) - 1 ≤ ((correlatePixel (decorrelatePixel 10 20 30)).2.2 : ℤ) := by
  have h := claim5_color_roundtrip_within_one 10 20 30 (by norm_num) (by norm_num) (by norm_num)
  exact_mod_cast h

/-- Counterexample to C5 as stated (exact round trip): the pixel
(0, 2, 1) comes back as (0, 2, 0) - the blue channel's pre-truncation
value is fractionally below 1 and the int conversion truncates it away. -/
theorem claim5_counterexample :
    correlatePixel (decorrelatePixel 0 2 1) = (0, 2, 0) ∧
    ((0, 2, 0) : ℕ × ℕ × ℕ) ≠ (0, 2, 1) := by
  constructor
  · simp only [decorrelatePixel, correlatePixel]
    rw [cTruncToInt_nonneg_eq _ 0
        (by norm_num [DCT3X3_0_0, DCT3X3_0_1, DCT3X3_0_2, DCT3X3_1_0, DCT3X3_1_2,
          DCT3X3_2_0, DCT3X3_2_1, DCT3X3_2_2])
        (by norm_num [DCT3X3_0_0, DCT3X3_0_1, DCT3X3_0_2, DCT3X3_1_0, DCT3X3_1_2,
          DCT3X3_2_0, DCT3X3_2_1, DCT3X3_2_2])
        (by norm_num [DCT3X3_0_0, DCT3X3_0_1, DCT3X3_0_2, DCT3X3_1_0, DCT3X3_1_2,
          DCT3X3_2_0, DCT3X3_2_1, DCT3X3_2_2])]
    rw [cTruncToInt_nonneg_eq _ 2
        (by norm_num [DCT3X3_0_0, DCT3X3_0_1, DCT3X3_0_2, DCT3X3_1_0, DCT3X3_1_2,
          DCT3X3_2_0, DCT3X3_2_1, DCT3X3_2_2])
        (by norm_num [DCT3X3_0_0, DCT3X3_0_1, DCT3X3_0_2, DCT3X3_1_0, DCT3X3_1_2,
          DCT3X3_2_0, DCT3X3_2_1, DCT3X3_2_2])
        (by norm_num [DCT3X3_0_0, DCT3X3_0_1, DCT3X3_0_2, DCT3X3_1_0, DCT3X3_1_2,
          DCT3X3_2_0, DCT3X3_2_1, DCT3X3_2_2])]
    rw [cTruncToInt_nonneg_eq _ 0
        (by norm_num [DCT3X3_0_0, DCT3X3_0_1, DCT3X3_0_2, DCT3X3_1_0, DCT3X3_1_2,
          DCT3X3_2_0, DCT3X3_2_1, DCT3X3_2_2])
        (by norm_num [DCT3X3_0_0, DCT3X3_0_1, DCT3X3_0_2, DCT3X3_1_0, DCT3X3_1_2,
          DCT3X3_2_0, DCT3X3_2_1, DCT3X3_2_2])
        (by norm_num [DCT3X3_0_0, DCT3X3_0_1, DCT3X3_0_2, DCT3X3_1_0, DCT3X3_1_2,
          DCT3X3_2_0, DCT3X3_2_1, DCT3X3_2_2])]
    norm_num [avClipUint8]
    rfl
  · simp

/-- Pointwise values of the DCT coefficient tables (all proved by
definitional unfolding). -/

lemma mF8_0_0 : fdctM8 0 0 = ((176776695296637 : ℚ) / 500000000000000) := rfl

lemma mF8_0_1 : fdctM8 0 1 = ((176776695296637 : ℚ) / 500000000000000) := rfl

lemma mF8_0_2 : fdctM8 0 2 = ((176776695296637 : ℚ) / 500000000000000) := rfl

lemma mF8_0_3 : fdctM8 0 3 = ((176776695296637 : ℚ) / 500000000000000) := rfl

lemma mF8_0_4 : fdctM8 0 4 = ((176776695296637 : ℚ) / 500000000000000) := rfl

lemma mF8_0_5 : fdctM8 0 5 = ((176776695296637 : ℚ) / 500000000000000) := rfl

lemma mF8_0_6 : fdctM8 0 6 = ((176776695296637 : ℚ) / 500000000000000) := rfl

lemma mF8_0_7 : fdctM8 0 7 = ((176776695296637 : ℚ) / 500000000000000) := rfl

lemma mF8_1_0 : fdctM8 1 0 = ((4903926402016164517821532191 : ℚ) / 10000000000000000000000000000) := rfl

lemma mF8_1_1 : fdctM8 1 1 = ((1299171269222729224312948077 : ℚ) / 3125000000000000000000000000) := rfl

lemma mF8_1_2 : fdctM8 1 2 = ((69446279127450308779482387987 : ℚ) / 250000000000000000000000000000) := rfl

lemma mF8_1_3 : fdctM8 1 3 = ((48772580504032097585739362691 : ℚ) / 500000000000000000000000000000) := rfl

lemma mF8_1_4 : fdctM8 1 4 = ((-48772580504032097585739362691 : ℚ) / 500000000000000000000000000000) := rfl

lemma mF8_1_5 : fdctM8 1 5 = ((-69446279127450308779482387987 : ℚ) / 250000000000000000000000000000) := rfl

lemma mF8_1_6 : fdctM8 1 6 = ((-1299171269222729224312948077 : ℚ) / 3125000000000000000000000000) := rfl

lemma mF8_1_7 : fdctM8 1 7 = ((-4903926402016164517821532191 : ℚ) / 10000000000000000000000000000) := rfl

lemma mF8_2_0 : fdctM8 2 0 = ((461939766255643 : ℚ) / 1000000000000000) := rfl

lemma mF8_2_1 : fdctM8 2 1 = ((38268343236509 : ℚ) / 200000000000000) := rfl

lemma mF8_2_2 : fdctM8 2 2 = ((-38268343236509 : ℚ) / 200000000000000) := rfl

lemma mF8_2_3 : fdctM8 2 3 = ((-461939766255643 : ℚ) / 1000000000000000) := rfl

lemma mF8_2_4 : fdctM8 2 4 = ((-461939766255643 : ℚ) / 1000000000000000) := rfl

lemma mF8_2_5 : fdctM8 2 5 = ((-38268343236509 : ℚ) / 200000000000000) := rfl

lemma mF8_2_6 : fdctM8 2 6 = ((38268343236509 : ℚ) / 200000000000000) := rfl

lemma mF8_2_7 : fdctM8 2 7 = ((461939766255643 : ℚ) / 1000000000000000) := rfl

lemma mF8_3_0 : fdctM8 3 0 = ((207867403075636610653821218084348455394641827 : ℚ) / 500000000000000000000000000000000000000000000) := rfl

lemma mF8_3_1 : fdctM8 3 1 = ((-24386290252016123316955546628874672074798631 : ℚ) / 250000000000000000000000000000000000000000000) := rfl

lemma mF8_3_2 : fdctM8 3 2 = ((-122598160050403866538764152564008153832420409 : ℚ) / 250000000000000000000000000000000000000000000) := rfl

lemma mF8_3_3 : fdctM8 3 3 = ((-138892558254900865414189802152845598268805873 : ℚ) / 500000000000000000000000000000000000000000000) := rfl

lemma mF8_3_4 : fdctM8 3 4 = ((138892558254900865414189802152845598268805873 : ℚ) / 500000000000000000000000000000000000000000000) := rfl

lemma mF8_3_5 : fdctM8 3 5 = ((122598160050403866538764152564008153832420409 : ℚ) / 250000000000000000000000000000000000000000000) := rfl

lemma mF8_3_6 : fdctM8 3 6 = ((24386290252016123316955546628874672074798631 : ℚ) / 250000000000000000000000000000000000000000000) := rfl

lemma mF8_3_7 : fdctM8 3 7 = ((-207867403075636610653821218084348455394641827 : ℚ) / 500000000000000000000000000000000000000000000) := rfl

lemma mF8_4_0 : fdctM8 4 0 = ((176776695296637 : ℚ) / 500000000000000) := rfl

lemma mF8_4_1 : fdctM8 4 1 = ((-176776695296637 : ℚ) / 500000000000000) := rfl

lemma mF8_4_2 : fdctM8 4 2 = ((-176776695296637 : ℚ) / 500000000000000) := rfl

lemma mF8_4_3 : fdctM8 4 3 = ((176776695296637 : ℚ) / 500000000000000) := rfl

lemma mF8_4_4 : fdctM8 4 4 = ((176776695296637 : ℚ) / 500000000000000) := rfl

lemma mF8_4_5 : fdctM8 4 5 = ((-176776695296637 : ℚ) / 500000000000000) := rfl

lemma mF8_4_6 : fdctM8 4 6 = ((-176776695296637 : ℚ) / 500000000000000) := rfl

lemma mF8_4_7 : fdctM8 4 7 = ((176776695296637 : ℚ) / 500000000000000) := rfl

lemma mF8_5_0 : fdctM8 5 0 = ((138892558254900865414189802152845598268805873 : ℚ) / 500000000000000000000000000000000000000000000) := rfl

lemma mF8_5_1 : fdctM8 5 1 = ((-122598160050403866538764152564008153832420409 : ℚ) / 250000000000000000000000000000000000000000000) := rfl

lemma mF8_5_2 : fdctM8 5 2 = ((24386290252016123316955546628874672074798631 : ℚ) / 250000000000000000000000000000000000000000000) := rfl

lemma mF8_5_3 : fdctM8 5 3 = ((207867403075636610653821218084348455394641827 : ℚ) / 500000000000000000000000000000000000000000000) := rfl

lemma mF8_5_4 : fdctM8 5 4 = ((-207867403075636610653821218084348455394641827 : ℚ) / 500000000000000000000000000000000000000000000) := rfl

lemma mF8_5_5 : fdctM8 5 5 = ((-24386290252016123316955546628874672074798631 : ℚ) / 250000000000000000000000000000000000000000000) := rfl

lemma mF8_5_6 : fdctM8 5 6 = ((122598160050403866538764152564008153832420409 : ℚ) / 250000000000000000000000000000000000000000000) := rfl

lemma mF8_5_7 : fdctM8 5 7 = ((-138892558254900865414189802152845598268805873 : ℚ) / 500000000000000000000000000000000000000000000) := rfl

lemma mF8_6_0 : fdctM8 6 0 = ((38268343236509 : ℚ) / 200000000000000) := rfl

lemma mF8_6_1 : fdctM8 6 1 = ((-461939766255643 : ℚ) / 1000000000000000) := rfl

lemma mF8_6_2 : fdctM8 6 2 = ((461939766255643 : ℚ) / 1000000000000000) := rfl

lemma mF8_6_3 : fdctM8 6 3 = ((-38268343236509 : ℚ) / 200000000000000) := rfl

lemma mF8_6_4 : fdctM8 6 4 = ((-38268343236509 : ℚ) / 200000000000000) := rfl

lemma mF8_6_5 : fdctM8 6 5 = ((461939766255643 : ℚ) / 1000000000000000) := rfl

lemma mF8_6_6 : fdctM8 6 6 = ((-461939766255643 : ℚ) / 1000000000000000) := rfl

lemma mF8_6_7 : fdctM8 6 7 = ((38268343236509 : ℚ) / 200000000000000) := rfl

lemma mF8_7_0 : fdctM8 7 0 = ((48772580504032097585739362691 : ℚ) / 500000000000000000000000000000) := rfl

lemma mF8_7_1 : fdctM8 7 1 = ((-69446279127450308779482387987 : ℚ) / 250000000000000000000000000000) := rfl

lemma mF8_7_2 : fdctM8 7 2 = ((1299171269222729224312948077 : ℚ) / 3125000000000000000000000000) := rfl

lemma mF8_7_3 : fdctM8 7 3 = ((-4903926402016164517821532191 : ℚ) / 10000000000000000000000000000) := rfl

lemma mF8_7_4 : fdctM8 7 4 = ((4903926402016164517821532191 : ℚ) / 10000000000000000000000000000) := rfl

lemma mF8_7_5 : fdctM8 7 5 = ((-1299171269222729224312948077 : ℚ) / 3125000000000000000000000000) := rfl

lemma mF8_7_6 : fdctM8 7 6 = ((69446279127450308779482387987 : ℚ) / 250000000000000000000000000000) := rfl

lemma mF8_7_7 : fdctM8 7 7 = ((-48772580504032097585739362691 : ℚ) / 500000000000000000000000000000) := rfl

lemma mI8_0_0 : idctM8 0 0 = ((14142135623731 : ℚ) / 40000000000000) := rfl

lemma mI8_0_1 : idctM8 0 1 = ((4903926402016164517821532191 : ℚ) / 10000000000000000000000000000) := rfl

lemma mI8_0_2 : idctM8 0 2 = ((923879532511292445830468689 : ℚ) / 2000000000000000000000000000) := rfl

lemma mI8_0_3 : idctM8 0 3 = ((1299171269222729224312948077 : ℚ) / 3125000000000000000000000000) := rfl

lemma mI8_0_4 : idctM8 0 4 = ((14142135623731 : ℚ) / 40000000000000) := rfl

lemma mI8_0_5 : idctM8 0 5 = ((69446279127450308779482387987 : ℚ) / 250000000000000000000000000000) := rfl

lemma mI8_0_6 : idctM8 0 6 = ((7653668647301822450882601007 : ℚ) / 40000000000000000000000000000) := rfl

lemma mI8_0_7 : idctM8 0 7 = ((48772580504032097585739362691 : ℚ) / 500000000000000000000000000000) := rfl

lemma mI8_1_0 : idctM8 1 0 = ((1767766952966374877995778189474445885219909 : ℚ) / 5000000000000000000000000000000000000000000) := rfl

lemma mI8_1_1 : idctM8 1 1 = ((207867403075636610653821218084348455394641827 : ℚ) / 500000000000000000000000000000000000000000000) := rfl

lemma mI8_1_2 : idctM8 1 2 = ((956708580912727740332116080646979946708657958236395036073 : ℚ) / 5000000000000000000000000000000000000000000000000000000000) := rfl

lemma mI8_1_3 : idctM8 1 3 = ((-24386290252016123316955546628874672074798631 : ℚ) / 250000000000000000000000000000000000000000000) := rfl

lemma mI8_1_4 : idctM8 1 4 = ((-1767766952966374877995778189474445885219909 : ℚ) / 5000000000000000000000000000000000000000000) := rfl

lemma mI8_1_5 : idctM8 1 5 = ((-122598160050403866538764152564008153832420409 : ℚ) / 250000000000000000000000000000000000000000000) := rfl

lemma mI8_1_6 : idctM8 1 6 = ((-115484941563911547758498697315211285387107148986964992471 : ℚ) / 250000000000000000000000000000000000000000000000000000000) := rfl

lemma mI8_1_7 : idctM8 1 7 = ((-138892558254900865414189802152845598268805873 : ℚ) / 500000000000000000000000000000000000000000000) := rfl

lemma mI8_2_0 : idctM8 2 0 = ((1767766952966374877995778189474445885219909 : ℚ) / 5000000000000000000000000000000000000000000) := rfl

lemma mI8_2_1 : idctM8 2 1 = ((138892558254900865414189802152845598268805873 : ℚ) / 500000000000000000000000000000000000000000000) := rfl

lemma mI8_2_2 : idctM8 2 2 = ((-956708580912727740332116080646979946708657958236395036073 : ℚ) / 5000000000000000000000000000000000000000000000000000000000) := rfl

lemma mI8_2_3 : idctM8 2 3 = ((-122598160050403866538764152564008153832420409 : ℚ) / 250000000000000000000000000000000000000000000) := rfl

lemma mI8_2_4 : idctM8 2 4 = ((-1767766952966374877995778189474445885219909 : ℚ) / 5000000000000000000000000000000000000000000) := rfl

lemma mI8_2_5 : idctM8 2 5 = ((24386290252016123316955546628874672074798631 : ℚ) / 250000000000000000000000000000000000000000000) := rfl

lemma mI8_2_6 : idctM8 2 6 = ((115484941563911547758498697315211285387107148986964992471 : ℚ) / 250000000000000000000000000000000000000000000000000000000) := rfl

lemma mI8_2_7 : idctM8 2 7 = ((207867403075636610653821218084348455394641827 : ℚ) / 500000000000000000000000000000000000000000000) := rfl

lemma mI8_3_0 : idctM8 3 0 = ((1767766952966374877995778189474445885219909 : ℚ) / 5000000000000000000000000000000000000000000) := rfl

lemma mI8_3_1 : idctM8 3 1 = ((195090322016128114443578167821 : ℚ) / 2000000000000000000000000000000) := rfl

lemma mI8_3_2 : idctM8 3 2 = ((-115484941563911547758498697315211285387107148986964992471 : ℚ) / 250000000000000000000000000000000000000000000000000000000) := rfl

lemma mI8_3_3 : idctM8 3 3 = ((-277785116509800842270450358397 : ℚ) / 1000000000000000000000000000000) := rfl

lemma mI8_3_4 : idctM8 3 4 = ((1767766952966374877995778189474445885219909 : ℚ) / 5000000000000000000000000000000000000000000) := rfl

lemma mI8_3_5 : idctM8 3 5 = ((5196685076890909548029277187 : ℚ) / 12500000000000000000000000000) := rfl

lemma mI8_3_6 : idctM8 3 6 = ((-956708580912727740332116080646979946708657958236395036073 : ℚ) / 5000000000000000000000000000000000000000000000000000000000) := rfl

lemma mI8_3_7 : idctM8 3 7 = ((-19615705608064630330489222321 : ℚ) / 40000000000000000000000000000) := rfl

lemma mI8_4_0 : idctM8 4 0 = ((1767766952966374877995778189474445885219909 : ℚ) / 5000000000000000000000000000000000000000000) := rfl

lemma mI8_4_1 : idctM8 4 1 = ((-195090322016128114443578167821 : ℚ) / 2000000000000000000000000000000) := rfl

lemma mI8_4_2 : idctM8 4 2 = ((-115484941563911547758498697315211285387107148986964992471 : ℚ) / 250000000000000000000000000000000000000000000000000000000) := rfl

lemma mI8_4_3 : idctM8 4 3 = ((277785116509800842270450358397 : ℚ) / 1000000000000000000000000000000) := rfl

lemma mI8_4_4 : idctM8 4 4 = ((1767766952966374877995778189474445885219909 : ℚ) / 5000000000000000000000000000000000000000000) := rfl

lemma mI8_4_5 : idctM8 4 5 = ((-5196685076890909548029277187 : ℚ) / 12500000000000000000000000000) := rfl

lemma mI8_4_6 : idctM8 4 6 = ((-956708580912727740332116080646979946708657958236395036073 : ℚ) / 5000000000000000000000000000000000000000000000000000000000) := rfl

lemma mI8_4_7 : idctM8 4 7 = ((19615705608064630330489222321 : ℚ) / 40000000000000000000000000000) := rfl

lemma mI8_5_0 : idctM8 5 0 = ((1767766952966374877995778189474445885219909 : ℚ) / 5000000000000000000000000000000000000000000) := rfl

lemma mI8_5_1 : idctM8 5 1 = ((-138892558254900865414189802152845598268805873 : ℚ) / 500000000000000000000000000000000000000000000) := rfl

lemma mI8_5_2 : idctM8 5 2 = ((-956708580912727740332116080646979946708657958236395036073 : ℚ) / 5000000000000000000000000000000000000000000000000000000000) := rfl

lemma mI8_5_3 : idctM8 5 3 = ((122598160050403866538764152564008153832420409 : ℚ) / 250000000000000000000000000000000000000000000) := rfl

lemma mI8_5_4 : idctM8 5 4 = ((-1767766952966374877995778189474445885219909 : ℚ) / 5000000000000000000000000000000000000000000) := rfl

lemma mI8_5_5 : idctM8 5 5 = ((-24386290252016123316955546628874672074798631 : ℚ) / 250000000000000000000000000000000000000000000) := rfl

lemma mI8_5_6 : idctM8 5 6 = ((115484941563911547758498697315211285387107148986964992471 : ℚ) / 250000000000000000000000000000000000000000000000000000000) := rfl

lemma mI8_5_7 : idctM8 5 7 = ((-207867403075636610653821218084348455394641827 : ℚ) / 500000000000000000000000000000000000000000000) := rfl

lemma mI8_6_0 : idctM8 6 0 = ((1767766952966374877995778189474445885219909 : ℚ) / 5000000000000000000000000000000000000000000) := rfl

lemma mI8_6_1 : idctM8 6 1 = ((-207867403075636610653821218084348455394641827 : ℚ) / 500000000000000000000000000000000000000000000) := rfl

lemma mI8_6_2 : idctM8 6 2 = ((956708580912727740332116080646979946708657958236395036073 : ℚ) / 5000000000000000000000000000000000000000000000000000000000) := rfl

lemma mI8_6_3 : idctM8 6 3 = ((24386290252016123316955546628874672074798631 : ℚ) / 250000000000000000000000000000000000000000000) := rfl

lemma mI8_6_4 : idctM8 6 4 = ((-1767766952966374877995778189474445885219909 : ℚ) / 5000000000000000000000000000000000000000000) := rfl

lemma mI8_6_5 : idctM8 6 5 = ((122598160050403866538764152564008153832420409 : ℚ) / 250000000000000000000000000000000000000000000) := rfl

lemma mI8_6_6 : idctM8 6 6 = ((-115484941563911547758498697315211285387107148986964992471 : ℚ) / 250000000000000000000000000000000000000000000000000000000) := rfl

lemma mI8_6_7 : idctM8 6 7 = ((138892558254900865414189802152845598268805873 : ℚ) / 500000000000000000000000000000000000000000000) := rfl

lemma mI8_7_0 : idctM8 7 0 = ((14142135623731 : ℚ) / 40000000000000) := rfl

lemma mI8_7_1 : idctM8 7 1 = ((-4903926402016164517821532191 : ℚ) / 10000000000000000000000000000) := rfl

lemma mI8_7_2 : idctM8 7 2 = ((923879532511292445830468689 : ℚ) / 2000000000000000000000000000) := rfl

lemma mI8_7_3 : idctM8 7 3 = ((-1299171269222729224312948077 : ℚ) / 3125000000000000000000000000) := rfl

lemma mI8_7_4 : idctM8 7 4 = ((14142135623731 : ℚ) / 40000000000000) := rfl

lemma mI8_7_5 : idctM8 7 5 = ((-69446279127450308779482387987 : ℚ) / 250000000000000000000000000000) := rfl

lemma mI8_7_6 : idctM8 7 6 = ((7653668647301822450882601007 : ℚ) / 40000000000000000000000000000) := rfl

lemma mI8_7_7 : idctM8 7 7 = ((-48772580504032097585739362691 : ℚ) / 500000000000000000000000000000) := rfl

lemma mF16_0_0 : fdctM16 0 0 = ((1 : ℚ) / 4) := rfl

lemma mF16_0_1 : fdctM16 0 1 = ((1 : ℚ) / 4) := rfl

lemma mF16_0_2 : fdctM16 0 2 = ((1 : ℚ) / 4) := rfl

lemma mF16_0_3 : fdctM16 0 3 = ((1 : ℚ) / 4) := rfl

lemma mF16_0_4 : fdctM16 0 4 = ((1 : ℚ) / 4) := rfl

lemma mF16_0_5 : fdctM16 0 5 = ((1 : ℚ) / 4) := rfl

lemma mF16_0_6 : fdctM16 0 6 = ((1 : ℚ) / 4) := rfl

lemma mF16_0_7 : fdctM16 0 7 = ((1 : ℚ) / 4) := rfl

lemma mF16_0_8 : fdctM16 0 8 = ((1 : ℚ) / 4) := rfl

lemma mF16_0_9 : fdctM16 0 9 = ((1 : ℚ) / 4) := rfl

lemma mF16_0_10 : fdctM16 0 10 = ((1 : ℚ) / 4) := rfl

lemma mF16_0_11 : fdctM16 0 11 = ((1 : ℚ) / 4) := rfl

lemma mF16_0_12 : fdctM16 0 12 = ((1 : ℚ) / 4) := rfl

lemma mF16_0_13 : fdctM16 0 13 = ((1 : ℚ) / 4) := rfl

lemma mF16_0_14 : fdctM16 0 14 = ((1 : ℚ) / 4) := rfl

lemma mF16_0_15 : fdctM16 0 15 = ((1 : ℚ) / 4) := rfl

lemma mF16_1_0 : fdctM16 1 0 = ((70370186876319 : ℚ) / 200000000000000) := rfl

lemma mF16_1_1 : fdctM16 1 1 = ((27066360023487 : ℚ) / 80000000000000) := rfl

lemma mF16_1_2 : fdctM16 1 2 = ((124722501298667 : ℚ) / 400000000000000) := rfl

lemma mF16_1_3 : fdctM16 1 3 = ((6832511668761 : ℚ) / 25000000000000) := rfl

lemma mF16_1_4 : fdctM16 1 4 = ((224291896585659 : ℚ) / 1000000000000000) := rfl

lemma mF16_1_5 : fdctM16 1 5 = ((666655658477747 : ℚ) / 4000000000000000) := rfl

lemma mF16_1_6 : fdctM16 1 6 = ((410524527522357 : ℚ) / 4000000000000000) := rfl

lemma mF16_1_7 : fdctM16 1 7 = ((138617169199091 : ℚ) / 4000000000000000) := rfl

lemma mF16_1_8 : fdctM16 1 8 = ((-138617169199091 : ℚ) / 4000000000000000) := rfl

lemma mF16_1_9 : fdctM16 1 9 = ((-410524527522357 : ℚ) / 4000000000000000) := rfl

lemma mF16_1_10 : fdctM16 1 10 = ((-666655658477747 : ℚ) / 4000000000000000) := rfl

lemma mF16_1_11 : fdctM16 1 11 = ((-224291896585659 : ℚ) / 1000000000000000) := rfl

lemma mF16_1_12 : fdctM16 1 12 = ((-6832511668761 : ℚ) / 25000000000000) := rfl

lemma mF16_1_13 : fdctM16 1 13 = ((-124722501298667 : ℚ) / 400000000000000) := rfl

lemma mF16_1_14 : fdctM16 1 14 = ((-27066360023487 : ℚ) / 80000000000000) := rfl

lemma mF16_1_15 : fdctM16 1 15 = ((-70370186876319 : ℚ) / 200000000000000) := rfl

lemma mF16_2_0 : fdctM16 2 0 = ((27740796906443 : ℚ) / 80000000000000) := rfl

lemma mF16_2_1 : fdctM16 2 1 = ((7349222515121 : ℚ) / 25000000000000) := rfl

lemma mF16_2_2 : fdctM16 2 2 = ((392847479193551 : ℚ) / 2000000000000000) := rfl

lemma mF16_2_3 : fdctM16 2 3 = ((275899379282943 : ℚ) / 4000000000000000) := rfl

lemma mF16_2_4 : fdctM16 2 4 = ((-275899379282943 : ℚ) / 4000000000000000) := rfl

lemma mF16_2_5 : fdctM16 2 5 = ((-392847479193551 : ℚ) / 2000000000000000) := rfl

lemma mF16_2_6 : fdctM16 2 6 = ((-7349222515121 : ℚ) / 25000000000000) := rfl

lemma mF16_2_7 : fdctM16 2 7 = ((-27740796906443 : ℚ) / 80000000000000) := rfl

lemma mF16_2_8 : fdctM16 2 8 = ((-27740796906443 : ℚ) / 80000000000000) := rfl

lemma mF16_2_9 : fdctM16 2 9 = ((-7349222515121 : ℚ) / 25000000000000) := rfl

lemma mF16_2_10 : fdctM16 2 10 = ((-392847479193551 : ℚ) / 2000000000000000) := rfl

lemma mF16_2_11 : fdctM16 2 11 = ((-275899379282943 : ℚ) / 4000000000000000) := rfl

lemma mF16_2_12 : fdctM16 2 12 = ((275899379282943 : ℚ) / 4000000000000000) := rfl

lemma mF16_2_13 : fdctM16 2 13 = ((392847479193551 : ℚ) / 2000000000000000) := rfl

lemma mF16_2_14 : fdctM16 2 14 = ((7349222515121 : ℚ) / 25000000000000) := rfl

lemma mF16_2_15 : fdctM16 2 15 = ((27740796906443 : ℚ) / 80000000000000) := rfl

lemma mF16_3_0 : fdctM16 3 0 = ((338329500293587150988500537306701096711637413 : ℚ) / 1000000000000000000000000000000000000000000000) := rfl

lemma mF16_3_1 : fdctM16 3 1 = ((56072974146414571661599968011292654214592319 : ℚ) / 250000000000000000000000000000000000000000000) := rfl

lemma mF16_3_2 : fdctM16 3 2 = ((8663573074943307202989214310145135011683309 : ℚ) / 250000000000000000000000000000000000000000000) := rfl

lemma mF16_3_3 : fdctM16 3 3 = ((-41665978654859290543646354380158395122695243 : ℚ) / 250000000000000000000000000000000000000000000) := rfl

lemma mF16_3_4 : fdctM16 3 4 = ((-38975781655833434699607867852417990214490391 : ℚ) / 125000000000000000000000000000000000000000000) := rfl

lemma mF16_3_5 : fdctM16 3 5 = ((-351850934381594884832729791701236163970127401 : ℚ) / 1000000000000000000000000000000000000000000000) := rfl

lemma mF16_3_6 : fdctM16 3 6 = ((-273300466750438532399347182296695671134562129 : ℚ) / 1000000000000000000000000000000000000000000000) := rfl

lemma mF16_3_7 : fdctM16 3 7 = ((-51315565940294454392366277086495358053852551 : ℚ) / 500000000000000000000000000000000000000000000) := rfl

lemma mF16_3_8 : fdctM16 3 8 = ((51315565940294454392366277086495358053852551 : ℚ) / 500000000000000000000000000000000000000000000) := rfl

lemma mF16_3_9 : fdctM16 3 9 = ((273300466750438532399347182296695671134562129 : ℚ) / 1000000000000000000000000000000000000000000000) := rfl

lemma mF16_3_10 : fdctM16 3 10 = ((351850934381594884832729791701236163970127401 : ℚ) / 1000000000000000000000000000000000000000000000) := rfl

lemma mF16_3_11 : fdctM16 3 11 = ((38975781655833434699607867852417990214490391 : ℚ) / 125000000000000000000000000000000000000000000) := rfl

lemma mF16_3_12 : fdctM16 3 12 = ((41665978654859290543646354380158395122695243 : ℚ) / 250000000000000000000000000000000000000000000) := rfl

lemma mF16_3_13 : fdctM16 3 13 = ((-8663573074943307202989214310145135011683309 : ℚ) / 250000000000000000000000000000000000000000000) := rfl

lemma mF16_3_14 : fdctM16 3 14 = ((-56072974146414571661599968011292654214592319 : ℚ) / 250000000000000000000000000000000000000000000) := rfl

lemma mF16_3_15 : fdctM16 3 15 = ((-338329500293587150988500537306701096711637413 : ℚ) / 1000000000000000000000000000000000000000000000) := rfl

lemma mF16_4_0 : fdctM16 4 0 = ((163320370609547 : ℚ) / 500000000000000) := rfl

lemma mF16_4_1 : fdctM16 4 1 = ((135299025036549 : ℚ) / 1000000000000000) := rfl

lemma mF16_4_2 : fdctM16 4 2 = ((-135299025036549 : ℚ) / 1000000000000000) := rfl

lemma mF16_4_3 : fdctM16 4 3 = ((-163320370609547 : ℚ) / 500000000000000) := rfl

lemma mF16_4_4 : fdctM16 4 4 = ((-163320370609547 : ℚ) / 500000000000000) := rfl

lemma mF16_4_5 : fdctM16 4 5 = ((-135299025036549 : ℚ) / 1000000000000000) := rfl

lemma mF16_4_6 : fdctM16 4 6 = ((135299025036549 : ℚ) / 1000000000000000) := rfl

lemma mF16_4_7 : fdctM16 4 7 = ((163320370609547 : ℚ) / 500000000000000) := rfl

lemma mF16_4_8 : fdctM16 4 8 = ((163320370609547 : ℚ) / 500000000000000) := rfl

lemma mF16_4_9 : fdctM16 4 9 = ((135299025036549 : ℚ) / 1000000000000000) := rfl

lemma mF16_4_10 : fdctM16 4 10 = ((-135299025036549 : ℚ) / 1000000000000000) := rfl

lemma mF16_4_11 : fdctM16 4 11 = ((-163320370609547 : ℚ) / 500000000000000) := rfl

lemma mF16_4_12 : fdctM16 4 12 = ((-163320370609547 : ℚ) / 500000000000000) := rfl

lemma mF16_4_13 : fdctM16 4 13 = ((-135299025036549 : ℚ) / 1000000000000000) := rfl

lemma mF16_4_14 : fdctM16 4 14 = ((135299025036549 : ℚ) / 1000000000000000) := rfl

lemma mF16_4_15 : fdctM16 4 15 = ((163320370609547 : ℚ) / 500000000000000) := rfl

lemma mF16_5_0 : fdctM16 5 0 = ((311806253246666945992128906954293814285696267 : ℚ) / 1000000000000000000000000000000000000000000000) := rfl

lemma mF16_5_1 : fdctM16 5 1 = ((4331786537471559319544549708040137526935853 : ℚ) / 125000000000000000000000000000000000000000000) := rfl

lemma mF16_5_2 : fdctM16 5 2 = ((-34162558343804861039410674816154968271336907 : ℚ) / 125000000000000000000000000000000000000000000) := rfl

lemma mF16_5_3 : fdctM16 5 3 = ((-84582375073397053367485331296226161929312597 : ℚ) / 250000000000000000000000000000000000000000000) := rfl

lemma mF16_5_4 : fdctM16 5 4 = ((-12828891485073633717663075546866577962467071 : ℚ) / 125000000000000000000000000000000000000000000) := rfl

lemma mF16_5_5 : fdctM16 5 5 = ((224291896585658571572391546889697670222248719 : ℚ) / 1000000000000000000000000000000000000000000000) := rfl

lemma mF16_5_6 : fdctM16 5 6 = ((351850934381594501032728555398767952620794471 : ℚ) / 1000000000000000000000000000000000000000000000) := rfl

lemma mF16_5_7 : fdctM16 5 7 = ((83331957309717950386009055861213623772920589 : ℚ) / 500000000000000000000000000000000000000000000) := rfl

lemma mF16_5_8 : fdctM16 5 8 = ((-83331957309717950386009055861213623772920589 : ℚ) / 500000000000000000000000000000000000000000000) := rfl

lemma mF16_5_9 : fdctM16 5 9 = ((-351850934381594501032728555398767952620794471 : ℚ) / 1000000000000000000000000000000000000000000000) := rfl

lemma mF16_5_10 : fdctM16 5 10 = ((-224291896585658571572391546889697670222248719 : ℚ) / 1000000000000000000000000000000000000000000000) := rfl

lemma mF16_5_11 : fdctM16 5 11 = ((12828891485073633717663075546866577962467071 : ℚ) / 125000000000000000000000000000000000000000000) := rfl

lemma mF16_5_12 : fdctM16 5 12 = ((84582375073397053367485331296226161929312597 : ℚ) / 250000000000000000000000000000000000000000000) := rfl

lemma mF16_5_13 : fdctM16 5 13 = ((34162558343804861039410674816154968271336907 : ℚ) / 125000000000000000000000000000000000000000000) := rfl

lemma mF16_5_14 : fdctM16 5 14 = ((-4331786537471559319544549708040137526935853 : ℚ) / 125000000000000000000000000000000000000000000) := rfl

lemma mF16_5_15 : fdctM16 5 15 = ((-311806253246666945992128906954293814285696267 : ℚ) / 1000000000000000000000000000000000000000000000) := rfl

lemma mF16_6_0 : fdctM16 6 0 = ((1175875602419359630968039283871 : ℚ) / 4000000000000000000000000000000) := rfl

lemma mF16_6_1 : fdctM16 6 1 = ((-137949689641471921571891816563 : ℚ) / 2000000000000000000000000000000) := rfl

lemma mF16_6_2 : fdctM16 6 2 = ((-693519922661073606112792533357 : ℚ) / 2000000000000000000000000000000) := rfl

lemma mF16_6_3 : fdctM16 6 3 = ((-785694958387103402080882948229 : ℚ) / 4000000000000000000000000000000) := rfl

lemma mF16_6_4 : fdctM16 6 4 = ((785694958387103402080882948229 : ℚ) / 4000000000000000000000000000000) := rfl

lemma mF16_6_5 : fdctM16 6 5 = ((693519922661073606112792533357 : ℚ) / 2000000000000000000000000000000) := rfl

lemma mF16_6_6 : fdctM16 6 6 = ((137949689641471921571891816563 : ℚ) / 2000000000000000000000000000000) := rfl

lemma mF16_6_7 : fdctM16 6 7 = ((-1175875602419359630968039283871 : ℚ) / 4000000000000000000000000000000) := rfl

lemma mF16_6_8 : fdctM16 6 8 = ((-1175875602419359630968039283871 : ℚ) / 4000000000000000000000000000000) := rfl

lemma mF16_6_9 : fdctM16 6 9 = ((137949689641471921571891816563 : ℚ) / 2000000000000000000000000000000) := rfl

lemma mF16_6_10 : fdctM16 6 10 = ((693519922661073606112792533357 : ℚ) / 2000000000000000000000000000000) := rfl

lemma mF16_6_11 : fdctM16 6 11 = ((785694958387103402080882948229 : ℚ) / 4000000000000000000000000000000) := rfl

lemma mF16_6_12 : fdctM16 6 12 = ((-785694958387103402080882948229 : ℚ) / 4000000000000000000000000000000) := rfl

lemma mF16_6_13 : fdctM16 6 13 = ((-693519922661073606112792533357 : ℚ) / 2000000000000000000000000000000) := rfl

lemma mF16_6_14 : fdctM16 6 14 = ((-137949689641471921571891816563 : ℚ) / 2000000000000000000000000000000) := rfl

lemma mF16_6_15 : fdctM16 6 15 = ((1175875602419359630968039283871 : ℚ) / 4000000000000000000000000000000) := rfl

lemma mF16_7_0 : fdctM16 7 0 = ((1093201867001754611605767438637 : ℚ) / 4000000000000000000000000000000) := rfl

lemma mF16_7_1 : fdctM16 7 1 = ((-666655658477744378593891338171 : ℚ) / 4000000000000000000000000000000) := rfl

lemma mF16_7_2 : fdctM16 7 2 = ((-1353318001174351158531349598099 : ℚ) / 4000000000000000000000000000000) := rfl

lemma mF16_7_3 : fdctM16 7 3 = ((34654292299773334218490401207 : ℚ) / 1000000000000000000000000000000) := rfl

lemma mF16_7_4 : fdctM16 7 4 = ((351850934381595747590578260153 : ℚ) / 1000000000000000000000000000000) := rfl

lemma mF16_7_5 : fdctM16 7 5 = ((410524527522355849682439058881 : ℚ) / 4000000000000000000000000000000) := rfl

lemma mF16_7_6 : fdctM16 7 6 = ((-1247225012986668144270951600729 : ℚ) / 4000000000000000000000000000000) := rfl

lemma mF16_7_7 : fdctM16 7 7 = ((-897167586342634207208459781083 : ℚ) / 4000000000000000000000000000000) := rfl

lemma mF16_7_8 : fdctM16 7 8 = ((897167586342634207208459781083 : ℚ) / 4000000000000000000000000000000) := rfl

lemma mF16_7_9 : fdctM16 7 9 = ((1247225012986668144270951600729 : ℚ) / 4000000000000000000000000000000) := rfl

lemma mF16_7_10 : fdctM16 7 10 = ((-410524527522355849682439058881 : ℚ) / 4000000000000000000000000000000) := rfl

lemma mF16_7_11 : fdctM16 7 11 = ((-351850934381595747590578260153 : ℚ) / 1000000000000000000000000000000) := rfl

lemma mF16_7_12 : fdctM16 7 12 = ((-34654292299773334218490401207 : ℚ) / 1000000000000000000000000000000) := rfl

lemma mF16_7_13 : fdctM16 7 13 = ((1353318001174351158531349598099 : ℚ) / 4000000000000000000000000000000) := rfl

lemma mF16_7_14 : fdctM16 7 14 = ((666655658477744378593891338171 : ℚ) / 4000000000000000000000000000000) := rfl

lemma mF16_7_15 : fdctM16 7 15 = ((-1093201867001754611605767438637 : ℚ) / 4000000000000000000000000000000) := rfl

lemma mF16_8_0 : fdctM16 8 0 = ((1 : ℚ) / 4) := rfl

lemma mF16_8_1 : fdctM16 8 1 = ((-1 : ℚ) / 4) := rfl

lemma mF16_8_2 : fdctM16 8 2 = ((-1 : ℚ) / 4) := rfl

lemma mF16_8_3 : fdctM16 8 3 = ((1 : ℚ) / 4) := rfl

lemma mF16_8_4 : fdctM16 8 4 = ((1 : ℚ) / 4) := rfl

lemma mF16_8_5 : fdctM16 8 5 = ((-1 : ℚ) / 4) := rfl

lemma mF16_8_6 : fdctM16 8 6 = ((-1 : ℚ) / 4) := rfl

lemma mF16_8_7 : fdctM16 8 7 = ((1 : ℚ) / 4) := rfl

lemma mF16_8_8 : fdctM16 8 8 = ((1 : ℚ) / 4) := rfl

lemma mF16_8_9 : fdctM16 8 9 = ((-1 : ℚ) / 4) := rfl

lemma mF16_8_10 : fdctM16 8 10 = ((-1 : ℚ) / 4) := rfl

lemma mF16_8_11 : fdctM16 8 11 = ((1 : ℚ) / 4) := rfl

lemma mF16_8_12 : fdctM16 8 12 = ((1 : ℚ) / 4) := rfl

lemma mF16_8_13 : fdctM16 8 13 = ((-1 : ℚ) / 4) := rfl

lemma mF16_8_14 : fdctM16 8 14 = ((-1 : ℚ) / 4) := rfl

lemma mF16_8_15 : fdctM16 8 15 = ((1 : ℚ) / 4) := rfl

lemma mF16_9_0 : fdctM16 9 0 = ((897167586342634207208459781083 : ℚ) / 4000000000000000000000000000000) := rfl

lemma mF16_9_1 : fdctM16 9 1 = ((-1247225012986668144270951600729 : ℚ) / 4000000000000000000000000000000) := rfl

lemma mF16_9_2 : fdctM16 9 2 = ((-410524527522355849682439058881 : ℚ) / 4000000000000000000000000000000) := rfl

lemma mF16_9_3 : fdctM16 9 3 = ((351850934381595747590578260153 : ℚ) / 1000000000000000000000000000000) := rfl

lemma mF16_9_4 : fdctM16 9 4 = ((-34654292299773334218490401207 : ℚ) / 1000000000000000000000000000000) := rfl

lemma mF16_9_5 : fdctM16 9 5 = ((-1353318001174351158531349598099 : ℚ) / 4000000000000000000000000000000) := rfl

lemma mF16_9_6 : fdctM16 9 6 = ((666655658477744378593891338171 : ℚ) / 4000000000000000000000000000000) := rfl

lemma mF16_9_7 : fdctM16 9 7 = ((1093201867001754611605767438637 : ℚ) / 4000000000000000000000000000000) := rfl

lemma mF16_9_8 : fdctM16 9 8 = ((-1093201867001754611605767438637 : ℚ) / 4000000000000000000000000000000) := rfl

lemma mF16_9_9 : fdctM16 9 9 = ((-666655658477744378593891338171 : ℚ) / 4000000000000000000000000000000) := rfl

lemma mF16_9_10 : fdctM16 9 10 = ((1353318001174351158531349598099 : ℚ) / 4000000000000000000000000000000) := rfl

lemma mF16_9_11 : fdctM16 9 11 = ((34654292299773334218490401207 : ℚ) / 1000000000000000000000000000000) := rfl

lemma mF16_9_12 : fdctM16 9 12 = ((-351850934381595747590578260153 : ℚ) / 1000000000000000000000000000000) := rfl

lemma mF16_9_13 : fdctM16 9 13 = ((410524527522355849682439058881 : ℚ) / 4000000000000000000000000000000) := rfl

lemma mF16_9_14 : fdctM16 9 14 = ((1247225012986668144270951600729 : ℚ) / 4000000000000000000000000000000) := rfl

lemma mF16_9_15 : fdctM16 9 15 = ((-897167586342634207208459781083 : ℚ) / 4000000000000000000000000000000) := rfl

lemma mF16_10_0 : fdctM16 10 0 = ((785694958387103402080882948229 : ℚ) / 4000000000000000000000000000000) := rfl

lemma mF16_10_1 : fdctM16 10 1 = ((-693519922661073606112792533357 : ℚ) / 2000000000000000000000000000000) := rfl

lemma mF16_10_2 : fdctM16 10 2 = ((137949689641471921571891816563 : ℚ) / 2000000000000000000000000000000) := rfl

lemma mF16_10_3 : fdctM16 10 3 = ((1175875602419359630968039283871 : ℚ) / 4000000000000000000000000000000) := rfl

lemma mF16_10_4 : fdctM16 10 4 = ((-1175875602419359630968039283871 : ℚ) / 4000000000000000000000000000000) := rfl

lemma mF16_10_5 : fdctM16 10 5 = ((-137949689641471921571891816563 : ℚ) / 2000000000000000000000000000000) := rfl

lemma mF16_10_6 : fdctM16 10 6 = ((693519922661073606112792533357 : ℚ) / 2000000000000000000000000000000) := rfl

lemma mF16_10_7 : fdctM16 10 7 = ((-785694958387103402080882948229 : ℚ) / 4000000000000000000000000000000) := rfl

lemma mF16_10_8 : fdctM16 10 8 = ((-785694958387103402080882948229 : ℚ) / 4000000000000000000000000000000) := rfl

lemma mF16_10_9 : fdctM16 10 9 = ((693519922661073606112792533357 : ℚ) / 2000000000000000000000000000000) := rfl

lemma mF16_10_10 : fdctM16 10 10 = ((-137949689641471921571891816563 : ℚ) / 2000000000000000000000000000000) := rfl

lemma mF16_10_11 : fdctM16 10 11 = ((-1175875602419359630968039283871 : ℚ) / 4000000000000000000000000000000) := rfl

lemma mF16_10_12 : fdctM16 10 12 = ((1175875602419359630968039283871 : ℚ) / 4000000000000000000000000000000) := rfl

lemma mF16_10_13 : fdctM16 10 13 = ((137949689641471921571891816563 : ℚ) / 2000000000000000000000000000000) := rfl

lemma mF16_10_14 : fdctM16 10 14 = ((-693519922661073606112792533357 : ℚ) / 2000000000000000000000000000000) := rfl

lemma mF16_10_15 : fdctM16 10 15 = ((785694958387103402080882948229 : ℚ) / 4000000000000000000000000000000) := rfl

lemma mF16_11_0 : fdctM16 11 0 = ((83331957309717950386009055861213623772920589 : ℚ) / 500000000000000000000000000000000000000000000) := rfl

lemma mF16_11_1 : fdctM16 11 1 = ((-351850934381594501032728555398767952620794471 : ℚ) / 1000000000000000000000000000000000000000000000) := rfl

lemma mF16_11_2 : fdctM16 11 2 = ((224291896585658571572391546889697670222248719 : ℚ) / 1000000000000000000000000000000000000000000000) := rfl

lemma mF16_11_3 : fdctM16 11 3 = ((12828891485073633717663075546866577962467071 : ℚ) / 125000000000000000000000000000000000000000000) := rfl

lemma mF16_11_4 : fdctM16 11 4 = ((-84582375073397053367485331296226161929312597 : ℚ) / 250000000000000000000000000000000000000000000) := rfl

lemma mF16_11_5 : fdctM16 11 5 = ((34162558343804861039410674816154968271336907 : ℚ) / 125000000000000000000000000000000000000000000) := rfl

lemma mF16_11_6 : fdctM16 11 6 = ((4331786537471559319544549708040137526935853 : ℚ) / 125000000000000000000000000000000000000000000) := rfl

lemma mF16_11_7 : fdctM16 11 7 = ((-311806253246666945992128906954293814285696267 : ℚ) / 1000000000000000000000000000000000000000000000) := rfl

lemma mF16_11_8 : fdctM16 11 8 = ((311806253246666945992128906954293814285696267 : ℚ) / 1000000000000000000000000000000000000000000000) := rfl

lemma mF16_11_9 : fdctM16 11 9 = ((-4331786537471559319544549708040137526935853 : ℚ) / 125000000000000000000000000000000000000000000) := rfl

lemma mF16_11_10 : fdctM16 11 10 = ((-34162558343804861039410674816154968271336907 : ℚ) / 125000000000000000000000000000000000000000000) := rfl

lemma mF16_11_11 : fdctM16 11 11 = ((84582375073397053367485331296226161929312597 : ℚ) / 250000000000000000000000000000000000000000000) := rfl

lemma mF16_11_12 : fdctM16 11 12 = ((-12828891485073633717663075546866577962467071 : ℚ) / 125000000000000000000000000000000000000000000) := rfl

lemma mF16_11_13 : fdctM16 11 13 = ((-224291896585658571572391546889697670222248719 : ℚ) / 1000000000000000000000000000000000000000000000) := rfl

lemma mF16_11_14 : fdctM16 11 14 = ((351850934381594501032728555398767952620794471 : ℚ) / 1000000000000000000000000000000000000000000000) := rfl

lemma mF16_11_15 : fdctM16 11 15 = ((-83331957309717950386009055861213623772920589 : ℚ) / 500000000000000000000000000000000000000000000) := rfl

lemma mF16_12_0 : fdctM16 12 0 = ((135299025036549 : ℚ) / 1000000000000000) := rfl

lemma mF16_12_1 : fdctM16 12 1 = ((-163320370609547 : ℚ) / 500000000000000) := rfl

lemma mF16_12_2 : fdctM16 12 2 = ((163320370609547 : ℚ) / 500000000000000) := rfl

lemma mF16_12_3 : fdctM16 12 3 = ((-135299025036549 : ℚ) / 1000000000000000) := rfl

lemma mF16_12_4 : fdctM16 12 4 = ((-135299025036549 : ℚ) / 1000000000000000) := rfl

lemma mF16_12_5 : fdctM16 12 5 = ((163320370609547 : ℚ) / 500000000000000) := rfl

lemma mF16_12_6 : fdctM16 12 6 = ((-163320370609547 : ℚ) / 500000000000000) := rfl

lemma mF16_12_7 : fdctM16 12 7 = ((135299025036549 : ℚ) / 1000000000000000) := rfl

lemma mF16_12_8 : fdctM16 12 8 = ((135299025036549 : ℚ) / 1000000000000000) := rfl

lemma mF16_12_9 : fdctM16 12 9 = ((-163320370609547 : ℚ) / 500000000000000) := rfl

lemma mF16_12_10 : fdctM16 12 10 = ((163320370609547 : ℚ) / 500000000000000) := rfl

lemma mF16_12_11 : fdctM16 12 11 = ((-135299025036549 : ℚ) / 1000000000000000) := rfl

lemma mF16_12_12 : fdctM16 12 12 = ((-135299025036549 : ℚ) / 1000000000000000) := rfl

lemma mF16_12_13 : fdctM16 12 13 = ((163320370609547 : ℚ) / 500000000000000) := rfl

lemma mF16_12_14 : fdctM16 12 14 = ((-163320370609547 : ℚ) / 500000000000000) := rfl

lemma mF16_12_15 : fdctM16 12 15 = ((135299025036549 : ℚ) / 1000000000000000) := rfl

lemma mF16_13_0 : fdctM16 13 0 = ((51315565940294454392366277086495358053852551 : ℚ) / 500000000000000000000000000000000000000000000) := rfl

lemma mF16_13_1 : fdctM16 13 1 = ((-273300466750438532399347182296695671134562129 : ℚ) / 1000000000000000000000000000000000000000000000) := rfl

lemma mF16_13_2 : fdctM16 13 2 = ((351850934381594884832729791701236163970127401 : ℚ) / 1000000000000000000000000000000000000000000000) := rfl

lemma mF16_13_3 : fdctM16 13 3 = ((-38975781655833434699607867852417990214490391 : ℚ) / 125000000000000000000000000000000000000000000) := rfl

lemma mF16_13_4 : fdctM16 13 4 = ((41665978654859290543646354380158395122695243 : ℚ) / 250000000000000000000000000000000000000000000) := rfl

lemma mF16_13_5 : fdctM16 13 5 = ((8663573074943307202989214310145135011683309 : ℚ) / 250000000000000000000000000000000000000000000) := rfl

lemma mF16_13_6 : fdctM16 13 6 = ((-56072974146414571661599968011292654214592319 : ℚ) / 250000000000000000000000000000000000000000000) := rfl

lemma mF16_13_7 : fdctM16 13 7 = ((338329500293587150988500537306701096711637413 : ℚ) / 1000000000000000000000000000000000000000000000) := rfl

lemma mF16_13_8 : fdctM16 13 8 = ((-338329500293587150988500537306701096711637413 : ℚ) / 1000000000000000000000000000000000000000000000) := rfl

lemma mF16_13_9 : fdctM16 13 9 = ((56072974146414571661599968011292654214592319 : ℚ) / 250000000000000000000000000000000000000000000) := rfl

lemma mF16_13_10 : fdctM16 13 10 = ((-8663573074943307202989214310145135011683309 : ℚ) / 250000000000000000000000000000000000000000000) := rfl

lemma mF16_13_11 : fdctM16 13 11 = ((-41665978654859290543646354380158395122695243 : ℚ) / 250000000000000000000000000000000000000000000) := rfl

lemma mF16_13_12 : fdctM16 13 12 = ((38975781655833434699607867852417990214490391 : ℚ) / 125000000000000000000000000000000000000000000) := rfl

lemma mF16_13_13 : fdctM16 13 13 = ((-351850934381594884832729791701236163970127401 : ℚ) / 1000000000000000000000000000000000000000000000) := rfl

lemma mF16_13_14 : fdctM16 13 14 = ((273300466750438532399347182296695671134562129 : ℚ) / 1000000000000000000000000000000000000000000000) := rfl

lemma mF16_13_15 : fdctM16 13 15 = ((-51315565940294454392366277086495358053852551 : ℚ) / 500000000000000000000000000000000000000000000) := rfl

lemma mF16_14_0 : fdctM16 14 0 = ((275899379282943 : ℚ) / 4000000000000000) := rfl

lemma mF16_14_1 : fdctM16 14 1 = ((-392847479193551 : ℚ) / 2000000000000000) := rfl

lemma mF16_14_2 : fdctM16 14 2 = ((7349222515121 : ℚ) / 25000000000000) := rfl

lemma mF16_14_3 : fdctM16 14 3 = ((-27740796906443 : ℚ) / 80000000000000) := rfl

lemma mF16_14_4 : fdctM16 14 4 = ((27740796906443 : ℚ) / 80000000000000) := rfl

lemma mF16_14_5 : fdctM16 14 5 = ((-7349222515121 : ℚ) / 25000000000000) := rfl

lemma mF16_14_6 : fdctM16 14 6 = ((392847479193551 : ℚ) / 2000000000000000) := rfl

lemma mF16_14_7 : fdctM16 14 7 = ((-275899379282943 : ℚ) / 4000000000000000) := rfl

lemma mF16_14_8 : fdctM16 14 8 = ((-275899379282943 : ℚ) / 4000000000000000) := rfl

lemma mF16_14_9 : fdctM16 14 9 = ((392847479193551 : ℚ) / 2000000000000000) := rfl

lemma mF16_14_10 : fdctM16 14 10 = ((-7349222515121 : ℚ) / 25000000000000) := rfl

lemma mF16_14_11 : fdctM16 14 11 = ((27740796906443 : ℚ) / 80000000000000) := rfl

lemma mF16_14_12 : fdctM16 14 12 = ((-27740796906443 : ℚ) / 80000000000000) := rfl

lemma mF16_14_13 : fdctM16 14 13 = ((7349222515121 : ℚ) / 25000000000000) := rfl

lemma mF16_14_14 : fdctM16 14 14 = ((-392847479193551 : ℚ) / 2000000000000000) := rfl

lemma mF16_14_15 : fdctM16 14 15 = ((275899379282943 : ℚ) / 4000000000000000) := rfl

lemma mF16_15_0 : fdctM16 15 0 = ((138617169199091 : ℚ) / 4000000000000000) := rfl

lemma mF16_15_1 : fdctM16 15 1 = ((-410524527522357 : ℚ) / 4000000000000000) := rfl

lemma mF16_15_2 : fdctM16 15 2 = ((666655658477747 : ℚ) / 4000000000000000) := rfl

lemma mF16_15_3 : fdctM16 15 3 = ((-224291896585659 : ℚ) / 1000000000000000) := rfl

lemma mF16_15_4 : fdctM16 15 4 = ((6832511668761 : ℚ) / 25000000000000) := rfl

lemma mF16_15_5 : fdctM16 15 5 = ((-124722501298667 : ℚ) / 400000000000000) := rfl

lemma mF16_15_6 : fdctM16 15 6 = ((27066360023487 : ℚ) / 80000000000000) := rfl

lemma mF16_15_7 : fdctM16 15 7 = ((-70370186876319 : ℚ) / 200000000000000) := rfl

lemma mF16_15_8 : fdctM16 15 8 = ((70370186876319 : ℚ) / 200000000000000) := rfl

lemma mF16_15_9 : fdctM16 15 9 = ((-27066360023487 : ℚ) / 80000000000000) := rfl

lemma mF16_15_10 : fdctM16 15 10 = ((124722501298667 : ℚ) / 400000000000000) := rfl

lemma mF16_15_11 : fdctM16 15 11 = ((-6832511668761 : ℚ) / 25000000000000) := rfl

lemma mF16_15_12 : fdctM16 15 12 = ((224291896585659 : ℚ) / 1000000000000000) := rfl

lemma mF16_15_13 : fdctM16 15 13 = ((-666655658477747 : ℚ) / 4000000000000000) := rfl

lemma mF16_15_14 : fdctM16 15 14 = ((410524527522357 : ℚ) / 4000000000000000) := rfl

lemma mF16_15_15 : fdctM16 15 15 = ((-138617169199091 : ℚ) / 4000000000000000) := rfl

lemma mI16_0_0 : idctM16 0 0 = ((2500000000000010434061692647 : ℚ) / 10000000000000000000000000000) := rfl

lemma mI16_0_1 : idctM16 0 1 = ((70370186876319 : ℚ) / 200000000000000) := rfl

lemma mI16_0_2 : idctM16 0 2 = ((69351992266107789449186325017309880024621 : ℚ) / 200000000000000000000000000000000000000000) := rfl

lemma mI16_0_3 : idctM16 0 3 = ((27066360023487 : ℚ) / 80000000000000) := rfl

lemma mI16_0_4 : idctM16 0 4 = ((163320370609548181637929042396215595498893 : ℚ) / 500000000000000000000000000000000000000000) := rfl

lemma mI16_0_5 : idctM16 0 5 = ((124722501298667 : ℚ) / 400000000000000) := rfl

lemma mI16_0_6 : idctM16 0 6 = ((18373056287802576682241115762863812015287 : ℚ) / 62500000000000000000000000000000000000000) := rfl

lemma mI16_0_7 : idctM16 0 7 = ((6832511668761 : ℚ) / 25000000000000) := rfl

lemma mI16_0_8 : idctM16 0 8 = ((2500000000000010434061692647 : ℚ) / 10000000000000000000000000000) := rfl

lemma mI16_0_9 : idctM16 0 9 = ((224291896585659 : ℚ) / 1000000000000000) := rfl

lemma mI16_0_10 : idctM16 0 10 = ((982118697983881598994833706369861586519497 : ℚ) / 5000000000000000000000000000000000000000000) := rfl

lemma mI16_0_11 : idctM16 0 11 = ((666655658477747 : ℚ) / 4000000000000000) := rfl

lemma mI16_0_12 : idctM16 0 12 = ((1352990250365498146873496745383593979913459 : ℚ) / 10000000000000000000000000000000000000000000) := rfl

lemma mI16_0_13 : idctM16 0 13 = ((410524527522357 : ℚ) / 4000000000000000) := rfl

lemma mI16_0_14 : idctM16 0 14 = ((689748448207360378751144401240883715620121 : ℚ) / 10000000000000000000000000000000000000000000) := rfl

lemma mI16_0_15 : idctM16 0 15 = ((138617169199091 : ℚ) / 4000000000000000) := rfl

lemma mI16_1_0 : idctM16 1 0 = ((25000000000000173325894793612787918658060064199814060479 : ℚ) / 100000000000000000000000000000000000000000000000000000000) := rfl

lemma mI16_1_1 : idctM16 1 1 = ((1353318001174352682710049167564644213954817869 : ℚ) / 4000000000000000000000000000000000000000000000) := rfl

lemma mI16_1_2 : idctM16 1 2 = ((2939689006048411346578676731731859420201249425835986396537 : ℚ) / 10000000000000000000000000000000000000000000000000000000000) := rfl

lemma mI16_1_3 : idctM16 1 3 = ((89716758634263526466464423823447525397547167 : ℚ) / 400000000000000000000000000000000000000000000) := rfl

lemma mI16_1_4 : idctM16 1 4 = ((13529902503655018803298316653271572846668095654741397462219148099848363 : ℚ) / 100000000000000000000000000000000000000000000000000000000000000000000000) := rfl

lemma mI16_1_5 : idctM16 1 5 = ((13861716919909391891351038459943575111368289 : ℚ) / 400000000000000000000000000000000000000000000) := rfl

lemma mI16_1_6 : idctM16 1 6 = ((-344874224103681243305301742032340564937160425303409912261 : ℚ) / 5000000000000000000000000000000000000000000000000000000000) := rfl

lemma mI16_1_7 : idctM16 1 7 = ((-166663914619437776586717739347590512584174219 : ℚ) / 1000000000000000000000000000000000000000000000) := rfl

lemma mI16_1_8 : idctM16 1 8 = ((-25000000000000173325894793612787918658060064199814060479 : ℚ) / 100000000000000000000000000000000000000000000000000000000) := rfl

lemma mI16_1_9 : idctM16 1 9 = ((-3118062532466683052427604471487115704259717 : ℚ) / 10000000000000000000000000000000000000000000) := rfl

lemma mI16_1_10 : idctM16 1 10 = ((-1733799806652691251511639458810703095500226598882629125979 : ℚ) / 5000000000000000000000000000000000000000000000000000000000) := rfl

lemma mI16_1_11 : idctM16 1 11 = ((-1407403737526383538412713386216615507913093173 : ℚ) / 4000000000000000000000000000000000000000000000) := rfl

lemma mI16_1_12 : idctM16 1 12 = ((-1633203706095486323059749569712006526582046806224501308587527303929301 : ℚ) / 5000000000000000000000000000000000000000000000000000000000000000000000) := rfl

lemma mI16_1_13 : idctM16 1 13 = ((-1093201867001757667074054403549945575693995037 : ℚ) / 4000000000000000000000000000000000000000000000) := rfl

lemma mI16_1_14 : idctM16 1 14 = ((-1964237395967766703191874783326852571469756798559410972163 : ℚ) / 10000000000000000000000000000000000000000000000000000000000) := rfl

lemma mI16_1_15 : idctM16 1 15 = ((-10263113188058905956377389266139086923227879 : ℚ) / 100000000000000000000000000000000000000000000) := rfl

lemma mI16_2_0 : idctM16 2 0 = ((25000000000000173325894793612787918658060064199814060479 : ℚ) / 100000000000000000000000000000000000000000000000000000000) := rfl

lemma mI16_2_1 : idctM16 2 1 = ((1247225012986671666690281987034610686943395731 : ℚ) / 4000000000000000000000000000000000000000000000) := rfl

lemma mI16_2_2 : idctM16 2 2 = ((1964237395967766703191874783326852571469756798559410972163 : ℚ) / 10000000000000000000000000000000000000000000000000000000000) := rfl

lemma mI16_2_3 : idctM16 2 3 = ((13861716919908969402705230501601447916289163 : ℚ) / 400000000000000000000000000000000000000000000) := rfl

lemma mI16_2_4 : idctM16 2 4 = ((-13529902503655018803298316653271572846668095654741397462219148099848363 : ℚ) / 100000000000000000000000000000000000000000000000000000000000000000000000) := rfl

lemma mI16_2_5 : idctM16 2 5 = ((-21864037340035166415387064929221615787963759 : ℚ) / 80000000000000000000000000000000000000000000) := rfl

lemma mI16_2_6 : idctM16 2 6 = ((-1733799806652691251511639458810703095500226598882629125979 : ℚ) / 5000000000000000000000000000000000000000000000000000000000) := rfl

lemma mI16_2_7 : idctM16 2 7 = ((-338329500293589145078715728834274951898502581 : ℚ) / 1000000000000000000000000000000000000000000000) := rfl

lemma mI16_2_8 : idctM16 2 8 = ((-25000000000000173325894793612787918658060064199814060479 : ℚ) / 100000000000000000000000000000000000000000000000000000000) := rfl

lemma mI16_2_9 : idctM16 2 9 = ((-5131556594029475544098771366760923167056189 : ℚ) / 50000000000000000000000000000000000000000000) := rfl

lemma mI16_2_10 : idctM16 2 10 = ((344874224103681243305301742032340564937160425303409912261 : ℚ) / 5000000000000000000000000000000000000000000000000000000000) := rfl

lemma mI16_2_11 : idctM16 2 11 = ((897167586342637342577886754975152684011039227 : ℚ) / 4000000000000000000000000000000000000000000000) := rfl

lemma mI16_2_12 : idctM16 2 12 = ((1633203706095486323059749569712006526582046806224501308587527303929301 : ℚ) / 5000000000000000000000000000000000000000000000000000000000000000000000) := rfl

lemma mI16_2_13 : idctM16 2 13 = ((1407403737526382122176934404882000378699186963 : ℚ) / 4000000000000000000000000000000000000000000000) := rfl

lemma mI16_2_14 : idctM16 2 14 = ((2939689006048411346578676731731859420201249425835986396537 : ℚ) / 10000000000000000000000000000000000000000000000000000000000) := rfl

lemma mI16_2_15 : idctM16 2 15 = ((8333195730971812379267005466561589898903621 : ℚ) / 50000000000000000000000000000000000000000000) := rfl

lemma mI16_3_0 : idctM16 3 0 = ((10000000000000027594111146857 : ℚ) / 40000000000000000000000000000) := rfl

lemma mI16_3_1 : idctM16 3 1 = ((1093201867001754611605767438637 : ℚ) / 4000000000000000000000000000000) := rfl

lemma mI16_3_2 : idctM16 3 2 = ((2758993792829437613198137282384692028160151 : ℚ) / 40000000000000000000000000000000000000000000) := rfl

lemma mI16_3_3 : idctM16 3 3 = ((-666655658477744378593891338171 : ℚ) / 4000000000000000000000000000000) := rfl

lemma mI16_3_4 : idctM16 3 4 = ((-653281482438191802672183658292416551526883 : ℚ) / 2000000000000000000000000000000000000000000) := rfl

lemma mI16_3_5 : idctM16 3 5 = ((-1353318001174351158531349598099 : ℚ) / 4000000000000000000000000000000) := rfl

lemma mI16_3_6 : idctM16 3 6 = ((-3928474791935520840277004629439030088319207 : ℚ) / 20000000000000000000000000000000000000000000) := rfl

lemma mI16_3_7 : idctM16 3 7 = ((34654292299773334218490401207 : ℚ) / 1000000000000000000000000000000) := rfl

lemma mI16_3_8 : idctM16 3 8 = ((10000000000000027594111146857 : ℚ) / 40000000000000000000000000000) := rfl

lemma mI16_3_9 : idctM16 3 9 = ((351850934381595747590578260153 : ℚ) / 1000000000000000000000000000000) := rfl

lemma mI16_3_10 : idctM16 3 10 = ((73492225151210202795262925232823334124697 : ℚ) / 250000000000000000000000000000000000000000) := rfl

lemma mI16_3_11 : idctM16 3 11 = ((410524527522355849682439058881 : ℚ) / 4000000000000000000000000000000) := rfl

lemma mI16_3_12 : idctM16 3 12 = ((-5411961001461984933825339679711925037052829 : ℚ) / 40000000000000000000000000000000000000000000) := rfl

lemma mI16_3_13 : idctM16 3 13 = ((-1247225012986668144270951600729 : ℚ) / 4000000000000000000000000000000) := rfl

lemma mI16_3_14 : idctM16 3 14 = ((-277407969064430765482633138774968462499651 : ℚ) / 800000000000000000000000000000000000000000) := rfl

lemma mI16_3_15 : idctM16 3 15 = ((-897167586342634207208459781083 : ℚ) / 4000000000000000000000000000000) := rfl

lemma mI16_4_0 : idctM16 4 0 = ((10000000000000027594111146857 : ℚ) / 40000000000000000000000000000) := rfl

lemma mI16_4_1 : idctM16 4 1 = ((897167586342634207208459781083 : ℚ) / 4000000000000000000000000000000) := rfl

lemma mI16_4_2 : idctM16 4 2 = ((-2758993792829437613198137282384692028160151 : ℚ) / 40000000000000000000000000000000000000000000) := rfl

lemma mI16_4_3 : idctM16 4 3 = ((-1247225012986668144270951600729 : ℚ) / 4000000000000000000000000000000) := rfl

lemma mI16_4_4 : idctM16 4 4 = ((-653281482438191802672183658292416551526883 : ℚ) / 2000000000000000000000000000000000000000000) := rfl

lemma mI16_4_5 : idctM16 4 5 = ((-410524527522355849682439058881 : ℚ) / 4000000000000000000000000000000) := rfl

lemma mI16_4_6 : idctM16 4 6 = ((3928474791935520840277004629439030088319207 : ℚ) / 20000000000000000000000000000000000000000000) := rfl

lemma mI16_4_7 : idctM16 4 7 = ((351850934381595747590578260153 : ℚ) / 1000000000000000000000000000000) := rfl

lemma mI16_4_8 : idctM16 4 8 = ((10000000000000027594111146857 : ℚ) / 40000000000000000000000000000) := rfl

lemma mI16_4_9 : idctM16 4 9 = ((-34654292299773334218490401207 : ℚ) / 1000000000000000000000000000000) := rfl

lemma mI16_4_10 : idctM16 4 10 = ((-73492225151210202795262925232823334124697 : ℚ) / 250000000000000000000000000000000000000000) := rfl

lemma mI16_4_11 : idctM16 4 11 = ((-1353318001174351158531349598099 : ℚ) / 4000000000000000000000000000000) := rfl

lemma mI16_4_12 : idctM16 4 12 = ((-5411961001461984933825339679711925037052829 : ℚ) / 40000000000000000000000000000000000000000000) := rfl

lemma mI16_4_13 : idctM16 4 13 = ((666655658477744378593891338171 : ℚ) / 4000000000000000000000000000000) := rfl

lemma mI16_4_14 : idctM16 4 14 = ((277407969064430765482633138774968462499651 : ℚ) / 800000000000000000000000000000000000000000) := rfl

lemma mI16_4_15 : idctM16 4 15 = ((1093201867001754611605767438637 : ℚ) / 4000000000000000000000000000000) := rfl

lemma mI16_5_0 : idctM16 5 0 = ((100000000000000551882222937140761434969985097739820978449 : ℚ) / 400000000000000000000000000000000000000000000000000000000) := rfl

lemma mI16_5_1 : idctM16 5 1 = ((1041649466371476475517885632724416704783148981578502407498906777863471619 : ℚ) / 6250000000000000000000000000000000000000000000000000000000000000000000000) := rfl

lemma mI16_5_2 : idctM16 5 2 = ((-7856949583871055701362838741206749352359370830506547066253 : ℚ) / 40000000000000000000000000000000000000000000000000000000000) := rfl

lemma mI16_5_3 : idctM16 5 3 = ((-175925467190797753130442987074099911902357312510175595148835832870743622757 : ℚ) / 500000000000000000000000000000000000000000000000000000000000000000000000000) := rfl

lemma mI16_5_4 : idctM16 5 4 = ((-54119610014619998676506793594650586377327451463216839569051456486308453 : ℚ) / 400000000000000000000000000000000000000000000000000000000000000000000000) := rfl

lemma mI16_5_5 : idctM16 5 5 = ((112145948292829660082369948750994682448591698614512321728780131064498654653 : ℚ) / 500000000000000000000000000000000000000000000000000000000000000000000000000) := rfl

lemma mI16_5_6 : idctM16 5 6 = ((6935199226610755198193753802905748483962258330633698208949 : ℚ) / 20000000000000000000000000000000000000000000000000000000000) := rfl

lemma mI16_5_7 : idctM16 5 7 = ((641444574253684398742401230907387932640628331558497082572958610651904971 : ℚ) / 6250000000000000000000000000000000000000000000000000000000000000000000000) := rfl

lemma mI16_5_8 : idctM16 5 8 = ((-100000000000000551882222937140761434969985097739820978449 : ℚ) / 400000000000000000000000000000000000000000000000000000000) := rfl

lemma mI16_5_9 : idctM16 5 9 = ((-42291187536698640216070441601506095686973355636879321411975449280195735059 : ℚ) / 125000000000000000000000000000000000000000000000000000000000000000000000000) := rfl

lemma mI16_5_10 : idctM16 5 10 = ((-1379496896414723022317986806833978915719252514376997992491 : ℚ) / 20000000000000000000000000000000000000000000000000000000000) := rfl

lemma mI16_5_11 : idctM16 5 11 = ((2733004667504395613302305488308659935987348230032361140372279179507268201 : ℚ) / 10000000000000000000000000000000000000000000000000000000000000000000000000) := rfl

lemma mI16_5_12 : idctM16 5 12 = ((6532814824381936053443673165898074167134874335888286919446493596456731 : ℚ) / 20000000000000000000000000000000000000000000000000000000000000000000000) := rfl

lemma mI16_5_13 : idctM16 5 13 = ((1732714614988621055753104512690910434754650802291934001754947742483888557 : ℚ) / 50000000000000000000000000000000000000000000000000000000000000000000000000) := rfl

lemma mI16_5_14 : idctM16 5 14 = ((-11758756024193628756922460875951550351010776570228792443447 : ℚ) / 40000000000000000000000000000000000000000000000000000000000) := rfl

lemma mI16_5_15 : idctM16 5 15 = ((-155903126623333947576473492881775310799053929529707706507274945439321127909 : ℚ) / 500000000000000000000000000000000000000000000000000000000000000000000000000) := rfl

lemma mI16_6_0 : idctM16 6 0 = ((100000000000000551882222937140761434969985097739820978449 : ℚ) / 400000000000000000000000000000000000000000000000000000000) := rfl

lemma mI16_6_1 : idctM16 6 1 = ((1282889148507363156007283278392320291189914268112074198176797605625256881 : ℚ) / 12500000000000000000000000000000000000000000000000000000000000000000000000) := rfl

lemma mI16_6_2 : idctM16 6 2 = ((-11758756024193628756922460875951550351010776570228792443447 : ℚ) / 40000000000000000000000000000000000000000000000000000000000) := rfl

lemma mI16_6_3 : idctM16 6 3 = ((-136650233375219698953202919051546734516508476884689735814796700484907275243 : ℚ) / 500000000000000000000000000000000000000000000000000000000000000000000000000) := rfl

lemma mI16_6_4 : idctM16 6 4 = ((54119610014619998676506793594650586377327451463216839569051456486308453 : ℚ) / 400000000000000000000000000000000000000000000000000000000000000000000000) := rfl

lemma mI16_6_5 : idctM16 6 5 = ((175925467190797930159915359740914585186249313903999329280530449831636268947 : ℚ) / 500000000000000000000000000000000000000000000000000000000000000000000000000) := rfl

lemma mI16_6_6 : idctM16 6 6 = ((1379496896414723022317986806833978915719252514376997992491 : ℚ) / 20000000000000000000000000000000000000000000000000000000000) := rfl

lemma mI16_6_7 : idctM16 6 7 = ((-389757816558335354653921170191978378405114755569946051542709276446029763 : ℚ) / 1250000000000000000000000000000000000000000000000000000000000000000000000) := rfl

lemma mI16_6_8 : idctM16 6 8 = ((-100000000000000551882222937140761434969985097739820978449 : ℚ) / 400000000000000000000000000000000000000000000000000000000) := rfl

lemma mI16_6_9 : idctM16 6 9 = ((20832989327429720635529916406519982724618077853989636241056416820284980141 : ℚ) / 125000000000000000000000000000000000000000000000000000000000000000000000000) := rfl

lemma mI16_6_10 : idctM16 6 10 = ((6935199226610755198193753802905748483962258330633698208949 : ℚ) / 20000000000000000000000000000000000000000000000000000000000) := rfl

lemma mI16_6_11 : idctM16 6 11 = ((1732714614988673866833830507480031524060851051763500789123510169583116871 : ℚ) / 50000000000000000000000000000000000000000000000000000000000000000000000000) := rfl

lemma mI16_6_12 : idctM16 6 12 = ((-6532814824381936053443673165898074167134874335888286919446493596456731 : ℚ) / 20000000000000000000000000000000000000000000000000000000000000000000000) := rfl

lemma mI16_6_13 : idctM16 6 13 = ((-11214594829282940034321463415842792985430204856650910556867103826187120313 : ℚ) / 50000000000000000000000000000000000000000000000000000000000000000000000000) := rfl

lemma mI16_6_14 : idctM16 6 14 = ((7856949583871055701362838741206749352359370830506547066253 : ℚ) / 40000000000000000000000000000000000000000000000000000000000) := rfl

lemma mI16_6_15 : idctM16 6 15 = ((169164750146794073663680047934501058184624043512673154450243898902285842491 : ℚ) / 500000000000000000000000000000000000000000000000000000000000000000000000000) := rfl

lemma mI16_7_0 : idctM16 7 0 = ((10000000000000027594111146857 : ℚ) / 40000000000000000000000000000) := rfl

lemma mI16_7_1 : idctM16 7 1 = ((17327146149886373804149506999896027821922949 : ℚ) / 500000000000000000000000000000000000000000000) := rfl

lemma mI16_7_2 : idctM16 7 2 = ((-277407969064430765482633138774968462499651 : ℚ) / 800000000000000000000000000000000000000000) := rfl

lemma mI16_7_3 : idctM16 7 3 = ((-51315565940294621458404384804990805457208723 : ℚ) / 500000000000000000000000000000000000000000000) := rfl

lemma mI16_7_4 : idctM16 7 4 = ((653281482438191802672183658292416551526883 : ℚ) / 2000000000000000000000000000000000000000000) := rfl

lemma mI16_7_5 : idctM16 7 5 = ((83331957309718369248760795952320100066004933 : ℚ) / 500000000000000000000000000000000000000000000) := rfl

lemma mI16_7_6 : idctM16 7 6 = ((-73492225151210202795262925232823334124697 : ℚ) / 250000000000000000000000000000000000000000) := rfl

lemma mI16_7_7 : idctM16 7 7 = ((-28036487073207373065033526094778044842082301 : ℚ) / 125000000000000000000000000000000000000000000) := rfl

lemma mI16_7_8 : idctM16 7 8 = ((10000000000000027594111146857 : ℚ) / 40000000000000000000000000000) := rfl

lemma mI16_7_9 : idctM16 7 9 = ((854063958595124941055913241298646321248079 : ℚ) / 3125000000000000000000000000000000000000000) := rfl

lemma mI16_7_10 : idctM16 7 10 = ((-3928474791935520840277004629439030088319207 : ℚ) / 20000000000000000000000000000000000000000000) := rfl

lemma mI16_7_11 : idctM16 7 11 = ((-15590312662333373924018824450246335347028813 : ℚ) / 50000000000000000000000000000000000000000000) := rfl

lemma mI16_7_12 : idctM16 7 12 = ((5411961001461984933825339679711925037052829 : ℚ) / 40000000000000000000000000000000000000000000) := rfl

lemma mI16_7_13 : idctM16 7 13 = ((3383295002935874766498478039778873503664793 : ℚ) / 10000000000000000000000000000000000000000000) := rfl

lemma mI16_7_14 : idctM16 7 14 = ((-2758993792829437613198137282384692028160151 : ℚ) / 40000000000000000000000000000000000000000000) := rfl

lemma mI16_7_15 : idctM16 7 15 = ((-8796273359539874392916309323193408629402041 : ℚ) / 25000000000000000000000000000000000000000000) := rfl

lemma mI16_8_0 : idctM16 8 0 = ((10000000000000027594111146857 : ℚ) / 40000000000000000000000000000) := rfl

lemma mI16_8_1 : idctM16 8 1 = ((-17327146149886373804149506999896027821922949 : ℚ) / 500000000000000000000000000000000000000000000) := rfl

lemma mI16_8_2 : idctM16 8 2 = ((-277407969064430765482633138774968462499651 : ℚ) / 800000000000000000000000000000000000000000) := rfl

lemma mI16_8_3 : idctM16 8 3 = ((51315565940294621458404384804990805457208723 : ℚ) / 500000000000000000000000000000000000000000000) := rfl

lemma mI16_8_4 : idctM16 8 4 = ((653281482438191802672183658292416551526883 : ℚ) / 2000000000000000000000000000000000000000000) := rfl

lemma mI16_8_5 : idctM16 8 5 = ((-83331957309718369248760795952320100066004933 : ℚ) / 500000000000000000000000000000000000000000000) := rfl

lemma mI16_8_6 : idctM16 8 6 = ((-73492225151210202795262925232823334124697 : ℚ) / 250000000000000000000000000000000000000000) := rfl

lemma mI16_8_7 : idctM16 8 7 = ((28036487073207373065033526094778044842082301 : ℚ) / 125000000000000000000000000000000000000000000) := rfl

lemma mI16_8_8 : idctM16 8 8 = ((10000000000000027594111146857 : ℚ) / 40000000000000000000000000000) := rfl

lemma mI16_8_9 : idctM16 8 9 = ((-854063958595124941055913241298646321248079 : ℚ) / 3125000000000000000000000000000000000000000) := rfl

lemma mI16_8_10 : idctM16 8 10 = ((-3928474791935520840277004629439030088319207 : ℚ) / 20000000000000000000000000000000000000000000) := rfl

lemma mI16_8_11 : idctM16 8 11 = ((15590312662333373924018824450246335347028813 : ℚ) / 50000000000000000000000000000000000000000000) := rfl

lemma mI16_8_12 : idctM16 8 12 = ((5411961001461984933825339679711925037052829 : ℚ) / 40000000000000000000000000000000000000000000) := rfl

lemma mI16_8_13 : idctM16 8 13 = ((-3383295002935874766498478039778873503664793 : ℚ) / 10000000000000000000000000000000000000000000) := rfl

lemma mI16_8_14 : idctM16 8 14 = ((-2758993792829437613198137282384692028160151 : ℚ) / 40000000000000000000000000000000000000000000) := rfl

lemma mI16_8_15 : idctM16 8 15 = ((8796273359539874392916309323193408629402041 : ℚ) / 25000000000000000000000000000000000000000000) := rfl

lemma mI16_9_0 : idctM16 9 0 = ((100000000000000551882222937140761434969985097739820978449 : ℚ) / 400000000000000000000000000000000000000000000000000000000) := rfl

lemma mI16_9_1 : idctM16 9 1 = ((-1282889148507363156007283278392320291189914268112074198176797605625256881 : ℚ) / 12500000000000000000000000000000000000000000000000000000000000000000000000) := rfl

lemma mI16_9_2 : idctM16 9 2 = ((-11758756024193628756922460875951550351010776570228792443447 : ℚ) / 40000000000000000000000000000000000000000000000000000000000) := rfl

lemma mI16_9_3 : idctM16 9 3 = ((136650233375219698953202919051546734516508476884689735814796700484907275243 : ℚ) / 500000000000000000000000000000000000000000000000000000000000000000000000000) := rfl

lemma mI16_9_4 : idctM16 9 4 = ((54119610014619998676506793594650586377327451463216839569051456486308453 : ℚ) / 400000000000000000000000000000000000000000000000000000000000000000000000) := rfl

lemma mI16_9_5 : idctM16 9 5 = ((-175925467190797930159915359740914585186249313903999329280530449831636268947 : ℚ) / 500000000000000000000000000000000000000000000000000000000000000000000000000) := rfl

lemma mI16_9_6 : idctM16 9 6 = ((1379496896414723022317986806833978915719252514376997992491 : ℚ) / 20000000000000000000000000000000000000000000000000000000000) := rfl

lemma mI16_9_7 : idctM16 9 7 = ((389757816558335354653921170191978378405114755569946051542709276446029763 : ℚ) / 1250000000000000000000000000000000000000000000000000000000000000000000000) := rfl

lemma mI16_9_8 : idctM16 9 8 = ((-100000000000000551882222937140761434969985097739820978449 : ℚ) / 400000000000000000000000000000000000000000000000000000000) := rfl

lemma mI16_9_9 : idctM16 9 9 = ((-20832989327429720635529916406519982724618077853989636241056416820284980141 : ℚ) / 125000000000000000000000000000000000000000000000000000000000000000000000000) := rfl

lemma mI16_9_10 : idctM16 9 10 = ((6935199226610755198193753802905748483962258330633698208949 : ℚ) / 20000000000000000000000000000000000000000000000000000000000) := rfl

lemma mI16_9_11 : idctM16 9 11 = ((-1732714614988673866833830507480031524060851051763500789123510169583116871 : ℚ) / 50000000000000000000000000000000000000000000000000000000000000000000000000) := rfl

lemma mI16_9_12 : idctM16 9 12 = ((-6532814824381936053443673165898074167134874335888286919446493596456731 : ℚ) / 20000000000000000000000000000000000000000000000000000000000000000000000) := rfl

lemma mI16_9_13 : idctM16 9 13 = ((11214594829282940034321463415842792985430204856650910556867103826187120313 : ℚ) / 50000000000000000000000000000000000000000000000000000000000000000000000000) := rfl

lemma mI16_9_14 : idctM16 9 14 = ((7856949583871055701362838741206749352359370830506547066253 : ℚ) / 40000000000000000000000000000000000000000000000000000000000) := rfl

lemma mI16_9_15 : idctM16 9 15 = ((-169164750146794073663680047934501058184624043512673154450243898902285842491 : ℚ) / 500000000000000000000000000000000000000000000000000000000000000000000000000) := rfl

lemma mI16_10_0 : idctM16 10 0 = ((100000000000000551882222937140761434969985097739820978449 : ℚ) / 400000000000000000000000000000000000000000000000000000000) := rfl

lemma mI16_10_1 : idctM16 10 1 = ((-1041649466371476475517885632724416704783148981578502407498906777863471619 : ℚ) / 6250000000000000000000000000000000000000000000000000000000000000000000000) := rfl

lemma mI16_10_2 : idctM16 10 2 = ((-7856949583871055701362838741206749352359370830506547066253 : ℚ) / 40000000000000000000000000000000000000000000000000000000000) := rfl

lemma mI16_10_3 : idctM16 10 3 = ((175925467190797753130442987074099911902357312510175595148835832870743622757 : ℚ) / 500000000000000000000000000000000000000000000000000000000000000000000000000) := rfl

lemma mI16_10_4 : idctM16 10 4 = ((-54119610014619998676506793594650586377327451463216839569051456486308453 : ℚ) / 400000000000000000000000000000000000000000000000000000000000000000000000) := rfl

lemma mI16_10_5 : idctM16 10 5 = ((-112145948292829660082369948750994682448591698614512321728780131064498654653 : ℚ) / 500000000000000000000000000000000000000000000000000000000000000000000000000) := rfl

lemma mI16_10_6 : idctM16 10 6 = ((6935199226610755198193753802905748483962258330633698208949 : ℚ) / 20000000000000000000000000000000000000000000000000000000000) := rfl

lemma mI16_10_7 : idctM16 10 7 = ((-641444574253684398742401230907387932640628331558497082572958610651904971 : ℚ) / 6250000000000000000000000000000000000000000000000000000000000000000000000) := rfl

lemma mI16_10_8 : idctM16 10 8 = ((-100000000000000551882222937140761434969985097739820978449 : ℚ) / 400000000000000000000000000000000000000000000000000000000) := rfl

lemma mI16_10_9 : idctM16 10 9 = ((42291187536698640216070441601506095686973355636879321411975449280195735059 : ℚ) / 125000000000000000000000000000000000000000000000000000000000000000000000000) := rfl

lemma mI16_10_10 : idctM16 10 10 = ((-1379496896414723022317986806833978915719252514376997992491 : ℚ) / 20000000000000000000000000000000000000000000000000000000000) := rfl

lemma mI16_10_11 : idctM16 10 11 = ((-2733004667504395613302305488308659935987348230032361140372279179507268201 : ℚ) / 10000000000000000000000000000000000000000000000000000000000000000000000000) := rfl

lemma mI16_10_12 : idctM16 10 12 = ((6532814824381936053443673165898074167134874335888286919446493596456731 : ℚ) / 20000000000000000000000000000000000000000000000000000000000000000000000) := rfl

lemma mI16_10_13 : idctM16 10 13 = ((-1732714614988621055753104512690910434754650802291934001754947742483888557 : ℚ) / 50000000000000000000000000000000000000000000000000000000000000000000000000) := rfl

lemma mI16_10_14 : idctM16 10 14 = ((-11758756024193628756922460875951550351010776570228792443447 : ℚ) / 40000000000000000000000000000000000000000000000000000000000) := rfl

lemma mI16_10_15 : idctM16 10 15 = ((155903126623333947576473492881775310799053929529707706507274945439321127909 : ℚ) / 500000000000000000000000000000000000000000000000000000000000000000000000000) := rfl

lemma mI16_11_0 : idctM16 11 0 = ((10000000000000027594111146857 : ℚ) / 40000000000000000000000000000) := rfl

lemma mI16_11_1 : idctM16 11 1 = ((-897167586342634207208459781083 : ℚ) / 4000000000000000000000000000000) := rfl

lemma mI16_11_2 : idctM16 11 2 = ((-2758993792829437613198137282384692028160151 : ℚ) / 40000000000000000000000000000000000000000000) := rfl

lemma mI16_11_3 : idctM16 11 3 = ((1247225012986668144270951600729 : ℚ) / 4000000000000000000000000000000) := rfl

lemma mI16_11_4 : idctM16 11 4 = ((-653281482438191802672183658292416551526883 : ℚ) / 2000000000000000000000000000000000000000000) := rfl

lemma mI16_11_5 : idctM16 11 5 = ((410524527522355849682439058881 : ℚ) / 4000000000000000000000000000000) := rfl

lemma mI16_11_6 : idctM16 11 6 = ((3928474791935520840277004629439030088319207 : ℚ) / 20000000000000000000000000000000000000000000) := rfl

lemma mI16_11_7 : idctM16 11 7 = ((-351850934381595747590578260153 : ℚ) / 1000000000000000000000000000000) := rfl

lemma mI16_11_8 : idctM16 11 8 = ((10000000000000027594111146857 : ℚ) / 40000000000000000000000000000) := rfl

lemma mI16_11_9 : idctM16 11 9 = ((34654292299773334218490401207 : ℚ) / 1000000000000000000000000000000) := rfl

lemma mI16_11_10 : idctM16 11 10 = ((-73492225151210202795262925232823334124697 : ℚ) / 250000000000000000000000000000000000000000) := rfl

lemma mI16_11_11 : idctM16 11 11 = ((1353318001174351158531349598099 : ℚ) / 4000000000000000000000000000000) := rfl

lemma mI16_11_12 : idctM16 11 12 = ((-5411961001461984933825339679711925037052829 : ℚ) / 40000000000000000000000000000000000000000000) := rfl

lemma mI16_11_13 : idctM16 11 13 = ((-666655658477744378593891338171 : ℚ) / 4000000000000000000000000000000) := rfl

lemma mI16_11_14 : idctM16 11 14 = ((277407969064430765482633138774968462499651 : ℚ) / 800000000000000000000000000000000000000000) := rfl

lemma mI16_11_15 : idctM16 11 15 = ((-1093201867001754611605767438637 : ℚ) / 4000000000000000000000000000000) := rfl

lemma mI16_12_0 : idctM16 12 0 = ((10000000000000027594111146857 : ℚ) / 40000000000000000000000000000) := rfl

lemma mI16_12_1 : idctM16 12 1 = ((-1093201867001754611605767438637 : ℚ) / 4000000000000000000000000000000) := rfl

lemma mI16_12_2 : idctM16 12 2 = ((2758993792829437613198137282384692028160151 : ℚ) / 40000000000000000000000000000000000000000000) := rfl

lemma mI16_12_3 : idctM16 12 3 = ((666655658477744378593891338171 : ℚ) / 4000000000000000000000000000000) := rfl

lemma mI16_12_4 : idctM16 12 4 = ((-653281482438191802672183658292416551526883 : ℚ) / 2000000000000000000000000000000000000000000) := rfl

lemma mI16_12_5 : idctM16 12 5 = ((1353318001174351158531349598099 : ℚ) / 4000000000000000000000000000000) := rfl

lemma mI16_12_6 : idctM16 12 6 = ((-3928474791935520840277004629439030088319207 : ℚ) / 20000000000000000000000000000000000000000000) := rfl

lemma mI16_12_7 : idctM16 12 7 = ((-34654292299773334218490401207 : ℚ) / 1000000000000000000000000000000) := rfl

lemma mI16_12_8 : idctM16 12 8 = ((10000000000000027594111146857 : ℚ) / 40000000000000000000000000000) := rfl

lemma mI16_12_9 : idctM16 12 9 = ((-351850934381595747590578260153 : ℚ) / 1000000000000000000000000000000) := rfl

lemma mI16_12_10 : idctM16 12 10 = ((73492225151210202795262925232823334124697 : ℚ) / 250000000000000000000000000000000000000000) := rfl

lemma mI16_12_11 : idctM16 12 11 = ((-410524527522355849682439058881 : ℚ) / 4000000000000000000000000000000) := rfl

lemma mI16_12_12 : idctM16 12 12 = ((-5411961001461984933825339679711925037052829 : ℚ) / 40000000000000000000000000000000000000000000) := rfl

lemma mI16_12_13 : idctM16 12 13 = ((1247225012986668144270951600729 : ℚ) / 4000000000000000000000000000000) := rfl

lemma mI16_12_14 : idctM16 12 14 = ((-277407969064430765482633138774968462499651 : ℚ) / 800000000000000000000000000000000000000000) := rfl

lemma mI16_12_15 : idctM16 12 15 = ((897167586342634207208459781083 : ℚ) / 4000000000000000000000000000000) := rfl

lemma mI16_13_0 : idctM16 13 0 = ((25000000000000173325894793612787918658060064199814060479 : ℚ) / 100000000000000000000000000000000000000000000000000000000) := rfl

lemma mI16_13_1 : idctM16 13 1 = ((-1247225012986671666690281987034610686943395731 : ℚ) / 4000000000000000000000000000000000000000000000) := rfl

lemma mI16_13_2 : idctM16 13 2 = ((1964237395967766703191874783326852571469756798559410972163 : ℚ) / 10000000000000000000000000000000000000000000000000000000000) := rfl

lemma mI16_13_3 : idctM16 13 3 = ((-13861716919908969402705230501601447916289163 : ℚ) / 400000000000000000000000000000000000000000000) := rfl

lemma mI16_13_4 : idctM16 13 4 = ((-13529902503655018803298316653271572846668095654741397462219148099848363 : ℚ) / 100000000000000000000000000000000000000000000000000000000000000000000000) := rfl

lemma mI16_13_5 : idctM16 13 5 = ((21864037340035166415387064929221615787963759 : ℚ) / 80000000000000000000000000000000000000000000) := rfl

lemma mI16_13_6 : idctM16 13 6 = ((-1733799806652691251511639458810703095500226598882629125979 : ℚ) / 5000000000000000000000000000000000000000000000000000000000) := rfl

lemma mI16_13_7 : idctM16 13 7 = ((338329500293589145078715728834274951898502581 : ℚ) / 1000000000000000000000000000000000000000000000) := rfl

lemma mI16_13_8 : idctM16 13 8 = ((-25000000000000173325894793612787918658060064199814060479 : ℚ) / 100000000000000000000000000000000000000000000000000000000) := rfl

lemma mI16_13_9 : idctM16 13 9 = ((5131556594029475544098771366760923167056189 : ℚ) / 50000000000000000000000000000000000000000000) := rfl

lemma mI16_13_10 : idctM16 13 10 = ((344874224103681243305301742032340564937160425303409912261 : ℚ) / 5000000000000000000000000000000000000000000000000000000000) := rfl

lemma mI16_13_11 : idctM16 13 11 = ((-897167586342637342577886754975152684011039227 : ℚ) / 4000000000000000000000000000000000000000000000) := rfl

lemma mI16_13_12 : idctM16 13 12 = ((1633203706095486323059749569712006526582046806224501308587527303929301 : ℚ) / 5000000000000000000000000000000000000000000000000000000000000000000000) := rfl

lemma mI16_13_13 : idctM16 13 13 = ((-1407403737526382122176934404882000378699186963 : ℚ) / 4000000000000000000000000000000000000000000000) := rfl

lemma mI16_13_14 : idctM16 13 14 = ((2939689006048411346578676731731859420201249425835986396537 : ℚ) / 10000000000000000000000000000000000000000000000000000000000) := rfl

lemma mI16_13_15 : idctM16 13 15 = ((-8333195730971812379267005466561589898903621 : ℚ) / 50000000000000000000000000000000000000000000) := rfl

lemma mI16_14_0 : idctM16 14 0 = ((25000000000000173325894793612787918658060064199814060479 : ℚ) / 100000000000000000000000000000000000000000000000000000000) := rfl

lemma mI16_14_1 : idctM16 14 1 = ((-1353318001174352682710049167564644213954817869 : ℚ) / 4000000000000000000000000000000000000000000000) := rfl

lemma mI16_14_2 : idctM16 14 2 = ((2939689006048411346578676731731859420201249425835986396537 : ℚ) / 10000000000000000000000000000000000000000000000000000000000) := rfl

lemma mI16_14_3 : idctM16 14 3 = ((-89716758634263526466464423823447525397547167 : ℚ) / 400000000000000000000000000000000000000000000) := rfl

lemma mI16_14_4 : idctM16 14 4 = ((13529902503655018803298316653271572846668095654741397462219148099848363 : ℚ) / 100000000000000000000000000000000000000000000000000000000000000000000000) := rfl

lemma mI16_14_5 : idctM16 14 5 = ((-13861716919909391891351038459943575111368289 : ℚ) / 400000000000000000000000000000000000000000000) := rfl

lemma mI16_14_6 : idctM16 14 6 = ((-344874224103681243305301742032340564937160425303409912261 : ℚ) / 5000000000000000000000000000000000000000000000000000000000) := rfl

lemma mI16_14_7 : idctM16 14 7 = ((166663914619437776586717739347590512584174219 : ℚ) / 1000000000000000000000000000000000000000000000) := rfl

lemma mI16_14_8 : idctM16 14 8 = ((-25000000000000173325894793612787918658060064199814060479 : ℚ) / 100000000000000000000000000000000000000000000000000000000) := rfl

lemma mI16_14_9 : idctM16 14 9 = ((3118062532466683052427604471487115704259717 : ℚ) / 10000000000000000000000000000000000000000000) := rfl

lemma mI16_14_10 : idctM16 14 10 = ((-1733799806652691251511639458810703095500226598882629125979 : ℚ) / 5000000000000000000000000000000000000000000000000000000000) := rfl

lemma mI16_14_11 : idctM16 14 11 = ((1407403737526383538412713386216615507913093173 : ℚ) / 4000000000000000000000000000000000000000000000) := rfl

lemma mI16_14_12 : idctM16 14 12 = ((-1633203706095486323059749569712006526582046806224501308587527303929301 : ℚ) / 5000000000000000000000000000000000000000000000000000000000000000000000) := rfl

lemma mI16_14_13 : idctM16 14 13 = ((1093201867001757667074054403549945575693995037 : ℚ) / 4000000000000000000000000000000000000000000000) := rfl

lemma mI16_14_14 : idctM16 14 14 = ((-1964237395967766703191874783326852571469756798559410972163 : ℚ) / 10000000000000000000000000000000000000000000000000000000000) := rfl

lemma mI16_14_15 : idctM16 14 15 = ((10263113188058905956377389266139086923227879 : ℚ) / 100000000000000000000000000000000000000000000) := rfl

lemma mI16_15_0 : idctM16 15 0 = ((2500000000000010434061692647 : ℚ) / 10000000000000000000000000000) := rfl

lemma mI16_15_1 : idctM16 15 1 = ((-70370186876319 : ℚ) / 200000000000000) := rfl

lemma mI16_15_2 : idctM16 15 2 = ((69351992266107789449186325017309880024621 : ℚ) / 200000000000000000000000000000000000000000) := rfl

lemma mI16_15_3 : idctM16 15 3 = ((-27066360023487 : ℚ) / 80000000000000) := rfl

lemma mI16_15_4 : idctM16 15 4 = ((163320370609548181637929042396215595498893 : ℚ) / 500000000000000000000000000000000000000000) := rfl

lemma mI16_15_5 : idctM16 15 5 = ((-124722501298667 : ℚ) / 400000000000000) := rfl

lemma mI16_15_6 : idctM16 15 6 = ((18373056287802576682241115762863812015287 : ℚ) / 62500000000000000000000000000000000000000) := rfl

lemma mI16_15_7 : idctM16 15 7 = ((-6832511668761 : ℚ) / 25000000000000) := rfl

lemma mI16_15_8 : idctM16 15 8 = ((2500000000000010434061692647 : ℚ) / 10000000000000000000000000000) := rfl

lemma mI16_15_9 : idctM16 15 9 = ((-224291896585659 : ℚ) / 1000000000000000) := rfl

lemma mI16_15_10 : idctM16 15 10 = ((982118697983881598994833706369861586519497 : ℚ) / 5000000000000000000000000000000000000000000) := rfl

lemma mI16_15_11 : idctM16 15 11 = ((-666655658477747 : ℚ) / 4000000000000000) := rfl

lemma mI16_15_12 : idctM16 15 12 = ((1352990250365498146873496745383593979913459 : ℚ) / 10000000000000000000000000000000000000000000) := rfl

lemma mI16_15_13 : idctM16 15 13 = ((-410524527522357 : ℚ) / 4000000000000000) := rfl

lemma mI16_15_14 : idctM16 15 14 = ((689748448207360378751144401240883715620121 : ℚ) / 10000000000000000000000000000000000000000000) := rfl

lemma mI16_15_15 : idctM16 15 15 = ((-138617169199091 : ℚ) / 4000000000000000) := rfl



lemma fdct8v_row_0 (s : ℕ → ℚ) :
    fdct8v s 0 = ∑ l ∈ Finset.range 8, fdctM8 0 l * s l := by
  simp only [Finset.sum_range_succ, Finset.sum_range_zero, fdct8v, Nat.reduceEqDiff, if_false, if_true, ite_false, ite_true,
    mF8_0_0, mF8_0_1, mF8_0_2, mF8_0_3, mF8_0_4, mF8_0_5, mF8_0_6, mF8_0_7]
  ring

lemma fdct8v_row_1 (s : ℕ → ℚ) :
    fdct8v s 1 = ∑ l ∈ Finset.range 8, fdctM8 1 l * s l := by
  simp only [Finset.sum_range_succ, Finset.sum_range_zero, fdct8v, Nat.reduceEqDiff, if_false, if_true, ite_false, ite_true,
    mF8_1_0, mF8_1_1, mF8_1_2, mF8_1_3, mF8_1_4, mF8_1_5, mF8_1_6, mF8_1_7]
  ring

lemma fdct8v_row_2 (s : ℕ → ℚ) :
    fdct8v s 2 = ∑ l ∈ Finset.range 8, fdctM8 2 l * s l := by
  simp only [Finset.sum_range_succ, Finset.sum_range_zero, fdct8v, Nat.reduceEqDiff, if_false, if_true, ite_false, ite_true,
    mF8_2_0, mF8_2_1, mF8_2_2, mF8_2_3, mF8_2_4, mF8_2_5, mF8_2_6, mF8_2_7]
  ring

lemma fdct8v_row_3 (s : ℕ → ℚ) :
    fdct8v s 3 = ∑ l ∈ Finset.range 8, fdctM8 3 l * s l := by
  simp only [Finset.sum_range_succ, Finset.sum_range_zero, fdct8v, Nat.reduceEqDiff, if_false, if_true, ite_false, ite_true,
    mF8_3_0, mF8_3_1, mF8_3_2, mF8_3_3, mF8_3_4, mF8_3_5, mF8_3_6, mF8_3_7]
  ring

lemma fdct8v_row_4 (s : ℕ → ℚ) :
    fdct8v s 4 = ∑ l ∈ Finset.range 8, fdctM8 4 l * s l := by
  simp only [Finset.sum_range_succ, Finset.sum_range_zero, fdct8v, Nat.reduceEqDiff, if_false, if_true, ite_false, ite_true,
    mF8_4_0, mF8_4_1, mF8_4_2, mF8_4_3, mF8_4_4, mF8_4_5, mF8_4_6, mF8_4_7]
  ring

lemma fdct8v_row_5 (s : ℕ → ℚ) :
    fdct8v s 5 = ∑ l ∈ Finset.range 8, fdctM8 5 l * s l := by
  simp only [Finset.sum_range_succ, Finset.sum_range_zero, fdct8v, Nat.reduceEqDiff, if_false, if_true, ite_false, ite_true,
    mF8_5_0, mF8_5_1, mF8_5_2, mF8_5_3, mF8_5_4, mF8_5_5, mF8_5_6, mF8_5_7]
  ring

lemma fdct8v_row_6 (s : ℕ → ℚ) :
    fdct8v s 6 = ∑ l ∈ Finset.range 8, fdctM8 6 l * s l := by
  simp only [Finset.sum_range_succ, Finset.sum_range_zero, fdct8v, Nat.reduceEqDiff, if_false, if_true, ite_false, ite_true,
    mF8_6_0, mF8_6_1, mF8_6_2, mF8_6_3, mF8_6_4, mF8_6_5, mF8_6_6, mF8_6_7]
  ring

lemma fdct8v_row_7 (s : ℕ → ℚ) :
    fdct8v s 7 = ∑ l ∈ Finset.range 8, fdctM8 7 l * s l := by
  simp only [Finset.sum_range_succ, Finset.sum_range_zero, fdct8v, Nat.reduceEqDiff, if_false, if_true, ite_false, ite_true,
    mF8_7_0, mF8_7_1, mF8_7_2, mF8_7_3, mF8_7_4, mF8_7_5, mF8_7_6, mF8_7_7]
  ring

/-- The 8-point butterfly `fdct8v` computes the linear map with matrix
`fdctM8`. -/
lemma fdct8v_matrix (s : ℕ → ℚ) (i : ℕ) (hi : i < 8) :
    fdct8v s i = ∑ l ∈ Finset.range 8, fdctM8 i l * s l := by
  interval_cases i
  exacts [fdct8v_row_0 s, fdct8v_row_1 s, fdct8v_row_2 s, fdct8v_row_3 s, fdct8v_row_4 s, fdct8v_row_5 s, fdct8v_row_6 s, fdct8v_row_7 s]

lemma idct8v_row_0 (s : ℕ → ℚ) :
    idct8v s 0 = ∑ l ∈ Finset.range 8, idctM8 0 l * s l := by
  simp only [Finset.sum_range_succ, Finset.sum_range_zero, idct8v, Nat.reduceEqDiff, if_false, if_true, ite_false, ite_true,
    mI8_0_0, mI8_0_1, mI8_0_2, mI8_0_3, mI8_0_4, mI8_0_5, mI8_0_6, mI8_0_7]
  ring

lemma idct8v_row_1 (s : ℕ → ℚ) :
    idct8v s 1 = ∑ l ∈ Finset.range 8, idctM8 1 l * s l := by
  simp only [Finset.sum_range_succ, Finset.sum_range_zero, idct8v, Nat.reduceEqDiff, if_false, if_true, ite_false, ite_true,
    mI8_1_0, mI8_1_1, mI8_1_2, mI8_1_3, mI8_1_4, mI8_1_5, mI8_1_6, mI8_1_7]
  ring

lemma idct8v_row_2 (s : ℕ → ℚ) :
    idct8v s 2 = ∑ l ∈ Finset.range 8, idctM8 2 l * s l := by
  simp only [Finset.sum_range_succ, Finset.sum_range_zero, idct8v, Nat.reduceEqDiff, if_false, if_true, ite_false, ite_true,
    mI8_2_0, mI8_2_1, mI8_2_2, mI8_2_3, mI8_2_4, mI8_2_5, mI8_2_6, mI8_2_7]
  ring

lemma idct8v_row_3 (s : ℕ → ℚ) :
    idct8v s 3 = ∑ l ∈ Finset.range 8, idctM8 3 l * s l := by
  simp only [Finset.sum_range_succ, Finset.sum_range_zero, idct8v, Nat.reduceEqDiff, if_false, if_true, ite_false, ite_true,
    mI8_3_0, mI8_3_1, mI8_3_2, mI8_3_3, mI8_3_4, mI8_3_5, mI8_3_6, mI8_3_7]
  ring

lemma idct8v_row_4 (s : ℕ → ℚ) :
    idct8v s 4 = ∑ l ∈ Finset.range 8, idctM8 4 l * s l := by
  simp only [Finset.sum_range_succ, Finset.sum_range_zero, idct8v, Nat.reduceEqDiff, if_false, if_true, ite_false, ite_true,
    mI8_4_0, mI8_4_1, mI8_4_2, mI8_4_3, mI8_4_4, mI8_4_5, mI8_4_6, mI8_4_7]
  ring

lemma idct8v_row_5 (s : ℕ → ℚ) :
    idct8v s 5 = ∑ l ∈ Finset.range 8, idctM8 5 l * s l := by
  simp only [Finset.sum_range_succ, Finset.sum_range_zero, idct8v, Nat.reduceEqDiff, if_false, if_true, ite_false, ite_true,
    mI8_5_0, mI8_5_1, mI8_5_2, mI8_5_3, mI8_5_4, mI8_5_5, mI8_5_6, mI8_5_7]
  ring

lemma idct8v_row_6 (s : ℕ → ℚ) :
    idct8v s 6 = ∑ l ∈ Finset.range 8, idctM8 6 l * s l := by
  simp only [Finset.sum_range_succ, Finset.sum_range_zero, idct8v, Nat.reduceEqDiff, if_false, if_true, ite_false, ite_true,
    mI8_6_0, mI8_6_1, mI8_6_2, mI8_6_3, mI8_6_4, mI8_6_5, mI8_6_6, mI8_6_7]
  ring

lemma idct8v_row_7 (s : ℕ → ℚ) :
    idct8v s 7 = ∑ l ∈ Finset.range 8, idctM8 7 l * s l := by
  simp only [Finset.sum_range_succ, Finset.sum_range_zero, idct8v, Nat.reduceEqDiff, if_false, if_true, ite_false, ite_true,
    mI8_7_0, mI8_7_1, mI8_7_2, mI8_7_3, mI8_7_4, mI8_7_5, mI8_7_6, mI8_7_7]
  ring

/-- The 8-point butterfly `idct8v` computes the linear map with matrix
`idctM8`. -/
lemma idct8v_matrix (s : ℕ → ℚ) (i : ℕ) (hi : i < 8) :
    idct8v s i = ∑ l ∈ Finset.range 8, idctM8 i l * s l := by
  interval_cases i
  exacts [idct8v_row_0 s, idct8v_row_1 s, idct8v_row_2 s, idct8v_row_3 s, idct8v_row_4 s, idct8v_row_5 s, idct8v_row_6 s, idct8v_row_7 s]

lemma fdct16v_row_0 (s : ℕ → ℚ) :
    fdct16v s 0 = ∑ l ∈ Finset.range 16, fdctM16 0 l * s l := by
  simp only [Finset.sum_range_succ, Finset.sum_range_zero, fdct16v, Nat.reduceEqDiff, if_false, if_true, ite_false, ite_true,
    mF16_0_0, mF16_0_1, mF16_0_2, mF16_0_3, mF16_0_4, mF16_0_5, mF16_0_6, mF16_0_7, mF16_0_8, mF16_0_9, mF16_0_10, mF16_0_11, mF16_0_12, mF16_0_13, mF16_0_14, mF16_0_15]
  ring

lemma fdct16v_row_1 (s : ℕ → ℚ) :
    fdct16v s 1 = ∑ l ∈ Finset.range 16, fdctM16 1 l * s l := by
  simp only [Finset.sum_range_succ, Finset.sum_range_zero, fdct16v, Nat.reduceEqDiff, if_false, if_true, ite_false, ite_true,
    mF16_1_0, mF16_1_1, mF16_1_2, mF16_1_3, mF16_1_4, mF16_1_5, mF16_1_6, mF16_1_7, mF16_1_8, mF16_1_9, mF16_1_10, mF16_1_11, mF16_1_12, mF16_1_13, mF16_1_14, mF16_1_15]
  ring

lemma fdct16v_row_2 (s : ℕ → ℚ) :
    fdct16v s 2 = ∑ l ∈ Finset.range 16, fdctM16 2 l * s l := by
  simp only [Finset.sum_range_succ, Finset.sum_range_zero, fdct16v, Nat.reduceEqDiff, if_false, if_true, ite_false, ite_true,
    mF16_2_0, mF16_2_1, mF16_2_2, mF16_2_3, mF16_2_4, mF16_2_5, mF16_2_6, mF16_2_7, mF16_2_8, mF16_2_9, mF16_2_10, mF16_2_11, mF16_2_12, mF16_2_13, mF16_2_14, mF16_2_15]
  ring

lemma fdct16v_row_3 (s : ℕ → ℚ) :
    fdct16v s 3 = ∑ l ∈ Finset.range 16, fdctM16 3 l * s l := by
  simp only [Finset.sum_range_succ, Finset.sum_range_zero, fdct16v, Nat.reduceEqDiff, if_false, if_true, ite_false, ite_true,
    mF16_3_0, mF16_3_1, mF16_3_2, mF16_3_3, mF16_3_4, mF16_3_5, mF16_3_6, mF16_3_7, mF16_3_8, mF16_3_9, mF16_3_10, mF16_3_11, mF16_3_12, mF16_3_13, mF16_3_14, mF16_3_15]
  ring

lemma fdct16v_row_4 (s : ℕ → ℚ) :
    fdct16v s 4 = ∑ l ∈ Finset.range 16, fdctM16 4 l * s l := by
  simp only [Finset.sum_range_succ, Finset.sum_range_zero, fdct16v, Nat.reduceEqDiff, if_false, if_true, ite_false, ite_true,
    mF16_4_0, mF16_4_1, mF16_4_2, mF16_4_3, mF16_4_4, mF16_4_5, mF16_4_6, mF16_4_7, mF16_4_8, mF16_4_9, mF16_4_10, mF16_4_11, mF16_4_12, mF16_4_13, mF16_4_14, mF16_4_15]
  ring

lemma fdct16v_row_5 (s : ℕ → ℚ) :
    fdct16v s 5 = ∑ l ∈ Finset.range 16, fdctM16 5 l * s l := by
  simp only [Finset.sum_range_succ, Finset.sum_range_zero, fdct16v, Nat.reduceEqDiff, if_false, if_true, ite_false, ite_true,
    mF16_5_0, mF16_5_1, mF16_5_2, mF16_5_3, mF16_5_4, mF16_5_5, mF16_5_6, mF16_5_7, mF16_5_8, mF16_5_9, mF16_5_10, mF16_5_11, mF16_5_12, mF16_5_13, mF16_5_14, mF16_5_15]
  ring

lemma fdct16v_row_6 (s : ℕ → ℚ) :
    fdct16v s 6 = ∑ l ∈ Finset.range 16, fdctM16 6 l * s l := by
  simp only [Finset.sum_range_succ, Finset.sum_range_zero, fdct16v, Nat.reduceEqDiff, if_false, if_true, ite_false, ite_true,
    mF16_6_0, mF16_6_1, mF16_6_2, mF16_6_3, mF16_6_4, mF16_6_5, mF16_6_6, mF16_6_7, mF16_6_8, mF16_6_9, mF16_6_10, mF16_6_11, mF16_6_12, mF16_6_13, mF16_6_14, mF16_6_15]
  ring

lemma fdct16v_row_7 (s : ℕ → ℚ) :
    fdct16v s 7 = ∑ l ∈ Finset.range 16, fdctM16 7 l * s l := by
  simp only [Finset.sum_range_succ, Finset.sum_range_zero, fdct16v, Nat.reduceEqDiff, if_false, if_true, ite_false, ite_true,
    mF16_7_0, mF16_7_1, mF16_7_2, mF16_7_3, mF16_7_4, mF16_7_5, mF16_7_6, mF16_7_7, mF16_7_8, mF16_7_9, mF16_7_10, mF16_7_11, mF16_7_12, mF16_7_13, mF16_7_14, mF16_7_15]
  ring

lemma fdct16v_row_8 (s : ℕ → ℚ) :
    fdct16v s 8 = ∑ l ∈ Finset.range 16, fdctM16 8 l * s l := by
  simp only [Finset.sum_range_succ, Finset.sum_range_zero, fdct16v, Nat.reduceEqDiff, if_false, if_true, ite_false, ite_true,
    mF16_8_0, mF16_8_1, mF16_8_2, mF16_8_3, mF16_8_4, mF16_8_5, mF16_8_6, mF16_8_7, mF16_8_8, mF16_8_9, mF16_8_10, mF16_8_11, mF16_8_12, mF16_8_13, mF16_8_14, mF16_8_15]
  ring

lemma fdct16v_row_9 (s : ℕ → ℚ) :
    fdct16v s 9 = ∑ l ∈ Finset.range 16, fdctM16 9 l * s l := by
  simp only [Finset.sum_range_succ, Finset.sum_range_zero, fdct16v, Nat.reduceEqDiff, if_false, if_true, ite_false, ite_true,
    mF16_9_0, mF16_9_1, mF16_9_2, mF16_9_3, mF16_9_4, mF16_9_5, mF16_9_6, mF16_9_7, mF16_9_8, mF16_9_9, mF16_9_10, mF16_9_11, mF16_9_12, mF16_9_13, mF16_9_14, mF16_9_15]
  ring

lemma fdct16v_row_10 (s : ℕ → ℚ) :
    fdct16v s 10 = ∑ l ∈ Finset.range 16, fdctM16 10 l * s l := by
  simp only [Finset.sum_range_succ, Finset.sum_range_zero, fdct16v, Nat.reduceEqDiff, if_false, if_true, ite_false, ite_true,
    mF16_10_0, mF16_10_1, mF16_10_2, mF16_10_3, mF16_10_4, mF16_10_5, mF16_10_6, mF16_10_7, mF16_10_8, mF16_10_9, mF16_10_10, mF16_10_11, mF16_10_12, mF16_10_13, mF16_10_14, mF16_10_15]
  ring

lemma fdct16v_row_11 (s : ℕ → ℚ) :
    fdct16v s 11 = ∑ l ∈ Finset.range 16, fdctM16 11 l * s l := by
  simp only [Finset.sum_range_succ, Finset.sum_range_zero, fdct16v, Nat.reduceEqDiff, if_false, if_true, ite_false, ite_true,
    mF16_11_0, mF16_11_1, mF16_11_2, mF16_11_3, mF16_11_4, mF16_11_5, mF16_11_6, mF16_11_7, mF16_11_8, mF16_11_9, mF16_11_10, mF16_11_11, mF16_11_12, mF16_11_13, mF16_11_14, mF16_11_15]
  ring

lemma fdct16v_row_12 (s : ℕ → ℚ) :
    fdct16v s 12 = ∑ l ∈ Finset.range 16, fdctM16 12 l * s l := by
  simp only [Finset.sum_range_succ, Finset.sum_range_zero, fdct16v, Nat.reduceEqDiff, if_false, if_true, ite_false, ite_true,
    mF16_12_0, mF16_12_1, mF16_12_2, mF16_12_3, mF16_12_4, mF16_12_5, mF16_12_6, mF16_12_7, mF16_12_8, mF16_12_9, mF16_12_10, mF16_12_11, mF16_12_12, mF16_12_13, mF16_12_14, mF16_12_15]
  ring

lemma fdct16v_row_13 (s : ℕ → ℚ) :
    fdct16v s 13 = ∑ l ∈ Finset.range 16, fdctM16 13 l * s l := by
  simp only [Finset.sum_range_succ, Finset.sum_range_zero, fdct16v, Nat.reduceEqDiff, if_false, if_true, ite_false, ite_true,
    mF16_13_0, mF16_13_1, mF16_13_2, mF16_13_3, mF16_13_4, mF16_13_5, mF16_13_6, mF16_13_7, mF16_13_8, mF16_13_9, mF16_13_10, mF16_13_11, mF16_13_12, mF16_13_13, mF16_13_14, mF16_13_15]
  ring

lemma fdct16v_row_14 (s : ℕ → ℚ) :
    fdct16v s 14 = ∑ l ∈ Finset.range 16, fdctM16 14 l * s l := by
  simp only [Finset.sum_range_succ, Finset.sum_range_zero, fdct16v, Nat.reduceEqDiff, if_false, if_true, ite_false, ite_true,
    mF16_14_0, mF16_14_1, mF16_14_2, mF16_14_3, mF16_14_4, mF16_14_5, mF16_14_6, mF16_14_7, mF16_14_8, mF16_14_9, mF16_14_10, mF16_14_11, mF16_14_12, mF16_14_13, mF16_14_14, mF16_14_15]
  ring

lemma fdct16v_row_15 (s : ℕ → ℚ) :
    fdct16v s 15 = ∑ l ∈ Finset.range 16, fdctM16 15 l * s l := by
  simp only [Finset.sum_range_succ, Finset.sum_range_zero, fdct16v, Nat.reduceEqDiff, if_false, if_true, ite_false, ite_true,
    mF16_15_0, mF16_15_1, mF16_15_2, mF16_15_3, mF16_15_4, mF16_15_5, mF16_15_6, mF16_15_7, mF16_15_8, mF16_15_9, mF16_15_10, mF16_15_11, mF16_15_12, mF16_15_13, mF16_15_14, mF16_15_15]
  ring

/-- The 16-point butterfly `fdct16v` computes the linear map with matrix
`fdctM16`. -/
lemma fdct16v_matrix (s : ℕ → ℚ) (i : ℕ) (hi : i < 16) :
    fdct16v s i = ∑ l ∈ Finset.range 16, fdctM16 i l * s l := by
  interval_cases i
  exacts [fdct16v_row_0 s, fdct16v_row_1 s, fdct16v_row_2 s, fdct16v_row_3 s, fdct16v_row_4 s, fdct16v_row_5 s, fdct16v_row_6 s, fdct16v_row_7 s, fdct16v_row_8 s, fdct16v_row_9 s, fdct16v_row_10 s, fdct16v_row_11 s, fdct16v_row_12 s, fdct16v_row_13 s, fdct16v_row_14 s, fdct16v_row_15 s]

lemma idct16v_row_0 (s : ℕ → ℚ) :
    idct16v s 0 = ∑ l ∈ Finset.range 16, idctM16 0 l * s l := by
  simp only [Finset.sum_range_succ, Finset.sum_range_zero, idct16v, Nat.reduceEqDiff, if_false, if_true, ite_false, ite_true,
    mI16_0_0, mI16_0_1, mI16_0_2, mI16_0_3, mI16_0_4, mI16_0_5, mI16_0_6, mI16_0_7, mI16_0_8, mI16_0_9, mI16_0_10, mI16_0_11, mI16_0_12, mI16_0_13, mI16_0_14, mI16_0_15]
  ring

lemma idct16v_row_1 (s : ℕ → ℚ) :
    idct16v s 1 = ∑ l ∈ Finset.range 16, idctM16 1 l * s l := by
  simp only [Finset.sum_range_succ, Finset.sum_range_zero, idct16v, Nat.reduceEqDiff, if_false, if_true, ite_false, ite_true,
    mI16_1_0, mI16_1_1, mI16_1_2, mI16_1_3, mI16_1_4, mI16_1_5, mI16_1_6, mI16_1_7, mI16_1_8, mI16_1_9, mI16_1_10, mI16_1_11, mI16_1_12, mI16_1_13, mI16_1_14, mI16_1_15]
  ring

lemma idct16v_row_2 (s : ℕ → ℚ) :
    idct16v s 2 = ∑ l ∈ Finset.range 16, idctM16 2 l * s l := by
  simp only [Finset.sum_range_succ, Finset.sum_range_zero, idct16v, Nat.reduceEqDiff, if_false, if_true, ite_false, ite_true,
    mI16_2_0, mI16_2_1, mI16_2_2, mI16_2_3, mI16_2_4, mI16_2_5, mI16_2_6, mI16_2_7, mI16_2_8, mI16_2_9, mI16_2_10, mI16_2_11, mI16_2_12, mI16_2_13, mI16_2_14, mI16_2_15]
  ring

lemma idct16v_row_3 (s : ℕ → ℚ) :
    idct16v s 3 = ∑ l ∈ Finset.range 16, idctM16 3 l * s l := by
  simp only [Finset.sum_range_succ, Finset.sum_range_zero, idct16v, Nat.reduceEqDiff, if_false, if_true, ite_false, ite_true,
    mI16_3_0, mI16_3_1, mI16_3_2, mI16_3_3, mI16_3_4, mI16_3_5, mI16_3_6, mI16_3_7, mI16_3_8, mI16_3_9, mI16_3_10, mI16_3_11, mI16_3_12, mI16_3_13, mI16_3_14, mI16_3_15]
  ring

lemma idct16v_row_4 (s : ℕ → ℚ) :
    idct16v s 4 = ∑ l ∈ Finset.range 16, idctM16 4 l * s l := by
  simp only [Finset.sum_range_succ, Finset.sum_range_zero, idct16v, Nat.reduceEqDiff, if_false, if_true, ite_false, ite_true,
    mI16_4_0, mI16_4_1, mI16_4_2, mI16_4_3, mI16_4_4, mI16_4_5, mI16_4_6, mI16_4_7, mI16_4_8, mI16_4_9, mI16_4_10, mI16_4_11, mI16_4_12, mI16_4_13, mI16_4_14, mI16_4_15]
  ring

lemma idct16v_row_5 (s : ℕ → ℚ) :
    idct16v s 5 = ∑ l ∈ Finset.range 16, idctM16 5 l * s l := by
  simp only [Finset.sum_range_succ, Finset.sum_range_zero, idct16v, Nat.reduceEqDiff, if_false, if_true, ite_false, ite_true,
    mI16_5_0, mI16_5_1, mI16_5_2, mI16_5_3, mI16_5_4, mI16_5_5, mI16_5_6, mI16_5_7, mI16_5_8, mI16_5_9, mI16_5_10, mI16_5_11, mI16_5_12, mI16_5_13, mI16_5_14, mI16_5_15]
  ring

lemma idct16v_row_6 (s : ℕ → ℚ) :
    idct16v s 6 = ∑ l ∈ Finset.range 16, idctM16 6 l * s l := by
  simp only [Finset.sum_range_succ, Finset.sum_range_zero, idct16v, Nat.reduceEqDiff, if_false, if_true, ite_false, ite_true,
    mI16_6_0, mI16_6_1, mI16_6_2, mI16_6_3, mI16_6_4, mI16_6_5, mI16_6_6, mI16_6_7, mI16_6_8, mI16_6_9, mI16_6_10, mI16_6_11, mI16_6_12, mI16_6_13, mI16_6_14, mI16_6_15]
  ring

lemma idct16v_row_7 (s : ℕ → ℚ) :
    idct16v s 7 = ∑ l ∈ Finset.range 16, idctM16 7 l * s l := by
  simp only [Finset.sum_range_succ, Finset.sum_range_zero, idct16v, Nat.reduceEqDiff, if_false, if_true, ite_false, ite_true,
    mI16_7_0, mI16_7_1, mI16_7_2, mI16_7_3, mI16_7_4, mI16_7_5, mI16_7_6, mI16_7_7, mI16_7_8, mI16_7_9, mI16_7_10, mI16_7_11, mI16_7_12, mI16_7_13, mI16_7_14, mI16_7_15]
  ring

lemma idct16v_row_8 (s : ℕ → ℚ) :
    idct16v s 8 = ∑ l ∈ Finset.range 16, idctM16 8 l * s l := by
  simp only [Finset.sum_range_succ, Finset.sum_range_zero, idct16v, Nat.reduceEqDiff, if_false, if_true, ite_false, ite_true,
    mI16_8_0, mI16_8_1, mI16_8_2, mI16_8_3, mI16_8_4, mI16_8_5, mI16_8_6, mI16_8_7, mI16_8_8, mI16_8_9, mI16_8_10, mI16_8_11, mI16_8_12, mI16_8_13, mI16_8_14, mI16_8_15]
  ring

lemma idct16v_row_9 (s : ℕ → ℚ) :
    idct16v s 9 = ∑ l ∈ Finset.range 16, idctM16 9 l * s l := by
  simp only [Finset.sum_range_succ, Finset.sum_range_zero, idct16v, Nat.reduceEqDiff, if_false, if_true, ite_false, ite_true,
    mI16_9_0, mI16_9_1, mI16_9_2, mI16_9_3, mI16_9_4, mI16_9_5, mI16_9_6, mI16_9_7, mI16_9_8, mI16_9_9, mI16_9_10, mI16_9_11, mI16_9_12, mI16_9_13, mI16_9_14, mI16_9_15]
  ring

lemma idct16v_row_10 (s : ℕ → ℚ) :
    idct16v s 10 = ∑ l ∈ Finset.range 16, idctM16 10 l * s l := by
  simp only [Finset.sum_range_succ, Finset.sum_range_zero, idct16v, Nat.reduceEqDiff, if_false, if_true, ite_false, ite_true,
    mI16_10_0, mI16_10_1, mI16_10_2, mI16_10_3, mI16_10_4, mI16_10_5, mI16_10_6, mI16_10_7, mI16_10_8, mI16_10_9, mI16_10_10, mI16_10_11, mI16_10_12, mI16_10_13, mI16_10_14, mI16_10_15]
  ring

lemma idct16v_row_11 (s : ℕ → ℚ) :
    idct16v s 11 = ∑ l ∈ Finset.range 16, idctM16 11 l * s l := by
  simp only [Finset.sum_range_succ, Finset.sum_range_zero, idct16v, Nat.reduceEqDiff, if_false, if_true, ite_false, ite_true,
    mI16_11_0, mI16_11_1, mI16_11_2, mI16_11_3, mI16_11_4, mI16_11_5, mI16_11_6, mI16_11_7, mI16_11_8, mI16_11_9, mI16_11_10, mI16_11_11, mI16_11_12, mI16_11_13, mI16_11_14, mI16_11_15]
  ring

lemma idct16v_row_12 (s : ℕ → ℚ) :
    idct16v s 12 = ∑ l ∈ Finset.range 16, idctM16 12 l * s l := by
  simp only [Finset.sum_range_succ, Finset.sum_range_zero, idct16v, Nat.reduceEqDiff, if_false, if_true, ite_false, ite_true,
    mI16_12_0, mI16_12_1, mI16_12_2, mI16_12_3, mI16_12_4, mI16_12_5, mI16_12_6, mI16_12_7, mI16_12_8, mI16_12_9, mI16_12_10, mI16_12_11, mI16_12_12, mI16_12_13, mI16_12_14, mI16_12_15]
  ring

lemma idct16v_row_13 (s : ℕ → ℚ) :
    idct16v s 13 = ∑ l ∈ Finset.range 16, idctM16 13 l * s l := by
  simp only [Finset.sum_range_succ, Finset.sum_range_zero, idct16v, Nat.reduceEqDiff, if_false, if_true, ite_false, ite_true,
    mI16_13_0, mI16_13_1, mI16_13_2, mI16_13_3, mI16_13_4, mI16_13_5, mI16_13_6, mI16_13_7, mI16_13_8, mI16_13_9, mI16_13_10, mI16_13_11, mI16_13_12, mI16_13_13, mI16_13_14, mI16_13_15]
  ring

lemma idct16v_row_14 (s : ℕ → ℚ) :
    idct16v s 14 = ∑ l ∈ Finset.range 16, idctM16 14 l * s l := by
  simp only [Finset.sum_range_succ, Finset.sum_range_zero, idct16v, Nat.reduceEqDiff, if_false, if_true, ite_false, ite_true,
    mI16_14_0, mI16_14_1, mI16_14_2, mI16_14_3, mI16_14_4, mI16_14_5, mI16_14_6, mI16_14_7, mI16_14_8, mI16_14_9, mI16_14_10, mI16_14_11, mI16_14_12, mI16_14_13, mI16_14_14, mI16_14_15]
  ring

lemma idct16v_row_15 (s : ℕ → ℚ) :
    idct16v s 15 = ∑ l ∈ Finset.range 16, idctM16 15 l * s l := by
  simp only [Finset.sum_range_succ, Finset.sum_range_zero, idct16v, Nat.reduceEqDiff, if_false, if_true, ite_false, ite_true,
    mI16_15_0, mI16_15_1, mI16_15_2, mI16_15_3, mI16_15_4, mI16_15_5, mI16_15_6, mI16_15_7, mI16_15_8, mI16_15_9, mI16_15_10, mI16_15_11, mI16_15_12, mI16_15_13, mI16_15_14, mI16_15_15]
  ring

/-- The 16-point butterfly `idct16v` computes the linear map with matrix
`idctM16`. -/
lemma idct16v_matrix (s : ℕ → ℚ) (i : ℕ) (hi : i < 16) :
    idct16v s i = ∑ l ∈ Finset.range 16, idctM16 i l * s l := by
  interval_cases i
  exacts [idct16v_row_0 s, idct16v_row_1 s, idct16v_row_2 s, idct16v_row_3 s, idct16v_row_4 s, idct16v_row_5 s, idct16v_row_6 s, idct16v_row_7 s, idct16v_row_8 s, idct16v_row_9 s, idct16v_row_10 s, idct16v_row_11 s, idct16v_row_12 s, idct16v_row_13 s, idct16v_row_14 s, idct16v_row_15 s]

set_option maxHeartbeats 4000000 in
/-- Every entry of the composed round-trip matrix deviates from the
identity by at most `1/80000`. -/
lemma rt8_entry_bound (i : ℕ) (hi : i < 8) (l : ℕ) (hl : l < 8) :
    |(∑ k ∈ Finset.range 8, idctM8 i k * fdctM8 k l) - (if i = l then 1 else 0)| ≤ 1 / 80000 := by
  interval_cases i <;> interval_cases l <;>
    (simp only [Finset.sum_range_succ, Finset.sum_range_zero, Nat.reduceEqDiff, if_false, if_true, ite_false, ite_true,
      mI8_0_0, mI8_0_1, mI8_0_2, mI8_0_3, mI8_0_4, mI8_0_5, mI8_0_6, mI8_0_7, mI8_1_0, mI8_1_1, mI8_1_2, mI8_1_3, mI8_1_4, mI8_1_5, mI8_1_6, mI8_1_7, mI8_2_0, mI8_2_1, mI8_2_2, mI8_2_3, mI8_2_4, mI8_2_5, mI8_2_6, mI8_2_7, mI8_3_0, mI8_3_1, mI8_3_2, mI8_3_3, mI8_3_4, mI8_3_5, mI8_3_6, mI8_3_7, mI8_4_0, mI8_4_1, mI8_4_2, mI8_4_3, mI8_4_4, mI8_4_5, mI8_4_6, mI8_4_7, mI8_5_0, mI8_5_1, mI8_5_2, mI8_5_3, mI8_5_4, mI8_5_5, mI8_5_6, mI8_5_7, mI8_6_0, mI8_6_1, mI8_6_2, mI8_6_3, mI8_6_4, mI8_6_5, mI8_6_6, mI8_6_7, mI8_7_0, mI8_7_1, mI8_7_2, mI8_7_3, mI8_7_4, mI8_7_5, mI8_7_6, mI8_7_7,
      mF8_0_0, mF8_0_1, mF8_0_2, mF8_0_3, mF8_0_4, mF8_0_5, mF8_0_6, mF8_0_7, mF8_1_0, mF8_1_1, mF8_1_2, mF8_1_3, mF8_1_4, mF8_1_5, mF8_1_6, mF8_1_7, mF8_2_0, mF8_2_1, mF8_2_2, mF8_2_3, mF8_2_4, mF8_2_5, mF8_2_6, mF8_2_7, mF8_3_0, mF8_3_1, mF8_3_2, mF8_3_3, mF8_3_4, mF8_3_5, mF8_3_6, mF8_3_7, mF8_4_0, mF8_4_1, mF8_4_2, mF8_4_3, mF8_4_4, mF8_4_5, mF8_4_6, mF8_4_7, mF8_5_0, mF8_5_1, mF8_5_2, mF8_5_3, mF8_5_4, mF8_5_5, mF8_5_6, mF8_5_7, mF8_6_0, mF8_6_1, mF8_6_2, mF8_6_3, mF8_6_4, mF8_6_5, mF8_6_6, mF8_6_7, mF8_7_0, mF8_7_1, mF8_7_2, mF8_7_3, mF8_7_4, mF8_7_5, mF8_7_6, mF8_7_7]
     norm_num [abs_le])

set_option maxHeartbeats 4000000 in
/-- Every entry of the composed round-trip matrix deviates from the
identity by at most `1/160000`. -/
lemma rt16_entry_bound (i : ℕ) (hi : i < 16) (l : ℕ) (hl : l < 16) :
    |(∑ k ∈ Finset.range 16, idctM16 i k * fdctM16 k l) - (if i = l then 1 else 0)| ≤ 1 / 160000 := by
  interval_cases i <;> interval_cases l <;>
    (simp only [Finset.sum_range_succ, Finset.sum_range_zero, Nat.reduceEqDiff, if_false, if_true, ite_false, ite_true,
      mI16_0_0, mI16_0_1, mI16_0_2, mI16_0_3, mI16_0_4, mI16_0_5, mI16_0_6, mI16_0_7, mI16_0_8, mI16_0_9, mI16_0_10, mI16_0_11, mI16_0_12, mI16_0_13, mI16_0_14, mI16_0_15, mI16_1_0, mI16_1_1, mI16_1_2, mI16_1_3, mI16_1_4, mI16_1_5, mI16_1_6, mI16_1_7, mI16_1_8, mI16_1_9, mI16_1_10, mI16_1_11, mI16_1_12, mI16_1_13, mI16_1_14, mI16_1_15, mI16_2_0, mI16_2_1, mI16_2_2, mI16_2_3, mI16_2_4, mI16_2_5, mI16_2_6, mI16_2_7, mI16_2_8, mI16_2_9, mI16_2_10, mI16_2_11, mI16_2_12, mI16_2_13, mI16_2_14, mI16_2_15, mI16_3_0, mI16_3_1, mI16_3_2, mI16_3_3, mI16_3_4, mI16_3_5, mI16_3_6, mI16_3_7, mI16_3_8, mI16_3_9, mI16_3_10, mI16_3_11, mI16_3_12, mI16_3_13, mI16_3_14, mI16_3_15, mI16_4_0, mI16_4_1, mI16_4_2, mI16_4_3, mI16_4_4, mI16_4_5, mI16_4_6, mI16_4_7, mI16_4_8, mI16_4_9, mI16_4_10, mI16_4_11, mI16_4_12, mI16_4_13, mI16_4_14, mI16_4_15, mI16_5_0, mI16_5_1, mI16_5_2, mI16_5_3, mI16_5_4, mI16_5_5, mI16_5_6, mI16_5_7, mI16_5_8, mI16_5_9, mI16_5_10, mI16_5_11, mI16_5_12, mI16_5_13, mI16_5_14, mI16_5_15, mI16_6_0, mI16_6_1, mI16_6_2, mI16_6_3, mI16_6_4, mI16_6_5, mI16_6_6, mI16_6_7, mI16_6_8, mI16_6_9, mI16_6_10, mI16_6_11, mI16_6_12, mI16_6_13, mI16_6_14, mI16_6_15, mI16_7_0, mI16_7_1, mI16_7_2, mI16_7_3, mI16_7_4, mI16_7_5, mI16_7_6, mI16_7_7, mI16_7_8, mI16_7_9, mI16_7_10, mI16_7_11, mI16_7_12, mI16_7_13, mI16_7_14, mI16_7_15, mI16_8_0, mI16_8_1, mI16_8_2, mI16_8_3, mI16_8_4, mI16_8_5, mI16_8_6, mI16_8_7, mI16_8_8, mI16_8_9, mI16_8_10, mI16_8_11, mI16_8_12, mI16_8_13, mI16_8_14, mI16_8_15, mI16_9_0, mI16_9_1, mI16_9_2, mI16_9_3, mI16_9_4, mI16_9_5, mI16_9_6, mI16_9_7, mI16_9_8, mI16_9_9, mI16_9_10, mI16_9_11, mI16_9_12, mI16_9_13, mI16_9_14, mI16_9_15, mI16_10_0, mI16_10_1, mI16_10_2, mI16_10_3, mI16_10_4, mI16_10_5, mI16_10_6, mI16_10_7, mI16_10_8, mI16_10_9, mI16_10_10, mI16_10_11, mI16_10_12, mI16_10_13, mI16_10_14, mI16_10_15, mI16_11_0, mI16_11_1, mI16_11_2, mI16_11_3, mI16_11_4, mI16_11_5, mI16_11_6, mI16_11_7, mI16_11_8, mI16_11_9, mI16_11_10, mI16_11_11, mI16_11_12, mI16_11_13, mI16_11_14, mI16_11_15, mI16_12_0, mI16_12_1, mI16_12_2, mI16_12_3, mI16_12_4, mI16_12_5, mI16_12_6, mI16_12_7, mI16_12_8, mI16_12_9, mI16_12_10, mI16_12_11, mI16_12_12, mI16_12_13, mI16_12_14, mI16_12_15, mI16_13_0, mI16_13_1, mI16_13_2, mI16_13_3, mI16_13_4, mI16_13_5, mI16_13_6, mI16_13_7, mI16_13_8, mI16_13_9, mI16_13_10, mI16_13_11, mI16_13_12, mI16_13_13, mI16_13_14, mI16_13_15, mI16_14_0, mI16_14_1, mI16_14_2, mI16_14_3, mI16_14_4, mI16_14_5, mI16_14_6, mI16_14_7, mI16_14_8, mI16_14_9, mI16_14_10, mI16_14_11, mI16_14_12, mI16_14_13, mI16_14_14, mI16_14_15, mI16_15_0, mI16_15_1, mI16_15_2, mI16_15_3, mI16_15_4, mI16_15_5, mI16_15_6, mI16_15_7, mI16_15_8, mI16_15_9, mI16_15_10, mI16_15_11, mI16_15_12, mI16_15_13, mI16_15_14, mI16_15_15,
      mF16_0_0, mF16_0_1, mF16_0_2, mF16_0_3, mF16_0_4, mF16_0_5, mF16_0_6, mF16_0_7, mF16_0_8, mF16_0_9, mF16_0_10, mF16_0_11, mF16_0_12, mF16_0_13, mF16_0_14, mF16_0_15, mF16_1_0, mF16_1_1, mF16_1_2, mF16_1_3, mF16_1_4, mF16_1_5, mF16_1_6, mF16_1_7, mF16_1_8, mF16_1_9, mF16_1_10, mF16_1_11, mF16_1_12, mF16_1_13, mF16_1_14, mF16_1_15, mF16_2_0, mF16_2_1, mF16_2_2, mF16_2_3, mF16_2_4, mF16_2_5, mF16_2_6, mF16_2_7, mF16_2_8, mF16_2_9, mF16_2_10, mF16_2_11, mF16_2_12, mF16_2_13, mF16_2_14, mF16_2_15, mF16_3_0, mF16_3_1, mF16_3_2, mF16_3_3, mF16_3_4, mF16_3_5, mF16_3_6, mF16_3_7, mF16_3_8, mF16_3_9, mF16_3_10, mF16_3_11, mF16_3_12, mF16_3_13, mF16_3_14, mF16_3_15, mF16_4_0, mF16_4_1, mF16_4_2, mF16_4_3, mF16_4_4, mF16_4_5, mF16_4_6, mF16_4_7, mF16_4_8, mF16_4_9, mF16_4_10, mF16_4_11, mF16_4_12, mF16_4_13, mF16_4_14, mF16_4_15, mF16_5_0, mF16_5_1, mF16_5_2, mF16_5_3, mF16_5_4, mF16_5_5, mF16_5_6, mF16_5_7, mF16_5_8, mF16_5_9, mF16_5_10, mF16_5_11, mF16_5_12, mF16_5_13, mF16_5_14, mF16_5_15, mF16_6_0, mF16_6_1, mF16_6_2, mF16_6_3, mF16_6_4, mF16_6_5, mF16_6_6, mF16_6_7, mF16_6_8, mF16_6_9, mF16_6_10, mF16_6_11, mF16_6_12, mF16_6_13, mF16_6_14, mF16_6_15, mF16_7_0, mF16_7_1, mF16_7_2, mF16_7_3, mF16_7_4, mF16_7_5, mF16_7_6, mF16_7_7, mF16_7_8, mF16_7_9, mF16_7_10, mF16_7_11, mF16_7_12, mF16_7_13, mF16_7_14, mF16_7_15, mF16_8_0, mF16_8_1, mF16_8_2, mF16_8_3, mF16_8_4, mF16_8_5, mF16_8_6, mF16_8_7, mF16_8_8, mF16_8_9, mF16_8_10, mF16_8_11, mF16_8_12, mF16_8_13, mF16_8_14, mF16_8_15, mF16_9_0, mF16_9_1, mF16_9_2, mF16_9_3, mF16_9_4, mF16_9_5, mF16_9_6, mF16_9_7, mF16_9_8, mF16_9_9, mF16_9_10, mF16_9_11, mF16_9_12, mF16_9_13, mF16_9_14, mF16_9_15, mF16_10_0, mF16_10_1, mF16_10_2, mF16_10_3, mF16_10_4, mF16_10_5, mF16_10_6, mF16_10_7, mF16_10_8, mF16_10_9, mF16_10_10, mF16_10_11, mF16_10_12, mF16_10_13, mF16_10_14, mF16_10_15, mF16_11_0, mF16_11_1, mF16_11_2, mF16_11_3, mF16_11_4, mF16_11_5, mF16_11_6, mF16_11_7, mF16_11_8, mF16_11_9, mF16_11_10, mF16_11_11, mF16_11_12, mF16_11_13, mF16_11_14, mF16_11_15, mF16_12_0, mF16_12_1, mF16_12_2, mF16_12_3, mF16_12_4, mF16_12_5, mF16_12_6, mF16_12_7, mF16_12_8, mF16_12_9, mF16_12_10, mF16_12_11, mF16_12_12, mF16_12_13, mF16_12_14, mF16_12_15, mF16_13_0, mF16_13_1, mF16_13_2, mF16_13_3, mF16_13_4, mF16_13_5, mF16_13_6, mF16_13_7, mF16_13_8, mF16_13_9, mF16_13_10, mF16_13_11, mF16_13_12, mF16_13_13, mF16_13_14, mF16_13_15, mF16_14_0, mF16_14_1, mF16_14_2, mF16_14_3, mF16_14_4, mF16_14_5, mF16_14_6, mF16_14_7, mF16_14_8, mF16_14_9, mF16_14_10, mF16_14_11, mF16_14_12, mF16_14_13, mF16_14_14, mF16_14_15, mF16_15_0, mF16_15_1, mF16_15_2, mF16_15_3, mF16_15_4, mF16_15_5, mF16_15_6, mF16_15_7, mF16_15_8, mF16_15_9, mF16_15_10, mF16_15_11, mF16_15_12, mF16_15_13, mF16_15_14, mF16_15_15]
     norm_num [abs_le])

/-- The 1D round trip is the linear map with the product matrix. -/
lemma rt8_matrix (x : ℕ → ℚ) (i : ℕ) (hi : i < 8) :
    idct8v (fdct8v x) i
      = ∑ l ∈ Finset.range 8, (∑ k ∈ Finset.range 8, idctM8 i k * fdctM8 k l) * x l := by
  rw [idct8v_matrix (fdct8v x) i hi]
  rw [Finset.sum_congr rfl (fun k hk => by
    rw [fdct8v_matrix x k (Finset.mem_range.mp hk), Finset.mul_sum])]
  rw [Finset.sum_comm]
  refine Finset.sum_congr rfl (fun l _ => ?_)
  rw [Finset.sum_mul]
  refine Finset.sum_congr rfl (fun k _ => ?_)
  ring

/-- The 1D round trip is the linear map with the product matrix. -/
lemma rt16_matrix (x : ℕ → ℚ) (i : ℕ) (hi : i < 16) :
    idct16v (fdct16v x) i
      = ∑ l ∈ Finset.range 16, (∑ k ∈ Finset.range 16, idctM16 i k * fdctM16 k l) * x l := by
  rw [idct16v_matrix (fdct16v x) i hi]
  rw [Finset.sum_congr rfl (fun k hk => by
    rw [fdct16v_matrix x k (Finset.mem_range.mp hk), Finset.mul_sum])]
  rw [Finset.sum_comm]
  refine Finset.sum_congr rfl (fun l _ => ?_)
  rw [Finset.sum_mul]
  refine Finset.sum_congr rfl (fun k _ => ?_)
  ring

/-- Round-trip accuracy for size 8. -/
lemma dct8_roundtrip_bound (x : ℕ → ℚ) (M : ℚ) (hM : ∀ j, j < 8 → |x j| ≤ M)
    (i : ℕ) (hi : i < 8) :
    |idct8v (fdct8v x) i - x i| ≤ M * (1 / 10000) := by
  have hM0 : 0 ≤ M := le_trans (abs_nonneg _) (hM 0 (by norm_num))
  rw [rt8_matrix x i hi]
  have hxi : x i = ∑ l ∈ Finset.range 8, (if i = l then (1 : ℚ) else 0) * x l := by
    rw [Finset.sum_congr rfl (fun l _ => by
      rw [show (if i = l then (1 : ℚ) else 0) * x l = if i = l then x l else 0 by
        split_ifs <;> ring])]
    rw [Finset.sum_ite_eq (Finset.range 8) i x, if_pos (Finset.mem_range.mpr hi)]
  rw [hxi, ← Finset.sum_sub_distrib]
  rw [Finset.sum_congr rfl (fun l _ => show _ = ((∑ k ∈ Finset.range 8, idctM8 i k * fdctM8 k l) - (if i = l then (1 : ℚ) else 0)) * x l by ring)]
  refine le_trans (Finset.abs_sum_le_sum_abs _ _) ?_
  have hstep : ∀ l ∈ Finset.range 8,
      |((∑ k ∈ Finset.range 8, idctM8 i k * fdctM8 k l) - (if i = l then (1 : ℚ) else 0)) * x l|
        ≤ (1 / 80000) * M := by
    intro l hl
    rw [abs_mul]
    exact mul_le_mul (rt8_entry_bound i hi l (Finset.mem_range.mp hl))
      (hM l (Finset.mem_range.mp hl)) (abs_nonneg _) (by norm_num)
  refine le_trans (Finset.sum_le_sum hstep) ?_
  rw [Finset.sum_const, Finset.card_range, nsmul_eq_mul]
  exact le_of_eq (by ring)

/-- Round-trip accuracy for size 16. -/
lemma dct16_roundtrip_bound (x : ℕ → ℚ) (M : ℚ) (hM : ∀ j, j < 16 → |x j| ≤ M)
    (i : ℕ) (hi : i < 16) :
    |idct16v (fdct16v x) i - x i| ≤ M * (1 / 10000) := by
  have hM0 : 0 ≤ M := le_trans (abs_nonneg _) (hM 0 (by norm_num))
  rw [rt16_matrix x i hi]
  have hxi : x i = ∑ l ∈ Finset.range 16, (if i = l then (1 : ℚ) else 0) * x l := by
    rw [Finset.sum_congr rfl (fun l _ => by
      rw [show (if i = l then (1 : ℚ) else 0) * x l = if i = l then x l else 0 by
        split_ifs <;> ring])]
    rw [Finset.sum_ite_eq (Finset.range 16) i x, if_pos (Finset.mem_range.mpr hi)]
  rw [hxi, ← Finset.sum_sub_distrib]
  rw [Finset.sum_congr rfl (fun l _ => show _ = ((∑ k ∈ Finset.range 16, idctM16 i k * fdctM16 k l) - (if i = l then (1 : ℚ) else 0)) * x l by ring)]
  refine le_trans (Finset.abs_sum_le_sum_abs _ _) ?_
  have hstep : ∀ l ∈ Finset.range 16,
      |((∑ k ∈ Finset.range 16, idctM16 i k * fdctM16 k l) - (if i = l then (1 : ℚ) else 0)) * x l|
        ≤ (1 / 160000) * M := by
    intro l hl
    rw [abs_mul]
    exact mul_le_mul (rt16_entry_bound i hi l (Finset.mem_range.mp hl))
      (hM l (Finset.mem_range.mp hl)) (abs_nonneg _) (by norm_num)
  refine le_trans (Finset.sum_le_sum hstep) ?_
  rw [Finset.sum_const, Finset.card_range, nsmul_eq_mul]
  exact le_of_eq (by ring)

/-- Claim C6: for every vector bounded by `M` in magnitude, the inverse
1D butterfly applied to the forward 1D butterfly (sizes 8 and 16, with
`add = 0`) returns the vector to within the relative tolerance `1/10000`
(the exact-arithmetic deviation of the literal constants is below
`5e-15` per entry, far inside the claimed `1e-4`). -/
theorem claim6_dct_roundtrip :
    (∀ (x : ℕ → ℚ) (M : ℚ), (∀ j, j < 8 → |x j| ≤ M) →
      ∀ i, i < 8 → |idct8v (fdct8v x) i - x i| ≤ M * (1 / 10000)) ∧
    (∀ (x : ℕ → ℚ) (M : ℚ), (∀ j, j < 16 → |x j| ≤ M) →
      ∀ i, i < 16 → |idct16v (fdct16v x) i - x i| ≤ M * (1 / 10000)) :=
  ⟨fun x M hM i hi => dct8_roundtrip_bound x M hM i hi,
   fun x M hM i hi => dct16_roundtrip_bound x M hM i hi⟩

/-- Witness for C6 on the constant vector 1 with bound `M = 1`. -/
theorem claim6_dct_roundtrip_witness :
    |idct8v (fdct8v (fun _ => 1)) 0 - (fun _ : ℕ => (1 : ℚ)) 0| ≤ 1 * (1 / 10000) ∧
    |idct16v (fdct16v (fun _ => 1)) 0 - (fun _ : ℕ => (1 : ℚ)) 0| ≤ 1 * (1 / 10000) :=
  ⟨claim6_dct_roundtrip.1 (fun _ => 1) 1 (fun j _ => by norm_num) 0 (by norm_num),
   claim6_dct_roundtrip.2 (fun _ => 1) 1 (fun j _ => by norm_num) 0 (by norm_num)⟩

end Dctdnoiz
